import Mathlib

/-!
# Layer coordinator of the new-tab extension (`src/js/layer.js`)

A shallow embedding of `LayerSystem`: the module-level variables
(`currentZIndex`, `elementRegistry`, `isInitialized`, `conflictInterval`) and the
part of the document the module reads and writes (per element: the z-index and
the `active-layer` class) form an explicit `State`; every method is a function
on that state.

Modelling conventions.
* An element handle is the id under which `document.getElementById` finds the
  element; the document is a lookup function from ids to element records.
* Stacking values are integers (`Int`); all values the module computes stay far
  below `2^53`, where JavaScript numbers are exact.
* `Date.now()` is a parameter `now` of the methods that read the clock.
* Style properties other than the z-index (`position`, `transform`,
  `transition`, `boxShadow`), timers and console output do not influence the
  counter, the registry, the stacking values or the markers and are left out.
-/

namespace LayerSystem

/-! ## Constants -/

namespace Z_INDEX

/-- `Z_INDEX.BASE` (layer.js:16). -/
def BASE : Int := 1000000

/-- `Z_INDEX.STEP` (layer.js:17). -/
def STEP : Int := 2

/-- `Z_INDEX.MAX_SAFE` (layer.js:18). -/
def MAX_SAFE : Int := 9999999

end Z_INDEX

/-- `Object.values(ELEMENTS)` (layer.js:22-29), in insertion order. -/
def ELEMENTS : List String :=
  ["draggableTodo", "todo-short", "notes-widget", "time-widget", "date-widget", "notes-modal"]

/-! ## Document model -/

/-- The part of a DOM element the layer system touches: its z-index
(`none` stands for `auto`, i.e. no numeric value) and whether its class list
contains `active-layer`. -/
structure Element where
  zIndex : Option Int
  activeLayer : Bool
  deriving DecidableEq

/-- The document: which element, if any, sits under an id. -/
abbrev Dom := String → Option Element

/-- `document.getElementById(id)`: the empty string never names an element. -/
def getElementById (d : Dom) (id : String) : Option Element :=
  if id = "" then none else d id

/-- Apply `f` to the element with handle `h`, when it is in the document. -/
def updateElement (d : Dom) (h : String) (f : Element → Element) : Dom :=
  fun k => if k = h then (d k).map f else d k

/-- `element.style.setProperty('z-index', z.toString(), 'important')`. -/
def setZIndex (d : Dom) (h : String) (z : Int) : Dom :=
  updateElement d h (fun e => { e with zIndex := some z })

/-- `element.classList.add('active-layer')`. -/
def classListAdd (d : Dom) (h : String) : Dom :=
  updateElement d h (fun e => { e with activeLayer := true })

/-- `element.classList.remove('active-layer')`. -/
def classListRemove (d : Dom) (h : String) : Dom :=
  updateElement d h (fun e => { e with activeLayer := false })

/-- `parseInt(window.getComputedStyle(element).zIndex) || 0`: the numeric
z-index, with `auto` (which parses to `NaN`) read as `0`. -/
def computedZ (e : Element) : Int :=
  e.zIndex.getD 0

/-! ## Registry (`elementRegistry`, a JavaScript `Map`) -/

/-- A value of `elementRegistry`: `{ element, zIndex, lastActive }`. -/
structure RegistryEntry where
  element : String
  zIndex : Int
  lastActive : Nat
  deriving DecidableEq

/-- The registry as an insertion-ordered association list. -/
abbrev Registry := List (String × RegistryEntry)

namespace Registry

/-- `Map.prototype.get`. -/
def get (m : Registry) (k : String) : Option RegistryEntry :=
  match m with
  | [] => none
  | (k', v) :: rest => if k' = k then some v else get rest k

/-- `Map.prototype.has`. -/
def has (m : Registry) (k : String) : Bool :=
  (get m k).isSome

/-- `Map.prototype.set`: overwrite in place, or append a new key. -/
def set (m : Registry) (k : String) (v : RegistryEntry) : Registry :=
  match m with
  | [] => [(k, v)]
  | (k', v') :: rest => if k' = k then (k, v) :: rest else (k', v') :: set rest k v

/-- Mutate the entry under `k` in place (`map.get(k).field = ...`). -/
def modify (m : Registry) (k : String) (f : RegistryEntry → RegistryEntry) : Registry :=
  match m with
  | [] => []
  | (k', v') :: rest => if k' = k then (k', f v') :: rest else (k', v') :: modify rest k f

end Registry

/-! ## Module state -/

/-- The private variables of the `LayerSystem` closure together with the
document. `conflictInterval` records whether the watchdog interval is set. -/
structure State where
  currentZIndex : Int
  elementRegistry : Registry
  isInitialized : Bool
  conflictInterval : Bool
  dom : Dom

/-- The state right after the script is loaded (layer.js:43-46), over a
document `d`. -/
def initial (d : Dom) : State :=
  { currentZIndex := Z_INDEX.BASE
    elementRegistry := []
    isInitialized := false
    conflictInterval := false
    dom := d }

/-! ## Helpers (layer.js:53-66) -/

/-- `getElement(elementId)` for a string argument: the handle of the element
found by `document.getElementById`, or `none` (`null`). -/
def getElement (d : Dom) (elementId : String) : Option String :=
  match getElementById d elementId with
  | some _ => some elementId
  | none => none

/-- `getElementId(element)` for an element argument: `element?.id || null`.
The `id` of the element with handle `h` is `h`; the empty string is falsy. -/
def getElementId (element : Option String) : Option String :=
  match element with
  | some h => if h = "" then none else some h
  | none => none

/-- `Object.values(ELEMENTS).indexOf(id)`: the position, or `-1`. -/
def indexOf (id : String) : Int :=
  if id ∈ ELEMENTS then (ELEMENTS.indexOf id : Nat) else -1

/-- The `defaultZ` of `register` (layer.js:202). -/
def defaultZ (id : String) : Int :=
  Z_INDEX.BASE + indexOf id * 1

/-! ## Public API -/

/-- One iteration of the `forEach` of `fixConflicts` (layer.js:146-161). -/
def fixConflictsStep (d : Dom) (id : String) : Dom :=
  match getElementById d id with
  | none => d
  | some element =>
    if computedZ element > 0 ∧ computedZ element < Z_INDEX.BASE then
      setZIndex d id (Z_INDEX.BASE + indexOf id * 1)
    else d

/-- `fixConflicts` (layer.js:144-164). -/
def fixConflicts (s : State) : State :=
  { s with dom := ELEMENTS.foldl fixConflictsStep s.dom }

/-- `register(element, id)` (layer.js:193-213). `ensureElementReady` only
adjusts `position` and `transform`. -/
def register (now : Nat) (element : Option String) (id : String) (s : State) : Bool × State :=
  match element with
  | none => (false, s)
  | some h =>
    if id = "" then (false, s)
    else
      (true,
        { s with
          dom := setZIndex s.dom h (defaultZ id)
          elementRegistry :=
            s.elementRegistry.set id { element := h, zIndex := defaultZ id, lastActive := now } })

/-- One iteration of the registration loop of `init` (layer.js:117-122). -/
def initRegisterStep (now : Nat) (s : State) (id : String) : State :=
  match getElementById s.dom id with
  | some _ => (register now (some id) id s).2
  | none => s

/-- `startMonitoring` (layer.js:324-349): (re)arms the watchdog interval. -/
def startMonitoring (s : State) : State :=
  { s with conflictInterval := true }

/-- `init` (layer.js:104-139). `disableOldSystems`, `setupEventListeners` and
`injectStyles` touch neither the counter, the registry nor the widgets'
z-index or markers. -/
def init (now : Nat) (s : State) : State :=
  if s.isInitialized then s
  else
    let s1 := fixConflicts s
    let s2 := ELEMENTS.foldl (initRegisterStep now) s1
    let s3 := startMonitoring s2
    { s3 with isInitialized := true }

/-- One iteration of the marker-clearing loop of `raise` (layer.js:283-290). -/
def clearOtherStep (id : String) (d : Dom) (otherId : String) : Dom :=
  if otherId ≠ id then
    match getElementById d otherId with
    | some _ => classListRemove d otherId
    | none => d
  else d

/-- `raise(elementId, source)` (layer.js:260-303), called with a string id, as
every caller in the repository does (`LayerSystem.raise(element.id, ...)`).
`source` is unused by the body; `applyVisualEffect` only sets `transition`,
`transform` and `boxShadow`. -/
def raise (now : Nat) (elementId : String) (s : State) : Bool × State :=
  match getElement s.dom elementId, getElementId (getElement s.dom elementId) with
  | some element, some id =>
    let bumped := s.currentZIndex + Z_INDEX.STEP
    let current := if bumped > Z_INDEX.MAX_SAFE then Z_INDEX.BASE else bumped
    let d1 := setZIndex s.dom element current
    let d2 := classListAdd d1 element
    let d3 := ELEMENTS.foldl (clearOtherStep id) d2
    let reg :=
      if s.elementRegistry.has id then
        s.elementRegistry.modify id (fun e => { e with zIndex := current, lastActive := now })
      else s.elementRegistry
    (true, { s with currentZIndex := current, dom := d3, elementRegistry := reg })
  | _, _ => (false, s)

/-- One iteration of the `forEach((id, index) => ...)` of `reset`
(layer.js:429-442). -/
def resetStep (s : State) (p : String × Nat) : State :=
  match getElementById s.dom p.1 with
  | none => s
  | some _ =>
    let newZ := Z_INDEX.BASE + (p.2 : Int) * 1
    { s with
      dom := classListRemove (setZIndex s.dom p.1 newZ) p.1
      elementRegistry :=
        if s.elementRegistry.has p.1 then
          s.elementRegistry.modify p.1 (fun e => { e with zIndex := newZ })
        else s.elementRegistry }

/-- `reset` (layer.js:422-448). The closing `debug()` call only reads. -/
def reset (s : State) : State :=
  (ELEMENTS.zip (List.range ELEMENTS.length)).foldl resetStep
    { s with currentZIndex := Z_INDEX.BASE }

/-- One iteration of the watchdog's `forEach` (layer.js:330-345). -/
def monitorStep (s : State) (id : String) : State :=
  match getElementById s.dom id with
  | none => s
  | some element =>
    if computedZ element > 0 ∧ computedZ element < Z_INDEX.BASE ∧ computedZ element ≠ 1000 then
      let newZ := s.currentZIndex + Z_INDEX.STEP
      { s with dom := setZIndex s.dom id newZ, currentZIndex := newZ }
    else s

/-- One firing of the interval callback installed by `startMonitoring`
(layer.js:329-346). -/
def monitorTick (s : State) : State :=
  ELEMENTS.foldl monitorStep s

/-! ## Observations -/

/-- The stacking value currently set on the element under `id`. -/
def stackingOf (s : State) (id : String) : Option Int :=
  match getElementById s.dom id with
  | some e => e.zIndex
  | none => none

/-- Whether the element under `id` carries the `active-layer` class. -/
def isActive (s : State) (id : String) : Bool :=
  match getElementById s.dom id with
  | some e => e.activeLayer
  | none => false

/-- Whether `id` is a key of `elementRegistry`. -/
def registered (s : State) (id : String) : Bool :=
  s.elementRegistry.has id

/-- Run a sequence of `raise` calls, each with its clock reading. -/
def raiseAll (calls : List (Nat × String)) (s : State) : State :=
  calls.foldl (fun st c => (raise c.1 c.2 st).2) s

/-- A document in which every widget of the static list exists, with no
z-index set and no marker. -/
def fullDom : Dom :=
  fun k => if k ∈ ELEMENTS then some { zIndex := none, activeLayer := false } else none

/-- The initialised module over `fullDom`. -/
def fullState : State :=
  init 0 (initial fullDom)

/-- A document holding one element whose id is not in the static list. -/
def customDom : Dom :=
  fun k => if k = "custom-widget" then some { zIndex := none, activeLayer := false } else none

/-- The state `fullState` after foreign code has written the z-index `z` on the
element of `todo-short`. -/
def interfered (z : Int) : State :=
  { fullState with dom := setZIndex fullState.dom "todo-short" z }

/-- The state `interfered 5` with the counter one step below the ceiling, as
after 4499999 raises. -/
def nearCeiling : State :=
  { interfered 5 with currentZIndex := 9999998 }

/-- Three raises of `draggableTodo` after `init` on the six-widget document. -/
def raisedThrice : State :=
  raiseAll [(1, "draggableTodo"), (2, "draggableTodo"), (3, "draggableTodo")] fullState

/-- The state `raisedThrice` after foreign code has written the z-index 5 on
the element of `todo-short`. -/
def raisedThenInterfered : State :=
  { raisedThrice with dom := setZIndex raisedThrice.dom "todo-short" 5 }

/-- The widget `w` holds the strictly greatest stacking value among the
registered widgets: it has a numeric stacking value, and every other registered
widget with a numeric stacking value is strictly below it. -/
def holdsTop (s : State) (w : String) : Prop :=
  ∃ zw : Int, stackingOf s w = some zw ∧
    ∀ other : String, registered s other = true → other ≠ w →
      ∀ z : Int, stackingOf s other = some z → z < zw

/-- States the page can be in once `init` has run: `init` on the freshly loaded
module over any document, followed by any number of `raise`, `reset`, repeated
`init` calls and watchdog ticks, interleaved with foreign code rewriting the
z-index and classes of existing elements. -/
inductive Reachable : State → Prop
  | init (now : Nat) (d : Dom) : Reachable (init now (initial d))
  | raise (now : Nat) (id : String) {s : State} : Reachable s → Reachable (raise now id s).2
  | reset {s : State} : Reachable s → Reachable (reset s)
  | reinit (now : Nat) {s : State} : Reachable s → Reachable (LayerSystem.init now s)
  | tick {s : State} : Reachable s → Reachable (monitorTick s)
  | foreign {s : State} (d : Dom) :
      (∀ id, (d id).isSome = (s.dom id).isSome) → Reachable s → Reachable { s with dom := d }

end LayerSystem

/-!
# Drag and resize controllers (`datetime.js`, `todo.js`, `notes.js`, `resizeable.js`)

Each `makeDraggable` / `makeResizable` closure is a record of its variables
together with the widget element, `localStorage` and the layer coordinator;
every handler is a function on that record.

Modelling conventions.
* Pixel quantities are integers. A JavaScript number that may be `undefined` or
  `NaN` is an `Option Int`: arithmetic and `Math.min` / `Math.max` propagate
  `none`, as they propagate `NaN`.
* `style.x = v + 'px'` with `v` not a number builds `'NaNpx'`, which the style
  setter rejects; the property then keeps its old value.
* The layout the browser reports at the time of an event (`window.innerWidth`,
  `offsetWidth`, `getBoundingClientRect()`) is a parameter of the handler.
* A string held in `localStorage` is represented by what `JSON.parse` makes of
  it; `JSON.stringify(v)` is the text that parses back to `v`.
* `setTimeout` hands out the positive ids 1, 2, 3, ... and the pending
  callbacks are kept in a list.
-/

namespace Interaction

/-! ## Numbers and style values -/

/-- A number that may be `undefined` / `NaN` (`none`). -/
abbrev JsNum := Option Int

/-- The sum `a + b` of JavaScript numbers. -/
def jsAdd (a b : JsNum) : JsNum :=
  match a, b with
  | some x, some y => some (x + y)
  | _, _ => none

/-- The difference `a - b` of JavaScript numbers. -/
def jsSub (a b : JsNum) : JsNum :=
  match a, b with
  | some x, some y => some (x - y)
  | _, _ => none

/-- `Math.max(a, b)`. -/
def jsMax (a b : JsNum) : JsNum :=
  match a, b with
  | some x, some y => some (max x y)
  | _, _ => none

/-- `Math.min(a, b)`. -/
def jsMin (a b : JsNum) : JsNum :=
  match a, b with
  | some x, some y => some (min x y)
  | _, _ => none

/-- The comparison `a < b` against a literal; `NaN < b` is false. -/
def jsLt (a : JsNum) (b : Int) : Bool :=
  match a with
  | some x => decide (x < b)
  | none => false

/-- The string `n + 'px'`. -/
def px (n : Int) : String :=
  toString n ++ "px"

/-- The assignment `style.prop = v + 'px'`, given the old value of the property:
`'NaNpx'` is rejected and leaves the old value. -/
def assignPx (old : String) (v : JsNum) : String :=
  match v with
  | some n => px n
  | none => old

/-- The assignment `style.prop = v` of a value read from a parsed object, given
the old value: `undefined` is rejected and leaves the old value; a string is
taken as it is (the members were written from the style itself). -/
def assignMember (old : String) (v : Option String) : String :=
  match v with
  | some x => x
  | none => old

/-! ## Events -/

/-- The object a handler receives: a `MouseEvent` (has `clientX`/`clientY`, no
`touches`), a `TouchEvent` (no `clientX`/`clientY`; the coordinates are those of
`touches[0]`), or the `Touch` object `e.touches[0]` that a touchmove listener
passes on (has `clientX`/`clientY`, no `touches`, no `preventDefault`). -/
inductive Pointer
  | mouse (clientX clientY : Int)
  | touchEvent (touchX touchY : Int)
  | touch (clientX clientY : Int)
  deriving DecidableEq

/-- The target of a pointer-down: its tag name and the selectors, among those a
handler asks for, that `e.target.closest(...)` matches. -/
structure Target where
  tagName : String
  closest : List String
  deriving DecidableEq

/-- Coordinates as datetime.js reads them (datetime.js:60-67, 84-91, 181-188,
209-216): `if (e.touches) { touches[0] } else { e.clientX / e.clientY }`. -/
def coordsSafe (e : Pointer) : JsNum × JsNum :=
  match e with
  | .mouse x y => (some x, some y)
  | .touchEvent x y => (some x, some y)
  | .touch x y => (some x, some y)

/-- One coordinate read as `e.clientX || (e.touches && e.touches[0].clientX)`
from an object that has `clientX` and no `touches`: `0` is falsy, so the result
is `undefined`. -/
def orTouches (v : Int) : JsNum :=
  if v = 0 then none else some v

/-- Coordinates as todo.js, notes.js and resizeable.js read them (todo.js:79-80,
103-104; notes.js:83-84, 104-105; resizeable.js:199-200, 225-226). -/
def coordsOr (e : Pointer) : JsNum × JsNum :=
  match e with
  | .mouse x y => (orTouches x, orTouches y)
  | .touchEvent x y => (some x, some y)
  | .touch x y => (orTouches x, orTouches y)

/-- What the browser reports when a handler runs: `window.innerWidth/Height`,
the element's `offsetWidth/Height` and its `getBoundingClientRect()`. -/
structure Layout where
  innerWidth : Int
  innerHeight : Int
  offsetWidth : Int
  offsetHeight : Int
  rectLeft : Int
  rectTop : Int
  rectWidth : Int
  rectHeight : Int
  deriving DecidableEq

/-! ## The widget element and the persistent store -/

/-- The inline style properties the controllers write. -/
structure Style where
  left : String
  top : String
  right : String
  bottom : String
  width : String
  height : String
  transition : String
  deriving DecidableEq

/-- The widget element: its id, inline style, the `dragging` / `resizing`
classes, and the font size of its `.time-display`, `.date-display` and
`.date-full` children (`none` when there is no such child). -/
structure Widget where
  id : String
  style : Style
  dragging : Bool
  resizing : Bool
  timeDisplay : Option String
  dateDisplay : Option String
  dateFull : Option String
  deriving DecidableEq

/-- A string held in `localStorage`, seen through `JSON.parse`: the empty
string, a text that parses to an object whose members are strings, or a text on
which `JSON.parse` throws. -/
inductive StoredText
  | empty
  | object (members : List (String × String))
  | malformed
  deriving DecidableEq

/-- The contents of `localStorage`: `getItem` is application. -/
abbrev Storage := String → Option StoredText

/-- `localStorage.setItem(key, text)`. -/
def setItem (store : Storage) (key : String) (text : StoredText) : Storage :=
  fun k => if k = key then some text else store k

/-- `savePosition` (datetime.js:126-132, todo.js:150-158, notes.js:140-146). -/
def savePosition (w : Widget) (key : String) (store : Storage) : Storage :=
  if w.style.left ≠ "" ∧ w.style.top ≠ "" then
    setItem store key (.object [("left", w.style.left), ("top", w.style.top)])
  else store

/-- `loadPosition` (datetime.js:134-145, todo.js:161-174, notes.js:148-159). -/
def loadPosition (store : Storage) (key : String) (w : Widget) : Widget :=
  match store key with
  | none => w
  | some .empty => w
  | some .malformed => w
  | some (.object pos) =>
    { w with
      style :=
        { w.style with
          left := assignMember w.style.left (pos.lookup "left")
          top := assignMember w.style.top (pos.lookup "top")
          right := "auto"
          bottom := "auto" } }

/-! ## Drag controller (`makeDraggable`) -/

/-- The three copies of `makeDraggable`. -/
inductive DragController
  | datetime
  | todo
  | notes
  deriving DecidableEq

/-- The variables of one `makeDraggable` closure, the pending `setTimeout`
callbacks `() => startDrag(e)` with their ids, the number of timers created so
far, the widget, `localStorage` and the layer coordinator. The flag
`isLongPress` of todo.js is written and never read, and is left out. -/
structure DragState where
  isDragging : Bool
  startX : JsNum
  startY : JsNum
  startLeft : JsNum
  startTop : JsNum
  longPressTimer : Option Nat
  timers : List (Nat × Pointer)
  timerCount : Nat
  storageKey : String
  widget : Widget
  storage : Storage
  layer : LayerSystem.State

/-- The coordinates a drag handler extracts from its event. -/
def dragCoords (c : DragController) (e : Pointer) : JsNum × JsNum :=
  match c with
  | .datetime => coordsSafe e
  | .todo => coordsOr e
  | .notes => coordsOr e

/-- The early return after the extraction: datetime.js leaves when either
coordinate is `undefined` (datetime.js:69, 93), todo.js and notes.js when
`clientX` is (todo.js:82, 106; notes.js:86, 107). -/
def dragCoordsMissing (c : DragController) (xy : JsNum × JsNum) : Bool :=
  match c with
  | .datetime => xy.1.isNone || xy.2.isNone
  | .todo => xy.1.isNone
  | .notes => xy.1.isNone

/-- The guard of todo.js:58-62 on the target of the pointer-down. -/
def todoGuard (target : Target) : Bool :=
  decide (target.tagName = "INPUT") || decide (target.tagName = "BUTTON") ||
    decide (".todo-add-btn" ∈ target.closest) || decide (".todo-delete-icon" ∈ target.closest) ||
    decide (".todo-status-icon" ∈ target.closest) || decide (".todo-clear-btn" ∈ target.closest)

/-- `setTimeout(() => startDrag(e), 100)` and the assignment of its id to
`longPressTimer`. -/
def armTimer (e : Pointer) (st : DragState) : DragState :=
  { st with
    longPressTimer := some (st.timerCount + 1)
    timers := st.timers ++ [(st.timerCount + 1, e)]
    timerCount := st.timerCount + 1 }

/-- `startLongPress` (datetime.js:46-49, todo.js:54-68, notes.js:67-72). Only
todo.js looks at the target. -/
def startLongPress (c : DragController) (e : Pointer) (target : Target) (st : DragState) :
    DragState :=
  match c with
  | .datetime => armTimer e st
  | .todo => if todoGuard target then st else armTimer e st
  | .notes => armTimer e st

/-- `startDrag` (datetime.js:51-78, todo.js:71-94, notes.js:74-96), with
layer.js loaded. The cursor of `document.body` (todo.js) is left out. -/
def startDrag (c : DragController) (now : Nat) (e : Pointer) (lay : Layout) (st : DragState) :
    DragState :=
  let st1 : DragState :=
    { st with
      isDragging := true
      widget := { st.widget with dragging := true }
      layer := (LayerSystem.raise now st.widget.id st.layer).2 }
  if dragCoordsMissing c (dragCoords c e) then st1
  else
    { st1 with
      startX := (dragCoords c e).1
      startY := (dragCoords c e).2
      startLeft := some lay.rectLeft
      startTop := some lay.rectTop
      widget := { st1.widget with style := { st1.widget.style with transition := "none" } } }

/-- The clamped coordinate `Math.max(5, Math.min(start + (client - startClient),
windowSize - elementSize - 5))` (datetime.js:95-107, todo.js:108-121,
notes.js:109-121). -/
def dragTarget (start client startClient : JsNum) (windowSize elementSize : Int) : JsNum :=
  jsMax (some 5) (jsMin (jsAdd start (jsSub client startClient))
    (some (windowSize - elementSize - 5)))

/-- The body of `moveElement` after the guards. -/
def applyMove (xy : JsNum × JsNum) (lay : Layout) (st : DragState) : DragState :=
  { st with
    widget :=
      { st.widget with
        style :=
          { st.widget.style with
            left := assignPx st.widget.style.left
              (dragTarget st.startLeft xy.1 st.startX lay.innerWidth lay.offsetWidth)
            top := assignPx st.widget.style.top
              (dragTarget st.startTop xy.2 st.startY lay.innerHeight lay.offsetHeight)
            right := "auto"
            bottom := "auto" } } }

/-- `moveElement` (datetime.js:80-113, todo.js:97-127, notes.js:98-127). In
todo.js and notes.js the first statement is `e.preventDefault()`, which throws
when `e` is a `Touch` object and so ends the handler. -/
def moveElement (c : DragController) (e : Pointer) (lay : Layout) (st : DragState) : DragState :=
  if st.isDragging = false then st
  else
    match c, e with
    | .todo, .touch _ _ => st
    | .notes, .touch _ _ => st
    | _, _ =>
      if dragCoordsMissing c (dragCoords c e) then st
      else applyMove (dragCoords c e) lay st

/-- The move listeners (datetime.js:32-41, todo.js:35-49, notes.js:51-63): a
mousemove passes the event on, a touchmove passes `e.touches[0]`. -/
def onPointerMove (c : DragController) (e : Pointer) (lay : Layout) (st : DragState) :
    DragState :=
  if st.isDragging then
    match e with
    | .touchEvent x y => moveElement c (.touch x y) lay st
    | p => moveElement c p lay st
  else st

/-- `clearTimeout(id)`. -/
def clearTimeout (timers : List (Nat × Pointer)) (id : Nat) : List (Nat × Pointer) :=
  timers.filter (fun t => decide (t.1 ≠ id))

/-- `stopDrag` (datetime.js:115-124, todo.js:130-147, notes.js:129-138). Timer
ids are positive, so `if (longPressTimer)` asks whether a timer was ever set. -/
def stopDrag (st : DragState) : DragState :=
  let st1 : DragState :=
    match st.longPressTimer with
    | some id => { st with timers := clearTimeout st.timers id }
    | none => st
  if st1.isDragging then
    { st1 with
      isDragging := false
      widget :=
        { st1.widget with
          dragging := false
          style := { st1.widget.style with transition := "" } }
      storage := savePosition st1.widget st1.storageKey st1.storage }
  else st1

/-- What can happen to a drag controller: a pointer-down on the handle
(mousedown / touchstart), a pending timeout elapsing, a pointer-move reaching
the move listener, a pointer-up or cancel (mouseup / touchend / touchcancel). -/
inductive DragEvent
  | pointerDown (e : Pointer) (target : Target)
  | timerFires (id : Nat)
  | pointerMove (e : Pointer)
  | pointerUp

/-- One event handled by the controller; `now` and `lay` are the clock and the
layout at that moment. A timeout that is no longer pending does nothing. -/
def dragStep (c : DragController) (now : Nat) (lay : Layout) (st : DragState)
    (ev : DragEvent) : DragState :=
  match ev with
  | .pointerDown e target => startLongPress c e target st
  | .timerFires id =>
    match st.timers.lookup id with
    | some e => startDrag c now e lay { st with timers := clearTimeout st.timers id }
    | none => st
  | .pointerMove e => onPointerMove c e lay st
  | .pointerUp => stopDrag st

/-- A run of events, all under the same clock reading and layout. -/
def dragRun (c : DragController) (now : Nat) (lay : Layout) (st : DragState)
    (evs : List DragEvent) : DragState :=
  evs.foldl (dragStep c now lay) st

/-- The controller at rest: not dragging, no marker, no timeout pending. -/
def Idle (st : DragState) : Prop :=
  st.isDragging = false ∧ st.widget.dragging = false ∧ st.timers = []

/-! ## Resize controller (`makeResizable`) -/

/-- The two copies of `makeResizable`: the local one of datetime.js and
`window.makeResizable` of resizeable.js (used by todo.js and notes.js). -/
inductive ResizeController
  | datetime
  | resizeable
  deriving DecidableEq

/-- The `options` argument: a member that is absent is `none`. -/
structure ResizeOptions where
  minWidth : JsNum
  minHeight : JsNum
  maxWidth : JsNum
  maxHeight : JsNum
  deriving DecidableEq

/-- The bounds in force (`minW` ... in datetime.js, `settings` in
resizeable.js). -/
structure ResizeSettings where
  minWidth : Int
  minHeight : Int
  maxWidth : Int
  maxHeight : Int
  deriving DecidableEq

/-- The expression `options.member || fallback`: `undefined` and `0` are
falsy. -/
def orDefault (v : JsNum) (fallback : Int) : Int :=
  match v with
  | some n => if n = 0 then fallback else n
  | none => fallback

/-- The bounds computed from the options (datetime.js:155-158,
resizeable.js:155-159). -/
def settingsOf (c : ResizeController) (o : ResizeOptions) : ResizeSettings :=
  match c with
  | .datetime =>
    { minWidth := orDefault o.minWidth 180
      minHeight := orDefault o.minHeight 120
      maxWidth := orDefault o.maxWidth 400
      maxHeight := orDefault o.maxHeight 300 }
  | .resizeable =>
    { minWidth := orDefault o.minWidth 260
      minHeight := orDefault o.minHeight 280
      maxWidth := orDefault o.maxWidth 600
      maxHeight := orDefault o.maxHeight 700 }

/-- The options of the time widget (datetime.js:358-363). -/
def timeOptions : ResizeOptions :=
  { minWidth := some 160, minHeight := some 100, maxWidth := some 450, maxHeight := some 250 }

/-- The options of the date widget (datetime.js:372-377). -/
def dateOptions : ResizeOptions :=
  { minWidth := some 180, minHeight := some 120, maxWidth := some 500, maxHeight := some 260 }

/-- The options of the to-do widget (todo.js:351-355). -/
def todoOptions : ResizeOptions :=
  { minWidth := some 260, minHeight := some 300, maxWidth := some 600, maxHeight := some 700 }

/-- The options of the notes widget (notes.js:390-394). -/
def notesOptions : ResizeOptions :=
  { minWidth := some 260, minHeight := some 280, maxWidth := some 600, maxHeight := some 700 }

/-- The variables of one `makeResizable` closure, the widget, `localStorage`,
the layer coordinator and the listeners registered on `document` (event type
and handler). -/
structure ResizeState where
  isResizing : Bool
  startX : JsNum
  startY : JsNum
  startWidth : JsNum
  startHeight : JsNum
  settings : ResizeSettings
  widget : Widget
  storage : Storage
  layer : LayerSystem.State
  documentListeners : List (String × String)

/-- `document.addEventListener(type, handler)`: a listener already registered
is not registered twice. -/
def addListener (ls : List (String × String)) (l : String × String) : List (String × String) :=
  if l ∈ ls then ls else ls ++ [l]

/-- `document.removeEventListener(type, handler)`. -/
def removeListener (ls : List (String × String)) (l : String × String) :
    List (String × String) :=
  ls.filter (fun x => decide (x ≠ l))

/-- The four `addEventListener` calls closing `initResize` (datetime.js:199-202,
resizeable.js:214-217). -/
def addGestureListeners (ls : List (String × String)) : List (String × String) :=
  addListener
    (addListener (addListener (addListener ls ("mousemove", "resize")) ("touchmove", "resize"))
      ("mouseup", "stopResize"))
    ("touchend", "stopResize")

/-- The four `removeEventListener` calls closing `stopResize`
(datetime.js:242-245, resizeable.js:267-270). -/
def removeGestureListeners (ls : List (String × String)) : List (String × String) :=
  removeListener
    (removeListener
      (removeListener (removeListener ls ("mousemove", "resize")) ("touchmove", "resize"))
      ("mouseup", "stopResize"))
    ("touchend", "stopResize")

/-- One `if / else if` ladder of `adjustFontSizes` (datetime.js:277-311): the
font size for a width, given the four sizes of the ladder. -/
def fontSizeFor (width : JsNum) (s1 s2 s3 s4 : String) : String :=
  if jsLt width 220 then s1
  else if jsLt width 280 then s2
  else if jsLt width 350 then s3
  else s4

/-- `adjustFontSizes(el, width)` (datetime.js:272-312). -/
def adjustFontSizes (w : Widget) (width : JsNum) : Widget :=
  { w with
    timeDisplay := w.timeDisplay.map (fun _ => fontSizeFor width "1.5rem" "2rem" "2.5rem" "3rem")
    dateDisplay :=
      w.dateDisplay.map (fun _ => fontSizeFor width "1.1rem" "1.4rem" "1.7rem" "2rem")
    dateFull := w.dateFull.map (fun _ => fontSizeFor width "0.7rem" "0.8rem" "0.9rem" "1rem") }

/-- `initResize` (datetime.js:169-203, resizeable.js:183-218). datetime.js
raises the widget through `LayerSystem`; resizeable.js asks for
`window.LayerManager`, which nothing in the repository defines, so it skips the
raise, and it takes the start size from `getBoundingClientRect()`. The
callbacks of the shipped callers only log. -/
def initResize (c : ResizeController) (now : Nat) (e : Pointer) (lay : Layout)
    (st : ResizeState) : ResizeState :=
  match c with
  | .datetime =>
    let st1 : ResizeState :=
      { st with
        isResizing := true
        widget := { st.widget with resizing := true }
        layer := (LayerSystem.raise now st.widget.id st.layer).2 }
    if (coordsSafe e).1.isNone || (coordsSafe e).2.isNone then st1
    else
      { st1 with
        startX := (coordsSafe e).1
        startY := (coordsSafe e).2
        startWidth := some lay.offsetWidth
        startHeight := some lay.offsetHeight
        widget := { st1.widget with style := { st1.widget.style with transition := "none" } }
        documentListeners := addGestureListeners st1.documentListeners }
  | .resizeable =>
    { st with
      isResizing := true
      startX := (coordsOr e).1
      startY := (coordsOr e).2
      startWidth := some lay.rectWidth
      startHeight := some lay.rectHeight
      widget :=
        { st.widget with
          resizing := true
          style := { st.widget.style with transition := "none" } }
      documentListeners := addGestureListeners st.documentListeners }

/-- The coordinates a resize handler extracts from its event. -/
def resizeCoords (c : ResizeController) (e : Pointer) : JsNum × JsNum :=
  match c with
  | .datetime => coordsSafe e
  | .resizeable => coordsOr e

/-- The clamped size `Math.min(Math.max(start + (client - startClient), lo), hi)`
(datetime.js:220-224, resizeable.js:231-236). -/
def resizeTarget (start client startClient : JsNum) (lo hi : Int) : JsNum :=
  jsMin (jsMax (jsAdd start (jsSub client startClient)) (some lo)) (some hi)

/-- `resize` (datetime.js:205-230, resizeable.js:220-247). The closing
`adjustElementPosition` of resizeable.js rewrites only `left` and `top` and is
left out; no shipped caller passes `onResize`. -/
def resize (c : ResizeController) (e : Pointer) (st : ResizeState) : ResizeState :=
  if st.isResizing = false then st
  else
    match c with
    | .datetime =>
      if (coordsSafe e).1.isNone || (coordsSafe e).2.isNone then st
      else
        let newW :=
          resizeTarget st.startWidth (coordsSafe e).1 st.startX st.settings.minWidth
            st.settings.maxWidth
        let newH :=
          resizeTarget st.startHeight (coordsSafe e).2 st.startY st.settings.minHeight
            st.settings.maxHeight
        let w1 : Widget :=
          { st.widget with
            style :=
              { st.widget.style with
                width := assignPx st.widget.style.width newW
                height := assignPx st.widget.style.height newH } }
        { st with widget := adjustFontSizes w1 newW }
    | .resizeable =>
      if (coordsOr e).1.isNone then st
      else
        let newW :=
          resizeTarget st.startWidth (coordsOr e).1 st.startX st.settings.minWidth
            st.settings.maxWidth
        let newH :=
          resizeTarget st.startHeight (coordsOr e).2 st.startY st.settings.minHeight
            st.settings.maxHeight
        { st with
          widget :=
            { st.widget with
              style :=
                { st.widget.style with
                  width := assignPx st.widget.style.width newW
                  height := assignPx st.widget.style.height newH } } }

/-- `saveSize` (datetime.js:249-255) and `saveElementSize`
(resizeable.js:319-328), which skips an element without id. -/
def saveSize (c : ResizeController) (w : Widget) (store : Storage) : Storage :=
  match c with
  | .datetime =>
    setItem store (w.id ++ "_size") (.object [("width", w.style.width), ("height", w.style.height)])
  | .resizeable =>
    if w.id = "" then store
    else
      setItem store (w.id ++ "_size")
        (.object [("width", w.style.width), ("height", w.style.height)])

/-- `stopResize` (datetime.js:232-246, resizeable.js:249-271). -/
def stopResize (c : ResizeController) (st : ResizeState) : ResizeState :=
  let st1 : ResizeState :=
    if st.isResizing then
      { st with
        isResizing := false
        widget :=
          { st.widget with
            resizing := false
            style := { st.widget.style with transition := "" } }
        storage := saveSize c st.widget st.storage }
    else st
  { st1 with documentListeners := removeGestureListeners st1.documentListeners }

/-! ## Sample states -/

/-- A widget with nothing set on it. -/
def blankWidget (id : String) : Widget :=
  { id := id
    style :=
      { left := "", top := "", right := "", bottom := "", width := "", height := "",
        transition := "" }
    dragging := false
    resizing := false
    timeDisplay := none
    dateDisplay := none
    dateFull := none }

/-- An empty `localStorage`. -/
def emptyStorage : Storage :=
  fun _ => none

/-- A drag controller right after `makeDraggable` ran on a blank widget. -/
def freshDrag (id key : String) : DragState :=
  { isDragging := false
    startX := none
    startY := none
    startLeft := none
    startTop := none
    longPressTimer := none
    timers := []
    timerCount := 0
    storageKey := key
    widget := blankWidget id
    storage := emptyStorage
    layer := LayerSystem.fullState }

/-- A drag in progress: snapshot taken at pointer (100, 100) with the widget at
(50, 50). -/
def midDrag (id key : String) : DragState :=
  { freshDrag id key with
    isDragging := true
    startX := some 100
    startY := some 100
    startLeft := some 50
    startTop := some 50
    widget := { blankWidget id with dragging := true } }

/-- A 1280 x 720 viewport with a 300 x 200 widget at (50, 50). -/
def roomyLayout : Layout :=
  { innerWidth := 1280, innerHeight := 720, offsetWidth := 300, offsetHeight := 200,
    rectLeft := 50, rectTop := 50, rectWidth := 300, rectHeight := 200 }

/-- A 100 x 100 viewport with a 200 x 200 widget at (50, 50). -/
def crampedLayout : Layout :=
  { innerWidth := 100, innerHeight := 100, offsetWidth := 200, offsetHeight := 200,
    rectLeft := 50, rectTop := 50, rectWidth := 200, rectHeight := 200 }

/-- A resize in progress under the given bounds: snapshot taken at pointer
(400, 400) with the widget 250 x 200. -/
def midResize (id : String) (bounds : ResizeSettings) : ResizeState :=
  { isResizing := true
    startX := some 400
    startY := some 400
    startWidth := some 250
    startHeight := some 200
    settings := bounds
    widget := { blankWidget id with resizing := true }
    storage := emptyStorage
    layer := LayerSystem.fullState
    documentListeners := addGestureListeners [] }

/-- The target of a pointer-down on the bare handle. -/
def handleTarget : Target :=
  { tagName := "DIV", closest := [] }

/-- The target of a pointer-down on a button nested in the handle. -/
def buttonTarget : Target :=
  { tagName := "BUTTON", closest := [] }

end Interaction

namespace Interaction

/-! ## Loading a saved size, and further sample states -/

/-- The assignment `if (v) style.prop = v` of a value read from a parsed
object: `undefined` and the empty string are falsy and leave the old value. -/
def assignTruthy (old : String) (v : Option String) : String :=
  match v with
  | some x => if x = "" then old else x
  | none => old

/-- `loadSize` (datetime.js:258-270). `parseFloat` is the platform function
(`none` for `NaN`, also for `parseFloat(undefined)`); `minW` is the closure's
lower width bound. -/
def loadSize (parseFloat : String → JsNum) (minW : Int) (store : Storage) (w : Widget) :
    Widget :=
  match store (w.id ++ "_size") with
  | none => w
  | some .empty => w
  | some .malformed => w
  | some (.object size) =>
    let w1 : Widget :=
      { w with
        style :=
          { w.style with
            width := assignTruthy w.style.width (size.lookup "width")
            height := assignTruthy w.style.height (size.lookup "height") } }
    adjustFontSizes w1 (some (orDefault ((size.lookup "width").bind parseFloat) minW))

/-- `loadElementSize` (resizeable.js:333-347). -/
def loadElementSize (store : Storage) (w : Widget) : Widget :=
  if w.id = "" then w
  else
    match store (w.id ++ "_size") with
    | none => w
    | some .empty => w
    | some .malformed => w
    | some (.object size) =>
      { w with
        style :=
          { w.style with
            width := assignTruthy w.style.width (size.lookup "width")
            height := assignTruthy w.style.height (size.lookup "height") } }

/-- The four listeners a resize gesture registers on `document`. -/
def gestureListeners : List (String × String) :=
  [("mousemove", "resize"), ("touchmove", "resize"), ("mouseup", "stopResize"),
    ("touchend", "stopResize")]

/-- One whole gesture on the resize handle: pointer-down, then pointer-up. The
triple holds the clock, the event and the layout of the pointer-down. -/
def resizeGesture (c : ResizeController) (st : ResizeState) (g : Nat × Pointer × Layout) :
    ResizeState :=
  stopResize c (initResize c g.1 g.2.1 g.2.2 st)

/-- A resize controller right after `makeResizable` ran on a blank widget, with
the layer coordinator initialised over the six-widget document. -/
def freshResize (id : String) (bounds : ResizeSettings) : ResizeState :=
  { isResizing := false
    startX := none
    startY := none
    startWidth := none
    startHeight := none
    settings := bounds
    widget := blankWidget id
    storage := emptyStorage
    layer := LayerSystem.fullState
    documentListeners := [] }

/-- A widget with the three text children of the clock and date widgets. -/
def clockWidget (id : String) : Widget :=
  { blankWidget id with timeDisplay := some "", dateDisplay := some "", dateFull := some "" }

/-- The digits of a length in rem read as tenths of a rem: `N rem` gives
`10 * N`, `N.D rem` gives `10 * N + D`; `acc` is the integer part read so far. -/
def remTenthsAux (cs : List Char) (acc : Nat) : Option Nat :=
  match cs with
  | [] => none
  | c :: rest =>
    if c.isDigit then remTenthsAux rest (acc * 10 + (c.toNat - 48))
    else if c = '.' then
      match rest with
      | d :: unit =>
        if d.isDigit ∧ unit = ['r', 'e', 'm'] then some (acc * 10 + (d.toNat - 48)) else none
      | [] => none
    else if c :: rest = ['r', 'e', 'm'] then some (acc * 10)
    else none

/-- The size of a font given as `N rem` or `N.D rem`, in tenths of a rem. -/
def remTenths (s : String) : Option Nat :=
  remTenthsAux s.data 0

end Interaction

namespace LayerSystem

/-- States reached from `init` on the freshly loaded module by `raise`, `reset`
and watchdog ticks alone, with no foreign code writing to the elements. -/
inductive ReachableManaged : State → Prop
  | init (now : Nat) (d : Dom) : ReachableManaged (init now (initial d))
  | raise (now : Nat) (id : String) {s : State} :
      ReachableManaged s → ReachableManaged (raise now id s).2
  | reset {s : State} : ReachableManaged s → ReachableManaged (reset s)
  | tick {s : State} : ReachableManaged s → ReachableManaged (monitorTick s)

/-- The `elements` of `stats()` (layer.js:496-500) without the time stamps:
every registry key with the stacking value recorded for it. -/
def stats (s : State) : List (String × Int) :=
  s.elementRegistry.map (fun p => (p.1, p.2.zIndex))

end LayerSystem

namespace Notes

/-- `bringToFront` of notes.js (162-164), as far as the stacking value goes:
the file's own counter `highestZIndex` (notes.js:19, starting at 0) is advanced
by one and assigned to `element.style.zIndex`; the counter and the registry of
the layer coordinator are not touched. Returns the new `highestZIndex` and the
document. -/
def bringToFront (highestZIndex : Int) (d : LayerSystem.Dom) (element : String) :
    Int × LayerSystem.Dom :=
  (highestZIndex + 1, LayerSystem.setZIndex d element (highestZIndex + 1))

/-- The six-widget page after the first mousedown on the body of the notes
widget, both mousedown listeners of the widget having run: the one of layer.js
(235-242), which calls `raise`, and then the one of notes.js (31-37), which
calls `bringToFront` with `highestZIndex` still 0. -/
def pressedNotesBody : LayerSystem.State :=
  { (LayerSystem.raise 1 "notes-widget" LayerSystem.fullState).2 with
    dom :=
      (bringToFront 0 (LayerSystem.raise 1 "notes-widget" LayerSystem.fullState).2.dom
        "notes-widget").2 }

end Notes

/-!
# Shortcuts (`short.js`), the to-do list (`todo.js`), playlists and thumbnails (`script.js`)

The texts these scripts keep in `localStorage` are again represented by what
`JSON.parse` makes of them, one type per key.
-/

namespace Shortcuts

/-- `MAX_SHORTCUTS` (short.js:10). -/
def MAX_SHORTCUTS : Nat := 7

/-- A shortcut as the page holds it. `url` is `none` when the stored value is
not a string (`typeof sc.url !== "string"`). -/
structure Shortcut where
  name : String
  url : Option String
  userEdited : Bool
  deriving DecidableEq

/-- An array item as `JSON.parse` returns it; `userEdited` is `none` when the
member is missing or `null`. -/
structure RawShortcut where
  name : String
  url : Option String
  userEdited : Option Bool
  deriving DecidableEq

/-- The text under the key `shortcuts`: no entry, the empty string, a text on
which `JSON.parse` throws, a text that parses to a falsy value, one that parses
to an array of items, or one that parses to a truthy value without a usable
`map` (the call throws). -/
inductive StoredShortcuts
  | absent
  | empty
  | malformed
  | falsy
  | items (l : List RawShortcut)
  | notAnArray
  deriving DecidableEq

/-- The constant `defaultShortcuts` (short.js:13-18). -/
def defaultShortcuts : List Shortcut :=
  [ { name := "YouTube", url := some "https://www.youtube.com/@wallsflow?sub_confirmation=1",
      userEdited := false },
    { name := "Google", url := some "https://www.google.com", userEdited := false },
    { name := "Pinterest", url := some "https://www.pinterest.com", userEdited := false },
    { name := "Steam", url := some "https://store.steampowered.com/", userEdited := false } ]

/-- The normalisation of one parsed item (short.js:28-32). -/
def normalize (sc : RawShortcut) : Shortcut :=
  { name := sc.name, url := sc.url, userEdited := sc.userEdited.getD false }

/-- The initial value of `shortcuts` (short.js:21-36). -/
def loadShortcuts (stored : StoredShortcuts) : List Shortcut :=
  match stored with
  | .absent => defaultShortcuts
  | .empty => defaultShortcuts
  | .malformed => defaultShortcuts
  | .falsy => defaultShortcuts
  | .items l => l.map normalize
  | .notAnArray => defaultShortcuts

/-- Whether the characters `sub` open the list `cs`. -/
def startsWithChars (sub cs : List Char) : Bool :=
  match sub, cs with
  | [], _ => true
  | _ :: _, [] => false
  | a :: sub1, c :: cs1 => a == c && startsWithChars sub1 cs1

/-- Whether the characters `sub` occur in a row somewhere in `cs`. -/
def includesChars (sub cs : List Char) : Bool :=
  match cs with
  | [] => startsWithChars sub []
  | c :: rest => startsWithChars sub (c :: rest) || includesChars sub rest

/-- `s.includes(sub)`. -/
def includes (s sub : String) : Bool :=
  includesChars sub.data s.data

/-- The subscribe link the migration installs (short.js:59). -/
def wallsflowUrl : String :=
  "https://www.youtube.com/@wallsflow?sub_confirmation=1"

/-- `isYouTubeLike` (short.js:50-52). -/
def isYouTubeLike (sc : Shortcut) : Bool :=
  match sc.url with
  | some u => includes u "youtube.com"
  | none => false

/-- `alreadyWallsflow` (short.js:54). -/
def alreadyWallsflow (sc : Shortcut) : Bool :=
  match sc.url with
  | some u => includes u "@wallsflow"
  | none => false

/-- The body of the migration loop for one shortcut (short.js:45-63). -/
def migrateOne (sc : Shortcut) : Shortcut :=
  if sc.userEdited then sc
  else if isYouTubeLike sc && !alreadyWallsflow sc then
    { sc with url := some wallsflowUrl, userEdited := false }
  else sc

/-- Whether the loop body replaces the shortcut, i.e. sets `changed`. -/
def migrates (sc : Shortcut) : Bool :=
  !sc.userEdited && (isYouTubeLike sc && !alreadyWallsflow sc)

/-- `JSON.stringify(shortcuts)`, as the text that parses back to the list. -/
def stringify (l : List Shortcut) : StoredShortcuts :=
  .items (l.map (fun sc => { name := sc.name, url := sc.url, userEdited := some sc.userEdited }))

/-- The two `localStorage` entries of short.js: the text under `shortcuts` and
the text under `shortcuts_migrated_v2`. -/
structure ShortcutStore where
  shortcuts : StoredShortcuts
  migrationFlag : Option String

/-- The one-time migration (short.js:40-68): the list afterwards and the store
afterwards. A flag that is present and not empty skips it. -/
def migrate (store : ShortcutStore) (shortcuts : List Shortcut) :
    List Shortcut × ShortcutStore :=
  match store.migrationFlag with
  | some flag =>
    if flag = "" then
      (shortcuts.map migrateOne,
        { shortcuts :=
            if shortcuts.any migrates then stringify (shortcuts.map migrateOne)
            else store.shortcuts
          migrationFlag := some "1" })
    else (shortcuts, store)
  | none =>
    (shortcuts.map migrateOne,
      { shortcuts :=
          if shortcuts.any migrates then stringify (shortcuts.map migrateOne)
          else store.shortcuts
        migrationFlag := some "1" })

/-- The page state of short.js: the list, `editingIndex`, whether the form is
visible, whether the add button is displayed, and the text under `shortcuts`. -/
structure UiState where
  shortcuts : List Shortcut
  editingIndex : Option Nat
  formVisible : Bool
  addButtonShown : Bool
  stored : StoredShortcuts
  deriving DecidableEq

/-- `saveShortcuts` followed by `renderShortcuts` (short.js:103-105, 167-234):
the list is written out and the add button is shown only below the limit. -/
def saveAndRender (st : UiState) : UiState :=
  { st with
    stored := stringify st.shortcuts
    addButtonShown := decide (st.shortcuts.length < MAX_SHORTCUTS) }

/-- The click handler of the add button (short.js:238-245). -/
def clickAdd (st : UiState) : UiState :=
  { st with editingIndex := none, formVisible := true }

/-- The click handler of the menu button of item `index` (short.js:198-207);
only rendered items have one. -/
def clickMenu (index : Nat) (st : UiState) : UiState :=
  if index < st.shortcuts.length then { st with editingIndex := some index, formVisible := true }
  else st

/-- The submit handler of the form (short.js:250-279). `name` and `url` are the
trimmed inputs, `isValidUrl` is short.js:90-100 (a regular expression and the
platform's URL parser). `editingIndex` is the index of a rendered item, so the
assignment overwrites an entry of the list. -/
def submit (isValidUrl : String → Bool) (name url : String) (st : UiState) : UiState :=
  if isValidUrl url then
    let shortcuts :=
      match st.editingIndex with
      | some i => st.shortcuts.set i { name := name, url := some url, userEdited := true }
      | none => st.shortcuts ++ [{ name := name, url := some url, userEdited := true }]
    { saveAndRender { st with shortcuts := shortcuts } with formVisible := false }
  else st

/-- The click handler of the delete button (short.js:284-292). -/
def clickDelete (st : UiState) : UiState :=
  match st.editingIndex with
  | some i =>
    { saveAndRender { st with shortcuts := st.shortcuts.eraseIdx i } with
      formVisible := false
      editingIndex := none }
  | none => st

/-- A handler call on the shortcut form. -/
inductive FormEvent
  | submit (name url : String)
  | delete

/-- One handler call. -/
def formStep (isValidUrl : String → Bool) (st : UiState) (ev : FormEvent) : UiState :=
  match ev with
  | .submit name url => submit isValidUrl name url st
  | .delete => clickDelete st

/-- The page right after loading a stored list of seven user-made shortcuts:
the form is closed, `editingIndex` is `null` and the add button is hidden. -/
def sevenShortcuts : UiState :=
  { shortcuts := List.replicate 7 { name := "a", url := some "https://a.example", userEdited := true }
    editingIndex := none
    formVisible := false
    addButtonShown := false
    stored :=
      stringify
        (List.replicate 7 { name := "a", url := some "https://a.example", userEdited := true }) }

/-- A validity check that accepts exactly the URLs opening with `https://`. -/
def httpsOnly (url : String) : Bool :=
  startsWithChars "https://".data url.data

/-- The click handlers of the close button and of the form container
(short.js:296-314): the form is closed and `editingIndex` cleared. -/
def closeForm (st : UiState) : UiState :=
  { st with formVisible := false, editingIndex := none }

/-- What the user can do with the controls of short.js: click the add button,
click the menu button of the item at `index`, submit the form with the trimmed
inputs `name` and `url`, click the delete button, close the form. -/
inductive UiEvent
  | add
  | menu (index : Nat)
  | submit (name url : String)
  | delete
  | close

/-- One user action. A control takes the action only while it is displayed: the
add button while `renderShortcuts` has left it displayed (short.js:226-233), a
menu button while its item is rendered, and the form with its submit, delete
and close controls while the form container carries the class `visible`, which
only the add button and the menu buttons set (short.js:204, 243) and which
submit, delete and close remove. -/
def uiStep (isValidUrl : String → Bool) (st : UiState) (ev : UiEvent) : UiState :=
  match ev with
  | .add => if st.addButtonShown then clickAdd st else st
  | .menu index => clickMenu index st
  | .submit name url => if st.formVisible then submit isValidUrl name url st else st
  | .delete => if st.formVisible then clickDelete st else st
  | .close => if st.formVisible then closeForm st else st

/-- A sequence of user actions. -/
def uiRun (isValidUrl : String → Bool) (st : UiState) (evs : List UiEvent) : UiState :=
  evs.foldl (uiStep isValidUrl) st

/-- The page once the script has run over the loaded list `shortcuts`, with
`stored` the text in storage: `editingIndex` is `null` (short.js:83), the form
is closed, and the closing `renderShortcuts()` (short.js:319) has shown or
hidden the add button. -/
def loadedUi (shortcuts : List Shortcut) (stored : StoredShortcuts) : UiState :=
  { shortcuts := shortcuts
    editingIndex := none
    formVisible := false
    addButtonShown := decide (shortcuts.length < MAX_SHORTCUTS)
    stored := stored }

end Shortcuts

namespace Todo

/-- A to-do item. -/
structure TodoItem where
  text : String
  completed : Bool
  deriving DecidableEq

/-- The text under the key `glass_todos`: no entry, the empty string, a text on
which `JSON.parse` throws, or a text that parses to an array of items. -/
inductive StoredTodos
  | absent
  | empty
  | malformed
  | items (l : List TodoItem)
  deriving DecidableEq

/-- The initial value of `todos` (todo.js:226-231). -/
def loadTodos (stored : StoredTodos) : List TodoItem :=
  match stored with
  | .absent => []
  | .empty => []
  | .malformed => []
  | .items l => l

end Todo

namespace Script

/-- A saved playlist (script.js:1800-1805). -/
structure Playlist where
  id : Nat
  name : String
  url : String
  dateAdded : String
  deriving DecidableEq

/-- The text under the key `wf_saved_playlists`: no entry, the empty string, a
text on which `JSON.parse` throws, or a text that parses to an array of
playlists. -/
inductive StoredPlaylists
  | absent
  | empty
  | malformed
  | list (l : List Playlist)
  deriving DecidableEq

/-- `getSavedPlaylists` (script.js:1240-1248). -/
def getSavedPlaylists (stored : StoredPlaylists) : List Playlist :=
  match stored with
  | .absent => []
  | .empty => []
  | .malformed => []
  | .list l => l

/-- `savePlaylists` (script.js:1251-1257): the text stored afterwards.
`setItemThrows` says whether `localStorage.setItem` throws on this write (the
quota is used up, or storage is refused); the `catch` then swallows the error
and the stored text stays what it was. -/
def savePlaylists (setItemThrows : Bool) (playlists : List Playlist)
    (stored : StoredPlaylists) : StoredPlaylists :=
  if setItemThrows then stored else .list playlists

/-- The expression `playlistName || 'Untitled Playlist'`. -/
def nameOrUntitled (playlistName : Option String) : String :=
  match playlistName with
  | some n => if n = "" then "Untitled Playlist" else n
  | none => "Untitled Playlist"

/-- The click handler of the save button (script.js:1783-1817): the stored
text afterwards. `url` is the trimmed input, `playlistName` the result of
`extractPlaylistName(url)`, `now` and `dateAdded` the clock readings,
`setItemThrows` whether the write to `localStorage` throws. -/
def onSaveClick (setItemThrows : Bool) (now : Nat) (dateAdded : String)
    (playlistName : Option String) (url : String) (stored : StoredPlaylists) :
    StoredPlaylists :=
  if url = "" then stored
  else if (getSavedPlaylists stored).length ≥ 6 then stored
  else
    savePlaylists setItemThrows
      (getSavedPlaylists stored ++
        [{ id := now, name := nameOrUntitled playlistName, url := url, dateAdded := dateAdded }])
      stored

/-- The integer nearest to `x`, a tie going to the even neighbour: the rounding
of a significand in IEEE 754 round-to-nearest. -/
def roundTiesEven (x : ℚ) : Int :=
  if x - ⌊x⌋ < 1 / 2 then ⌊x⌋
  else if 1 / 2 < x - ⌊x⌋ then ⌊x⌋ + 1
  else if ⌊x⌋ % 2 = 0 then ⌊x⌋ else ⌊x⌋ + 1

/-- The binary64 number that an arithmetic operation of JavaScript returns when
its exact result is `x`: with `e` the binary exponent of `x`, so that
`2 ^ e ≤ |x| < 2 ^ (e + 1)`, the multiple of `2 ^ (e - 52)` nearest to `x`,
ties to the even significand. This is the normal range of binary64, without
overflow and underflow; every quotient and product of `thumbnailSize` lies in
it for sides below `2 ^ 32`, the range of `img.width` and `img.height`. -/
def toDouble (x : ℚ) : ℚ :=
  if x = 0 then 0
  else roundTiesEven (x / 2 ^ (Int.log 2 |x| - 52)) * 2 ^ (Int.log 2 |x| - 52)

/-- `Math.round(x)`: the nearest integer, halves upwards. -/
def jsRound (x : ℚ) : Int :=
  ⌊x + 1 / 2⌋

/-- `ratio = Math.min(maxDim / width, maxDim / height)` (script.js:135) with
`maxDim = 800`, each quotient rounded to binary64. A side of 0 gives the
quotient `Infinity`, which `Math.min` drops in favour of the other quotient. -/
def ratioOf (width height : Nat) : ℚ :=
  if width = 0 then toDouble (800 / height)
  else if height = 0 then toDouble (800 / width)
  else min (toDouble (800 / width)) (toDouble (800 / height))

/-- The canvas size of the image branch of `getThumbnail` (script.js:132-141):
`width` and `height` are the sides of the loaded image, each product
`width * ratio`, `height * ratio` is rounded to binary64 and then handed to
`Math.round`. -/
def thumbnailSize (width height : Nat) : Int × Int :=
  if width > 800 ∨ height > 800 then
    (jsRound (toDouble (width * ratioOf width height)),
      jsRound (toDouble (height * ratioOf width height)))
  else (width, height)

end Script

namespace LayerSystem

/-! ## Basic facts about the document and the registry -/

theorem getElementById_some_ne_empty {d : Dom} {id : String} {e : Element}
    (h : getElementById d id = some e) : id ≠ "" := by
  intro hid
  simp [getElementById, hid] at h

theorem getElementById_updateElement (d : Dom) (h : String) (f : Element → Element)
    (k : String) :
    getElementById (updateElement d h f) k =
      if k = h then (getElementById d k).map f else getElementById d k := by
  unfold getElementById updateElement
  by_cases hk : k = ""
  · simp [hk]
  · by_cases hh : k = h
    · subst hh
      simp [hk]
    · simp [hk, hh]

namespace Registry

theorem get_set (m : Registry) (k k' : String) (v : RegistryEntry) :
    get (set m k v) k' = if k' = k then some v else get m k' := by
  induction m with
  | nil =>
    by_cases h : k' = k
    · simp [set, get, h]
    · have h' : ¬ k = k' := fun e => h e.symm
      simp [set, get, h, h']
  | cons p rest ih =>
    obtain ⟨a, b⟩ := p
    by_cases ha : a = k
    · subst ha
      by_cases h : k' = a
      · simp [set, get, h]
      · have h' : ¬ a = k' := fun e => h e.symm
        simp [set, get, h, h']
    · by_cases h : a = k'
      · have hk : ¬ k' = k := fun e => ha (h.trans e)
        simp [set, get, ha, h, hk]
      · simp [set, get, ha, h, ih]

theorem get_modify (m : Registry) (k k' : String) (f : RegistryEntry → RegistryEntry) :
    get (modify m k f) k' = if k' = k then (get m k').map f else get m k' := by
  induction m with
  | nil => simp [modify, get]
  | cons p rest ih =>
    obtain ⟨a, b⟩ := p
    by_cases ha : a = k
    · subst ha
      by_cases h : a = k'
      · subst h
        simp [modify, get]
      · have h' : ¬ k' = a := fun e => h e.symm
        simp [modify, get, h, h']
    · by_cases h : a = k'
      · have hk : ¬ k' = k := fun e => ha (h.trans e)
        simp [modify, get, ha, h, hk]
      · simp [modify, get, ha, h, ih]

theorem has_set (m : Registry) (k k' : String) (v : RegistryEntry) :
    has (set m k v) k' = (decide (k' = k) || has m k') := by
  unfold has
  rw [get_set]
  by_cases h : k' = k <;> simp [h]

theorem has_modify (m : Registry) (k k' : String) (f : RegistryEntry → RegistryEntry) :
    has (modify m k f) k' = has m k' := by
  unfold has
  rw [get_modify]
  by_cases h : k' = k <;> simp [h]

end Registry

/-! ## What `raise` does -/

theorem clearOtherStep_get (id : String) (d : Dom) (o k : String) :
    getElementById (clearOtherStep id d o) k =
      if k = o ∧ o ≠ id then
        (getElementById d k).map (fun e => { e with activeLayer := false })
      else getElementById d k := by
  unfold clearOtherStep
  by_cases ho : o = id
  · simp [ho]
  · cases hg : getElementById d o with
    | none =>
      by_cases hk : k = o
      · subst hk
        simp [ho, hg]
      · simp [ho, hk]
    | some e =>
      simp [ho, classListRemove, getElementById_updateElement]

theorem foldl_clearOther_get (id : String) (l : List String) (d : Dom) (k : String) :
    getElementById (l.foldl (clearOtherStep id) d) k =
      if k ∈ l ∧ k ≠ id then
        (getElementById d k).map (fun e => { e with activeLayer := false })
      else getElementById d k := by
  induction l generalizing d with
  | nil => simp
  | cons o rest ih =>
    rw [List.foldl_cons, ih, clearOtherStep_get]
    by_cases hk : k = id
    · subst hk
      by_cases ho : k = o
      · subst ho
        simp
      · simp [ho]
    · by_cases ho : k = o
      · subst ho
        cases getElementById d k <;> simp [hk]
      · simp [hk, ho]

/-- The result of `raise` on an id whose element exists. -/
theorem raise_of_exists (now : Nat) (id : String) (s : State) (e : Element)
    (h : getElementById s.dom id = some e) :
    raise now id s =
      (true,
        { s with
          currentZIndex :=
            if s.currentZIndex + Z_INDEX.STEP > Z_INDEX.MAX_SAFE then Z_INDEX.BASE
            else s.currentZIndex + Z_INDEX.STEP
          dom :=
            ELEMENTS.foldl (clearOtherStep id)
              (classListAdd
                (setZIndex s.dom id
                  (if s.currentZIndex + Z_INDEX.STEP > Z_INDEX.MAX_SAFE then Z_INDEX.BASE
                   else s.currentZIndex + Z_INDEX.STEP)) id)
          elementRegistry :=
            if s.elementRegistry.has id then
              s.elementRegistry.modify id (fun r =>
                { r with
                  zIndex :=
                    if s.currentZIndex + Z_INDEX.STEP > Z_INDEX.MAX_SAFE then Z_INDEX.BASE
                    else s.currentZIndex + Z_INDEX.STEP
                  lastActive := now })
            else s.elementRegistry }) := by
  have hne : id ≠ "" := getElementById_some_ne_empty h
  simp [raise, getElement, getElementId, h, hne]

/-- The result of `raise` on an id without element: failure, state untouched. -/
theorem raise_of_missing (now : Nat) (id : String) (s : State)
    (h : getElementById s.dom id = none) : raise now id s = (false, s) := by
  simp [raise, getElement, h]

theorem raise_fst_iff (now : Nat) (id : String) (s : State) :
    (raise now id s).1 = true ↔ (getElementById s.dom id).isSome = true := by
  cases h : getElementById s.dom id with
  | none => simp [raise_of_missing now id s h]
  | some e => simp [raise_of_exists now id s e h]

theorem raise_currentZIndex (now : Nat) (id : String) (s : State) (e : Element)
    (h : getElementById s.dom id = some e) :
    (raise now id s).2.currentZIndex =
      if s.currentZIndex + Z_INDEX.STEP > Z_INDEX.MAX_SAFE then Z_INDEX.BASE
      else s.currentZIndex + Z_INDEX.STEP := by
  rw [raise_of_exists now id s e h]

/-- The element found under `k` after a successful `raise now id s`. -/
theorem raise_getElementById (now : Nat) (id : String) (s : State) (e : Element)
    (h : getElementById s.dom id = some e) (k : String) :
    getElementById (raise now id s).2.dom k =
      if k = id then
        some { zIndex := some (raise now id s).2.currentZIndex, activeLayer := true }
      else if k ∈ ELEMENTS then
        (getElementById s.dom k).map (fun x => { x with activeLayer := false })
      else getElementById s.dom k := by
  rw [raise_of_exists now id s e h]
  simp only [foldl_clearOther_get, classListAdd, setZIndex, getElementById_updateElement]
  by_cases hk : k = id
  · subst hk
    simp [h]
  · by_cases hm : k ∈ ELEMENTS <;> simp [hk, hm]

theorem raise_stackingOf_self (now : Nat) (id : String) (s : State) (e : Element)
    (h : getElementById s.dom id = some e) :
    stackingOf (raise now id s).2 id = some (raise now id s).2.currentZIndex := by
  simp [stackingOf, raise_getElementById now id s e h id]

theorem raise_stackingOf_other (now : Nat) (id : String) (s : State) (e : Element)
    (h : getElementById s.dom id = some e) (k : String) (hk : k ≠ id) :
    stackingOf (raise now id s).2 k = stackingOf s k := by
  unfold stackingOf
  rw [raise_getElementById now id s e h k]
  by_cases hm : k ∈ ELEMENTS <;> cases getElementById s.dom k <;> simp [hk, hm]

/-- When the counter does not wrap, the widget just raised ends strictly above
every other element whose stacking value did not exceed the old counter. -/
theorem raise_above_of_le_counter (now : Nat) (id : String) (s : State)
    (hex : (getElementById s.dom id).isSome = true)
    (hwrap : s.currentZIndex + Z_INDEX.STEP ≤ Z_INDEX.MAX_SAFE)
    (k : String) (hk : k ≠ id) (z : Int) (hz : stackingOf s k = some z)
    (hle : z ≤ s.currentZIndex) :
    stackingOf (raise now id s).2 id = some (s.currentZIndex + Z_INDEX.STEP) ∧
      stackingOf (raise now id s).2 k = some z ∧ z < s.currentZIndex + Z_INDEX.STEP := by
  obtain ⟨e, he⟩ := Option.isSome_iff_exists.mp hex
  have hstep : (0 : Int) < Z_INDEX.STEP := by decide
  refine ⟨?_, ?_, by omega⟩
  · rw [raise_stackingOf_self now id s e he, raise_currentZIndex now id s e he,
      if_neg (not_lt.mpr hwrap)]
  · rw [raise_stackingOf_other now id s e he k hk, hz]

theorem raise_registry_has (now : Nat) (id : String) (s : State) (k : String) :
    (raise now id s).2.elementRegistry.has k = s.elementRegistry.has k := by
  cases h : getElementById s.dom id with
  | none => rw [raise_of_missing now id s h]
  | some e =>
    rw [raise_of_exists now id s e h]
    by_cases hr : s.elementRegistry.has id = true
    · simp [hr, Registry.has_modify]
    · simp [hr]

theorem raise_isInitialized (now : Nat) (id : String) (s : State) :
    (raise now id s).2.isInitialized = s.isInitialized := by
  cases h : getElementById s.dom id with
  | none => rw [raise_of_missing now id s h]
  | some e => rw [raise_of_exists now id s e h]

/-! ## What `init` does -/

/-- A property kept by every step of a left fold is kept by the fold. -/
theorem foldl_keeps {α β : Type} (P : β → Prop) (f : β → α → β)
    (hf : ∀ b a, P b → P (f b a)) (l : List α) (b : β) (hb : P b) : P (l.foldl f b) := by
  induction l generalizing b with
  | nil => exact hb
  | cons a rest ih => exact ih (f b a) (hf b a hb)

theorem fixConflictsStep_isSome (d : Dom) (id k : String) :
    (getElementById (fixConflictsStep d id) k).isSome = (getElementById d k).isSome := by
  unfold fixConflictsStep
  cases hg : getElementById d id with
  | none => rfl
  | some e =>
    by_cases hc : computedZ e > 0 ∧ computedZ e < Z_INDEX.BASE
    · simp only [hc, and_self, if_true, setZIndex, getElementById_updateElement]
      by_cases hk : k = id <;> simp [hk]
    · simp [hc]

theorem fixConflicts_isSome (s : State) (k : String) :
    (getElementById (fixConflicts s).dom k).isSome = (getElementById s.dom k).isSome := by
  unfold fixConflicts
  exact foldl_keeps (fun d => (getElementById d k).isSome = (getElementById s.dom k).isSome)
    fixConflictsStep
    (fun d a hd => by
      show (getElementById (fixConflictsStep d a) k).isSome = (getElementById s.dom k).isSome
      rw [fixConflictsStep_isSome]
      exact hd)
    ELEMENTS s.dom rfl

theorem initRegisterStep_get (now : Nat) (s : State) (id k : String) :
    getElementById (initRegisterStep now s id).dom k =
      if k = id then
        (getElementById s.dom k).map (fun e => { e with zIndex := some (defaultZ k) })
      else getElementById s.dom k := by
  unfold initRegisterStep
  cases hg : getElementById s.dom id with
  | none =>
    by_cases hk : k = id
    · subst hk
      simp [hg]
    · simp [hk]
  | some e =>
    have hne : id ≠ "" := getElementById_some_ne_empty hg
    simp only [register, hne, if_false, setZIndex, getElementById_updateElement]
    by_cases hk : k = id
    · subst hk
      simp
    · simp [hk]

theorem initRegisterStep_registry (now : Nat) (s : State) (id k : String) :
    (initRegisterStep now s id).elementRegistry.get k =
      if k = id ∧ (getElementById s.dom k).isSome = true then
        some { element := k, zIndex := defaultZ k, lastActive := now }
      else s.elementRegistry.get k := by
  unfold initRegisterStep
  cases hg : getElementById s.dom id with
  | none =>
    by_cases hk : k = id
    · subst hk
      simp [hg]
    · simp [hk]
  | some e =>
    have hne : id ≠ "" := getElementById_some_ne_empty hg
    simp only [register, hne, if_false, Registry.get_set]
    by_cases hk : k = id
    · subst hk
      simp [hg]
    · simp [hk]

theorem foldl_initRegisterStep_get (now : Nat) (l : List String) (s : State) (k : String) :
    getElementById (l.foldl (initRegisterStep now) s).dom k =
      if k ∈ l then
        (getElementById s.dom k).map (fun e => { e with zIndex := some (defaultZ k) })
      else getElementById s.dom k := by
  induction l generalizing s with
  | nil => simp
  | cons o rest ih =>
    rw [List.foldl_cons, ih, initRegisterStep_get]
    by_cases ho : k = o
    · subst ho
      cases getElementById s.dom k <;> simp
    · simp [ho]

theorem foldl_initRegisterStep_registry (now : Nat) (l : List String) (s : State)
    (k : String) :
    (l.foldl (initRegisterStep now) s).elementRegistry.get k =
      if k ∈ l ∧ (getElementById s.dom k).isSome = true then
        some { element := k, zIndex := defaultZ k, lastActive := now }
      else s.elementRegistry.get k := by
  induction l generalizing s with
  | nil => simp
  | cons o rest ih =>
    rw [List.foldl_cons, ih, initRegisterStep_get, initRegisterStep_registry]
    by_cases ho : k = o
    · subst ho
      cases getElementById s.dom k <;> simp
    · simp [ho]

theorem foldl_initRegisterStep_currentZIndex (now : Nat) (l : List String) (s : State) :
    (l.foldl (initRegisterStep now) s).currentZIndex = s.currentZIndex := by
  refine foldl_keeps (fun t => t.currentZIndex = s.currentZIndex) _ ?_ l s rfl
  intro b a hb
  unfold initRegisterStep
  cases getElementById b.dom a with
  | none => exact hb
  | some e =>
    by_cases ha : a = ""
    · simpa [register, ha] using hb
    · simpa [register, ha] using hb

theorem init_of_initialized (now : Nat) (s : State) (h : s.isInitialized = true) :
    init now s = s := by
  simp [init, h]

theorem init_isInitialized (now : Nat) (s : State) : (init now s).isInitialized = true := by
  unfold init
  by_cases h : s.isInitialized = true
  · simp [h]
  · simp [h]

/-- The element found under `k` after the first `init`. -/
theorem init_getElementById (now : Nat) (s : State) (h : s.isInitialized = false)
    (k : String) :
    getElementById (init now s).dom k =
      if k ∈ ELEMENTS then
        (getElementById (fixConflicts s).dom k).map
          (fun e => { e with zIndex := some (defaultZ k) })
      else getElementById (fixConflicts s).dom k := by
  simp only [init, h, Bool.false_eq_true, if_false, startMonitoring,
    foldl_initRegisterStep_get]

/-- The registry entry under `k` after the first `init` over an empty registry. -/
theorem init_registry_get (now : Nat) (s : State) (h : s.isInitialized = false)
    (k : String) :
    (init now s).elementRegistry.get k =
      if k ∈ ELEMENTS ∧ (getElementById s.dom k).isSome = true then
        some { element := k, zIndex := defaultZ k, lastActive := now }
      else s.elementRegistry.get k := by
  simp only [init, h, Bool.false_eq_true, if_false, startMonitoring,
    foldl_initRegisterStep_registry, fixConflicts_isSome]
  rfl

theorem init_currentZIndex (now : Nat) (s : State) :
    (init now s).currentZIndex = s.currentZIndex := by
  unfold init
  by_cases h : s.isInitialized = true
  · simp [h]
  · simp only [h, Bool.false_eq_true, if_false, startMonitoring,
      foldl_initRegisterStep_currentZIndex]
    rfl

/-! ## What `reset` and the watchdog do -/

theorem resetStep_get (s : State) (p : String × Nat) (k : String) :
    getElementById (resetStep s p).dom k =
      if k = p.1 then
        (getElementById s.dom k).map
          (fun _ => { zIndex := some (Z_INDEX.BASE + (p.2 : Int) * 1), activeLayer := false })
      else getElementById s.dom k := by
  unfold resetStep
  cases hg : getElementById s.dom p.1 with
  | none =>
    by_cases hk : k = p.1
    · subst hk
      simp [hg]
    · simp [hk]
  | some e =>
    simp only [classListRemove, setZIndex, getElementById_updateElement]
    by_cases hk : k = p.1
    · subst hk
      simp [hg]
    · simp [hk]

theorem resetStep_registry (s : State) (p : String × Nat) (k : String) :
    (resetStep s p).elementRegistry.get k =
      if k = p.1 ∧ (getElementById s.dom k).isSome = true then
        (s.elementRegistry.get k).map
          (fun r => { r with zIndex := Z_INDEX.BASE + (p.2 : Int) * 1 })
      else s.elementRegistry.get k := by
  unfold resetStep
  cases hg : getElementById s.dom p.1 with
  | none =>
    by_cases hk : k = p.1
    · subst hk
      simp [hg]
    · simp [hk]
  | some e =>
    by_cases hk : k = p.1
    · subst hk
      by_cases hr : s.elementRegistry.has p.1 = true
      · simp [hg, hr, Registry.get_modify]
      · have hn : s.elementRegistry.get p.1 = none := by
          simpa [Registry.has] using hr
        simp [hg, hr, hn]
    · by_cases hr : s.elementRegistry.has p.1 = true
      · simp [hk, hr, Registry.get_modify]
      · simp [hk, hr]

theorem resetStep_currentZIndex (s : State) (p : String × Nat) :
    (resetStep s p).currentZIndex = s.currentZIndex := by
  unfold resetStep
  cases getElementById s.dom p.1 <;> rfl

theorem resetStep_isInitialized (s : State) (p : String × Nat) :
    (resetStep s p).isInitialized = s.isInitialized := by
  unfold resetStep
  cases getElementById s.dom p.1 <;> rfl

/-- The pairs `(id, index)` that `reset` iterates over carry the index that
`indexOf` finds, so `reset` recomputes the `defaultZ` of `register`. -/
theorem reset_pairs_defaultZ :
    ∀ p ∈ ELEMENTS.zip (List.range ELEMENTS.length),
      Z_INDEX.BASE + (p.2 : Int) * 1 = defaultZ p.1 := by
  decide

theorem reset_pairs_keys :
    (ELEMENTS.zip (List.range ELEMENTS.length)).map Prod.fst = ELEMENTS := by
  decide

theorem foldl_resetStep_get (l : List (String × Nat))
    (hl : ∀ p ∈ l, Z_INDEX.BASE + (p.2 : Int) * 1 = defaultZ p.1) (s : State) (k : String) :
    getElementById (l.foldl resetStep s).dom k =
      if k ∈ l.map Prod.fst then
        (getElementById s.dom k).map
          (fun _ => { zIndex := some (defaultZ k), activeLayer := false })
      else getElementById s.dom k := by
  induction l generalizing s with
  | nil => simp
  | cons p rest ih =>
    have hp : Z_INDEX.BASE + (p.2 : Int) * 1 = defaultZ p.1 := hl p (List.mem_cons_self _ _)
    have hrest : ∀ q ∈ rest, Z_INDEX.BASE + (q.2 : Int) * 1 = defaultZ q.1 :=
      fun q hq => hl q (List.mem_cons_of_mem _ hq)
    rw [List.foldl_cons, ih hrest, resetStep_get, hp]
    by_cases hk : k = p.1
    · subst hk
      cases getElementById s.dom p.1 <;> simp
    · have hm : k ∈ (p :: rest).map Prod.fst ↔ k ∈ rest.map Prod.fst := by
        rw [List.map_cons, List.mem_cons]
        exact ⟨fun h => h.resolve_left hk, Or.inr⟩
      simp only [hk, if_false, hm]

theorem foldl_resetStep_registry (l : List (String × Nat))
    (hl : ∀ p ∈ l, Z_INDEX.BASE + (p.2 : Int) * 1 = defaultZ p.1) (s : State) (k : String) :
    (l.foldl resetStep s).elementRegistry.get k =
      if k ∈ l.map Prod.fst ∧ (getElementById s.dom k).isSome = true then
        (s.elementRegistry.get k).map (fun r => { r with zIndex := defaultZ k })
      else s.elementRegistry.get k := by
  induction l generalizing s with
  | nil => simp
  | cons p rest ih =>
    have hp : Z_INDEX.BASE + (p.2 : Int) * 1 = defaultZ p.1 := hl p (List.mem_cons_self _ _)
    have hrest : ∀ q ∈ rest, Z_INDEX.BASE + (q.2 : Int) * 1 = defaultZ q.1 :=
      fun q hq => hl q (List.mem_cons_of_mem _ hq)
    rw [List.foldl_cons, ih hrest, resetStep_get, resetStep_registry, hp]
    by_cases hk : k = p.1
    · subst hk
      cases getElementById s.dom p.1 <;> cases s.elementRegistry.get p.1 <;> simp
    · have hm : k ∈ (p :: rest).map Prod.fst ↔ k ∈ rest.map Prod.fst := by
        rw [List.map_cons, List.mem_cons]
        exact ⟨fun h => h.resolve_left hk, Or.inr⟩
      simp only [hk, if_false, hm, false_and]

theorem reset_currentZIndex (s : State) : (reset s).currentZIndex = Z_INDEX.BASE := by
  unfold reset
  refine foldl_keeps (fun t => t.currentZIndex = Z_INDEX.BASE) resetStep
    (fun b a hb => ?_) _ { s with currentZIndex := Z_INDEX.BASE } rfl
  show (resetStep b a).currentZIndex = Z_INDEX.BASE
  rw [resetStep_currentZIndex]
  exact hb

theorem reset_isInitialized (s : State) : (reset s).isInitialized = s.isInitialized := by
  unfold reset
  refine foldl_keeps (fun t => t.isInitialized = s.isInitialized) resetStep
    (fun b a hb => ?_) _ { s with currentZIndex := Z_INDEX.BASE } rfl
  show (resetStep b a).isInitialized = s.isInitialized
  rw [resetStep_isInitialized]
  exact hb

/-- The element found under `k` after `reset`. -/
theorem reset_getElementById (s : State) (k : String) :
    getElementById (reset s).dom k =
      if k ∈ ELEMENTS then
        (getElementById s.dom k).map
          (fun _ => { zIndex := some (defaultZ k), activeLayer := false })
      else getElementById s.dom k := by
  unfold reset
  rw [foldl_resetStep_get _ reset_pairs_defaultZ, reset_pairs_keys]

/-- The registry entry under `k` after `reset`. -/
theorem reset_registry_get (s : State) (k : String) :
    (reset s).elementRegistry.get k =
      if k ∈ ELEMENTS ∧ (getElementById s.dom k).isSome = true then
        (s.elementRegistry.get k).map (fun r => { r with zIndex := defaultZ k })
      else s.elementRegistry.get k := by
  unfold reset
  rw [foldl_resetStep_registry _ reset_pairs_defaultZ, reset_pairs_keys]

theorem reset_registry_has (s : State) (k : String) :
    (reset s).elementRegistry.has k = s.elementRegistry.has k := by
  unfold Registry.has
  rw [reset_registry_get]
  by_cases h : k ∈ ELEMENTS ∧ (getElementById s.dom k).isSome = true
  · simp [h]
  · simp [h]

theorem monitorStep_registry (s : State) (id : String) :
    (monitorStep s id).elementRegistry = s.elementRegistry := by
  unfold monitorStep
  cases getElementById s.dom id with
  | none => rfl
  | some e =>
    by_cases hc : computedZ e > 0 ∧ computedZ e < Z_INDEX.BASE ∧ computedZ e ≠ 1000
    · simp [hc]
    · simp [hc]

theorem monitorStep_isInitialized (s : State) (id : String) :
    (monitorStep s id).isInitialized = s.isInitialized := by
  unfold monitorStep
  cases getElementById s.dom id with
  | none => rfl
  | some e =>
    by_cases hc : computedZ e > 0 ∧ computedZ e < Z_INDEX.BASE ∧ computedZ e ≠ 1000
    · simp [hc]
    · simp [hc]

theorem monitorTick_registry (s : State) :
    (monitorTick s).elementRegistry = s.elementRegistry := by
  unfold monitorTick
  exact foldl_keeps (fun t => t.elementRegistry = s.elementRegistry) monitorStep
    (fun b a hb => by
      show (monitorStep b a).elementRegistry = s.elementRegistry
      rw [monitorStep_registry]
      exact hb)
    _ _ rfl

theorem monitorTick_isInitialized (s : State) :
    (monitorTick s).isInitialized = s.isInitialized := by
  unfold monitorTick
  exact foldl_keeps (fun t => t.isInitialized = s.isInitialized) monitorStep
    (fun b a hb => by
      show (monitorStep b a).isInitialized = s.isInitialized
      rw [monitorStep_isInitialized]
      exact hb)
    _ _ rfl

/-! ## Invariants of the reachable states -/

/-- Once `init` has run the module stays initialised. -/
theorem Reachable.initialized {s : State} (h : Reachable s) : s.isInitialized = true := by
  induction h with
  | init now d => exact init_isInitialized now _
  | raise now id _ ih => rw [raise_isInitialized]; exact ih
  | reset _ ih => rw [reset_isInitialized]; exact ih
  | reinit now _ _ => exact init_isInitialized now _
  | tick _ ih => rw [monitorTick_isInitialized]; exact ih
  | foreign d _ _ ih => exact ih

/-- The registry only ever holds ids of the static list: `init` is the only
caller of `register`. -/
theorem Reachable.registered_mem {s : State} (h : Reachable s) (k : String)
    (hk : registered s k = true) : k ∈ ELEMENTS := by
  induction h with
  | init now d =>
    unfold registered Registry.has at hk
    rw [init_registry_get now (initial d) rfl k] at hk
    by_cases hm : k ∈ ELEMENTS
    · exact hm
    · simp [hm, initial, Registry.get] at hk
  | raise now id _ ih =>
    unfold registered at hk ih
    rw [raise_registry_has] at hk
    exact ih hk
  | reset _ ih =>
    unfold registered at hk ih
    rw [reset_registry_has] at hk
    exact ih hk
  | reinit now hs ih =>
    rw [init_of_initialized now _ hs.initialized] at hk
    exact ih hk
  | tick _ ih =>
    unfold registered at hk ih
    rw [monitorTick_registry] at hk
    exact ih hk
  | foreign d _ _ ih => exact ih hk

theorem raise_registry_get (now : Nat) (id : String) (s : State) (e : Element)
    (h : getElementById s.dom id = some e) (k : String) :
    (raise now id s).2.elementRegistry.get k =
      if k = id then
        (s.elementRegistry.get k).map (fun r =>
          { r with zIndex := (raise now id s).2.currentZIndex, lastActive := now })
      else s.elementRegistry.get k := by
  rw [raise_of_exists now id s e h]
  by_cases hr : s.elementRegistry.has id = true
  · simp only [hr, if_true, Registry.get_modify]
  · have hn : s.elementRegistry.get id = none := by
      simpa [Registry.has] using hr
    by_cases hk : k = id
    · subst hk
      simp [hr, hn]
    · simp [hr, hk]

theorem raise_isActive_self (now : Nat) (id : String) (s : State) (e : Element)
    (h : getElementById s.dom id = some e) : isActive (raise now id s).2 id = true := by
  simp [isActive, raise_getElementById now id s e h id]

theorem raise_isActive_other (now : Nat) (id : String) (s : State) (e : Element)
    (h : getElementById s.dom id = some e) (k : String) (hk : k ≠ id) (hm : k ∈ ELEMENTS) :
    isActive (raise now id s).2 k = false := by
  unfold isActive
  rw [raise_getElementById now id s e h k]
  cases getElementById s.dom k <;> simp [hk, hm]

theorem raise_isSome (now : Nat) (id : String) (s : State) (k : String) :
    (getElementById (raise now id s).2.dom k).isSome = (getElementById s.dom k).isSome := by
  cases h : getElementById s.dom id with
  | none => rw [raise_of_missing now id s h]
  | some e =>
    rw [raise_getElementById now id s e h k]
    by_cases hk : k = id
    · subst hk
      simp [h]
    · by_cases hm : k ∈ ELEMENTS <;> cases getElementById s.dom k <;> simp [hk, hm]

/-! ## Properties of the layer coordinator -/

/-- C1, evaluated on the code: after `init` over a document holding all six
widgets, the first `raise` (of `draggableTodo`) succeeds without wraparound and
gives the raised widget the stacking value 1000002, while the registered widget
`notes-modal` still holds 1000005 from registration, so the widget just raised
is not the one with the greatest stacking value. -/
theorem raise_after_init_below_registered :
    registered fullState "draggableTodo" = true ∧
      registered fullState "notes-modal" = true ∧
      fullState.currentZIndex + Z_INDEX.STEP ≤ Z_INDEX.MAX_SAFE ∧
      (raise 1 "draggableTodo" fullState).1 = true ∧
      stackingOf (raise 1 "draggableTodo" fullState).2 "draggableTodo" = some 1000002 ∧
      stackingOf (raise 1 "draggableTodo" fullState).2 "notes-modal" = some 1000005 ∧
      ((raise 1 "draggableTodo" fullState).2.elementRegistry.get "draggableTodo").map
          RegistryEntry.zIndex = some 1000002 ∧
      ((raise 1 "draggableTodo" fullState).2.elementRegistry.get "notes-modal").map
          RegistryEntry.zIndex = some 1000005 := by
  decide

/-- C2: for distinct registered widgets `A` and `B` whose elements exist, in a
state where the second `raise` does not wrap the counter, after `raise(A)` then
`raise(B)` the stacking value of `B` (on the element and in the registry) is
strictly greater than that of `A`, `B` carries the active marker and `A` does
not. -/
theorem raise_twice_orders (s : State) (hs : Reachable s) (nowA nowB : Nat) (A B : String)
    (hA : registered s A = true) (hB : registered s B = true) (hAB : A ≠ B)
    (eA : (getElementById s.dom A).isSome = true)
    (eB : (getElementById s.dom B).isSome = true)
    (hwrap : (raise nowA A s).2.currentZIndex + Z_INDEX.STEP ≤ Z_INDEX.MAX_SAFE) :
    ∃ za zb : Int,
      stackingOf (raise nowB B (raise nowA A s).2).2 A = some za ∧
      stackingOf (raise nowB B (raise nowA A s).2).2 B = some zb ∧
      ((raise nowB B (raise nowA A s).2).2.elementRegistry.get A).map
          RegistryEntry.zIndex = some za ∧
      ((raise nowB B (raise nowA A s).2).2.elementRegistry.get B).map
          RegistryEntry.zIndex = some zb ∧
      za < zb ∧
      isActive (raise nowB B (raise nowA A s).2).2 B = true ∧
      isActive (raise nowB B (raise nowA A s).2).2 A = false := by
  obtain ⟨a, ha⟩ := Option.isSome_iff_exists.mp eA
  have hB1 : (getElementById (raise nowA A s).2.dom B).isSome = true := by
    rw [raise_isSome]; exact eB
  obtain ⟨b, hb⟩ := Option.isSome_iff_exists.mp hB1
  have hAmem : A ∈ ELEMENTS := hs.registered_mem A hA
  obtain ⟨ra, hra⟩ := Option.isSome_iff_exists.mp hA
  obtain ⟨rb, hrb⟩ := Option.isSome_iff_exists.mp hB
  have hBA : B ≠ A := fun h => hAB h.symm
  have hc2 : (raise nowB B (raise nowA A s).2).2.currentZIndex =
      (raise nowA A s).2.currentZIndex + Z_INDEX.STEP := by
    rw [raise_currentZIndex nowB B _ b hb, if_neg (not_lt.mpr hwrap)]
  refine ⟨(raise nowA A s).2.currentZIndex,
    (raise nowB B (raise nowA A s).2).2.currentZIndex, ?_, ?_, ?_, ?_, ?_, ?_, ?_⟩
  · rw [raise_stackingOf_other nowB B _ b hb A hAB, raise_stackingOf_self nowA A s a ha]
  · exact raise_stackingOf_self nowB B _ b hb
  · rw [raise_registry_get nowB B _ b hb A, if_neg hAB, raise_registry_get nowA A s a ha A,
      if_pos rfl, hra]
    rfl
  · rw [raise_registry_get nowB B _ b hb B, if_pos rfl, raise_registry_get nowA A s a ha B,
      if_neg hBA, hrb]
    rfl
  · rw [hc2]
    have : (0 : Int) < Z_INDEX.STEP := by decide
    omega
  · exact raise_isActive_self nowB B _ b hb
  · exact raise_isActive_other nowB B _ b hb A hAB hAmem

/-- Witness for C2: `draggableTodo` then `notes-widget` on the initialised
six-widget document. -/
theorem raise_twice_orders_witness :
    ∃ za zb : Int,
      stackingOf (raise 2 "notes-widget" (raise 1 "draggableTodo" fullState).2).2
          "draggableTodo" = some za ∧
      stackingOf (raise 2 "notes-widget" (raise 1 "draggableTodo" fullState).2).2
          "notes-widget" = some zb ∧
      ((raise 2 "notes-widget" (raise 1 "draggableTodo" fullState).2).2.elementRegistry.get
          "draggableTodo").map RegistryEntry.zIndex = some za ∧
      ((raise 2 "notes-widget" (raise 1 "draggableTodo" fullState).2).2.elementRegistry.get
          "notes-widget").map RegistryEntry.zIndex = some zb ∧
      za < zb ∧
      isActive (raise 2 "notes-widget" (raise 1 "draggableTodo" fullState).2).2
          "notes-widget" = true ∧
      isActive (raise 2 "notes-widget" (raise 1 "draggableTodo" fullState).2).2
          "draggableTodo" = false :=
  raise_twice_orders fullState (Reachable.init 0 fullDom) 1 2 "draggableTodo" "notes-widget"
    (by decide) (by decide) (by decide) (by decide) (by decide) (by decide)

/-- C4: from a counter of at least `BASE` (so in particular from every counter
within `[BASE, MAX_SAFE]`), `raise` on an existing element moves the counter to
`counter + STEP` when that does not exceed `MAX_SAFE` and to `BASE` otherwise;
the element receives the new counter as its stacking value, and both lie within
`[BASE, MAX_SAFE]`. -/
theorem raise_counter_in_range (now : Nat) (id : String) (s : State)
    (hlo : Z_INDEX.BASE ≤ s.currentZIndex)
    (hex : (getElementById s.dom id).isSome = true) :
    (raise now id s).1 = true ∧
      (raise now id s).2.currentZIndex =
        (if s.currentZIndex + Z_INDEX.STEP ≤ Z_INDEX.MAX_SAFE then
          s.currentZIndex + Z_INDEX.STEP
        else Z_INDEX.BASE) ∧
      stackingOf (raise now id s).2 id = some (raise now id s).2.currentZIndex ∧
      Z_INDEX.BASE ≤ (raise now id s).2.currentZIndex ∧
      (raise now id s).2.currentZIndex ≤ Z_INDEX.MAX_SAFE := by
  obtain ⟨e, he⟩ := Option.isSome_iff_exists.mp hex
  have hstep : (0 : Int) ≤ Z_INDEX.STEP := by decide
  have hbm : Z_INDEX.BASE ≤ Z_INDEX.MAX_SAFE := by decide
  have hcur := raise_currentZIndex now id s e he
  refine ⟨(raise_fst_iff now id s).mpr hex, ?_, raise_stackingOf_self now id s e he, ?_, ?_⟩
  · rw [hcur]
    by_cases h : s.currentZIndex + Z_INDEX.STEP ≤ Z_INDEX.MAX_SAFE
    · rw [if_neg (not_lt.mpr h), if_pos h]
    · rw [if_pos (not_le.mp h), if_neg h]
  · rw [hcur]
    by_cases h : s.currentZIndex + Z_INDEX.STEP > Z_INDEX.MAX_SAFE
    · rw [if_pos h]
    · rw [if_neg h]; omega
  · rw [hcur]
    by_cases h : s.currentZIndex + Z_INDEX.STEP > Z_INDEX.MAX_SAFE
    · rw [if_pos h]; exact hbm
    · rw [if_neg h]; omega

/-- Witness for C4: the first raise after `init`. -/
theorem raise_counter_in_range_witness :
    (raise 1 "date-widget" fullState).1 = true ∧
      (raise 1 "date-widget" fullState).2.currentZIndex =
        (if fullState.currentZIndex + Z_INDEX.STEP ≤ Z_INDEX.MAX_SAFE then
          fullState.currentZIndex + Z_INDEX.STEP
        else Z_INDEX.BASE) ∧
      stackingOf (raise 1 "date-widget" fullState).2 "date-widget" =
        some (raise 1 "date-widget" fullState).2.currentZIndex ∧
      Z_INDEX.BASE ≤ (raise 1 "date-widget" fullState).2.currentZIndex ∧
      (raise 1 "date-widget" fullState).2.currentZIndex ≤ Z_INDEX.MAX_SAFE :=
  raise_counter_in_range 1 "date-widget" fullState (by decide) (by decide)

/-- C5: for an id without DOM element, `raise(id)` returns `false` and hands
back the very same state: counter, every stacking value, every marker and the
registry are untouched. -/
theorem raise_missing_element_noop (now : Nat) (id : String) (s : State)
    (h : getElementById s.dom id = none) : raise now id s = (false, s) :=
  raise_of_missing now id s h

/-- Witness for C5: an id absent from the six-widget document. -/
theorem raise_missing_element_noop_witness :
    getElementById fullState.dom "no-such-widget" = none ∧
      raise 1 "no-such-widget" fullState = (false, fullState) :=
  ⟨by decide, raise_missing_element_noop 1 "no-such-widget" fullState (by decide)⟩

/-- C6 as stated fails: `custom-widget` is not in the static list, yet with an
element of that id in the document `raise` succeeds, advances the counter and
restyles the element. -/
theorem unlisted_id_raise_succeeds :
    "custom-widget" ∉ ELEMENTS ∧
      (raise 1 "custom-widget" (init 0 (initial customDom))).1 = true ∧
      (init 0 (initial customDom)).currentZIndex = 1000000 ∧
      (raise 1 "custom-widget" (init 0 (initial customDom))).2.currentZIndex = 1000002 ∧
      stackingOf (init 0 (initial customDom)) "custom-widget" = none ∧
      stackingOf (raise 1 "custom-widget" (init 0 (initial customDom))).2 "custom-widget" =
        some 1000002 ∧
      isActive (init 0 (initial customDom)) "custom-widget" = false ∧
      isActive (raise 1 "custom-widget" (init 0 (initial customDom))).2 "custom-widget" =
        true := by
  decide

/-- C6, amended: for an id outside the static list, `raise(id)` returns failure
and is a no-op when no DOM element has that id; when such an element exists,
`raise(id)` succeeds, advances the counter as for any widget, and gives the
element the new counter and the active marker. -/
theorem raise_unlisted_id (now : Nat) (id : String) (s : State) (_hid : id ∉ ELEMENTS) :
    (getElementById s.dom id = none → raise now id s = (false, s)) ∧
      ((getElementById s.dom id).isSome = true →
        (raise now id s).1 = true ∧
        (raise now id s).2.currentZIndex =
          (if s.currentZIndex + Z_INDEX.STEP > Z_INDEX.MAX_SAFE then Z_INDEX.BASE
           else s.currentZIndex + Z_INDEX.STEP) ∧
        stackingOf (raise now id s).2 id = some (raise now id s).2.currentZIndex ∧
        isActive (raise now id s).2 id = true ∧
        registered (raise now id s).2 id = registered s id) := by
  refine ⟨raise_of_missing now id s, fun hex => ?_⟩
  obtain ⟨e, he⟩ := Option.isSome_iff_exists.mp hex
  exact ⟨(raise_fst_iff now id s).mpr hex, raise_currentZIndex now id s e he,
    raise_stackingOf_self now id s e he, raise_isActive_self now id s e he,
    raise_registry_has now id s id⟩

/-- Witness for the amended C6, on the document holding `custom-widget`. -/
theorem raise_unlisted_id_witness :
    "custom-widget" ∉ ELEMENTS ∧
      (getElementById (init 0 (initial customDom)).dom "custom-widget").isSome = true ∧
      (raise 1 "custom-widget" (init 0 (initial customDom))).1 = true :=
  ⟨by decide, by decide,
    ((raise_unlisted_id 1 "custom-widget" (init 0 (initial customDom)) (by decide)).2
      (by decide)).1⟩

/-- C7: after a successful `raise(id)` of a registered widget, `id` carries the
active marker and no other widget that was registered when `raise` was called
carries it, whatever the markers were before; `raise` neither adds nor drops a
registry key, so these are also the widgets registered afterwards. -/
theorem raise_sole_active (s : State) (hs : Reachable s) (now : Nat) (id : String)
    (_hid : registered s id = true) (hok : (raise now id s).1 = true) :
    isActive (raise now id s).2 id = true ∧
      (∀ other : String, registered s other = true → other ≠ id →
        isActive (raise now id s).2 other = false) ∧
      ∀ k : String, registered (raise now id s).2 k = registered s k := by
  obtain ⟨e, he⟩ := Option.isSome_iff_exists.mp ((raise_fst_iff now id s).mp hok)
  refine ⟨raise_isActive_self now id s e he, fun other hreg hne => ?_,
    fun k => raise_registry_has now id s k⟩
  exact raise_isActive_other now id s e he other hne (hs.registered_mem other hreg)

/-- Witness for C7: raising `time-widget` while `draggableTodo` is the active
widget. -/
theorem raise_sole_active_witness :
    isActive (raise 1 "draggableTodo" fullState).2 "draggableTodo" = true ∧
      registered (raise 1 "draggableTodo" fullState).2 "draggableTodo" = true ∧
      isActive (raise 2 "time-widget" (raise 1 "draggableTodo" fullState).2).2
        "time-widget" = true ∧
      (∀ other : String,
        registered (raise 1 "draggableTodo" fullState).2 other = true →
        other ≠ "time-widget" →
        isActive (raise 2 "time-widget" (raise 1 "draggableTodo" fullState).2).2 other = false) ∧
      ∀ k : String,
        registered (raise 2 "time-widget" (raise 1 "draggableTodo" fullState).2).2 k =
          registered (raise 1 "draggableTodo" fullState).2 k :=
  ⟨by decide, by decide,
    raise_sole_active (raise 1 "draggableTodo" fullState).2
      (Reachable.raise 1 "draggableTodo" (Reachable.init 0 fullDom)) 2 "time-widget"
      (by decide) (by decide)⟩

/-- C8: after `reset`, from any reachable state, the counter equals `BASE`, and
every widget that was registered when `reset` was called is still registered,
carries no active marker and, when its element exists, has on the element and
in the registry the stacking value `defaultZ` that `register` gave it, i.e.
`BASE` plus its index in the static list. -/
theorem reset_restores_defaults (s : State) (hs : Reachable s) :
    (reset s).currentZIndex = Z_INDEX.BASE ∧
      ∀ id : String, registered s id = true →
        registered (reset s) id = true ∧
        isActive (reset s) id = false ∧
        ((getElementById s.dom id).isSome = true →
          stackingOf (reset s) id = some (defaultZ id) ∧
          ((reset s).elementRegistry.get id).map RegistryEntry.zIndex = some (defaultZ id) ∧
          defaultZ id = Z_INDEX.BASE + (ELEMENTS.indexOf id : Nat)) := by
  refine ⟨reset_currentZIndex s, fun id hreg => ?_⟩
  have hmem : id ∈ ELEMENTS := hs.registered_mem id hreg
  obtain ⟨r, hr⟩ := Option.isSome_iff_exists.mp hreg
  have hget := reset_getElementById s id
  rw [if_pos hmem] at hget
  refine ⟨?_, ?_, fun hex => ?_⟩
  · unfold registered
    rw [reset_registry_has]
    exact hreg
  · unfold isActive
    rw [hget]
    cases getElementById s.dom id <;> rfl
  · obtain ⟨e, he⟩ := Option.isSome_iff_exists.mp hex
    refine ⟨?_, ?_, ?_⟩
    · unfold stackingOf
      rw [hget, he]
      rfl
    · rw [reset_registry_get, if_pos ⟨hmem, by rw [he]; rfl⟩, hr]
      rfl
    · simp [defaultZ, indexOf, hmem]

/-- Witness for C8: `reset` after a raise on the six-widget document, where
`draggableTodo` is registered, holds the marker and stands at 1000002. -/
theorem reset_restores_defaults_witness :
    registered (raise 1 "draggableTodo" fullState).2 "draggableTodo" = true ∧
      isActive (raise 1 "draggableTodo" fullState).2 "draggableTodo" = true ∧
      stackingOf (raise 1 "draggableTodo" fullState).2 "draggableTodo" = some 1000002 ∧
      (reset (raise 1 "draggableTodo" fullState).2).currentZIndex = Z_INDEX.BASE ∧
      ∀ id : String, registered (raise 1 "draggableTodo" fullState).2 id = true →
        registered (reset (raise 1 "draggableTodo" fullState).2) id = true ∧
        isActive (reset (raise 1 "draggableTodo" fullState).2) id = false ∧
        ((getElementById (raise 1 "draggableTodo" fullState).2.dom id).isSome = true →
          stackingOf (reset (raise 1 "draggableTodo" fullState).2) id = some (defaultZ id) ∧
          ((reset (raise 1 "draggableTodo" fullState).2).elementRegistry.get id).map
            RegistryEntry.zIndex = some (defaultZ id) ∧
          defaultZ id = Z_INDEX.BASE + (ELEMENTS.indexOf id : Nat)) :=
  ⟨by decide, by decide, by decide,
    reset_restores_defaults (raise 1 "draggableTodo" fullState).2
      (Reachable.raise 1 "draggableTodo" (Reachable.init 0 fullDom))⟩

/-- C9: `init` is idempotent. In every state reached after `init` has run (also
after intervening `raise` calls, resets and watchdog ticks) a further `init`
returns the very same state: counter, registry, stacking values and markers are
unchanged. -/
theorem init_idempotent (s : State) (hs : Reachable s) (now : Nat) : init now s = s :=
  init_of_initialized now s hs.initialized

/-- Witness for C9: a second `init` after `init` and two raises. -/
theorem init_idempotent_witness :
    init 9 (raise 2 "time-widget" (raise 1 "draggableTodo" fullState).2).2 =
      (raise 2 "time-widget" (raise 1 "draggableTodo" fullState).2).2 :=
  init_idempotent _
    (Reachable.raise 2 "time-widget"
      (Reachable.raise 1 "draggableTodo" (Reachable.init 0 fullDom))) 9

/-- C10 as stated fails: after `init`, `todo-short` (index 1 of the static list)
has the stacking value 1000001, not `BASE + 1 * STEP` = 1000002. -/
theorem init_stacking_not_index_times_step :
    ELEMENTS.indexOf "todo-short" = 1 ∧
      (getElementById fullDom "todo-short").isSome = true ∧
      stackingOf (init 0 (initial fullDom)) "todo-short" = some 1000001 ∧
      stackingOf (init 0 (initial fullDom)) "todo-short" ≠
        some (Z_INDEX.BASE + 1 * Z_INDEX.STEP) := by
  decide

/-- C10, amended: after the first `init`, every widget of the static list that
exists in the DOM, at index `i`, has the stacking value `BASE + i` (index times
one, not times `STEP`), on its element and in the registry. -/
theorem init_stacking_base_plus_index (now : Nat) (s : State)
    (hinit : s.isInitialized = false) (i : Nat) (hi : i < ELEMENTS.length)
    (hex : (getElementById s.dom (ELEMENTS.get ⟨i, hi⟩)).isSome = true) :
    stackingOf (init now s) (ELEMENTS.get ⟨i, hi⟩) = some (Z_INDEX.BASE + (i : Int)) ∧
      ((init now s).elementRegistry.get (ELEMENTS.get ⟨i, hi⟩)).map RegistryEntry.zIndex =
        some (Z_INDEX.BASE + (i : Int)) := by
  have hmem : ELEMENTS.get ⟨i, hi⟩ ∈ ELEMENTS := List.get_mem _ _ _
  have hdef : defaultZ (ELEMENTS.get ⟨i, hi⟩) = Z_INDEX.BASE + (i : Int) := by
    have h6 : i < 6 := hi
    interval_cases i <;> rfl
  have hfix : (getElementById (fixConflicts s).dom (ELEMENTS.get ⟨i, hi⟩)).isSome = true := by
    rw [fixConflicts_isSome]; exact hex
  obtain ⟨e, he⟩ := Option.isSome_iff_exists.mp hfix
  constructor
  · unfold stackingOf
    rw [init_getElementById now s hinit, if_pos hmem, he, ← hdef]
    rfl
  · rw [init_registry_get now s hinit, if_pos ⟨hmem, hex⟩, ← hdef]
    rfl

/-- Witness for the amended C10: `time-widget`, index 3, gets 1000003. -/
theorem init_stacking_base_plus_index_witness :
    stackingOf (init 0 (initial fullDom)) (ELEMENTS.get ⟨3, by decide⟩) =
        some (Z_INDEX.BASE + ((3 : Nat) : Int)) ∧
      ((init 0 (initial fullDom)).elementRegistry.get (ELEMENTS.get ⟨3, by decide⟩)).map
          RegistryEntry.zIndex = some (Z_INDEX.BASE + ((3 : Nat) : Int)) :=
  init_stacking_base_plus_index 0 (initial fullDom) rfl 3 (by decide) (by decide)

end LayerSystem

namespace LayerSystem

/-! ## What a watchdog tick does -/

theorem monitorStep_get_other (s : State) (o k : String) (hk : k ≠ o) :
    getElementById (monitorStep s o).dom k = getElementById s.dom k := by
  unfold monitorStep
  cases getElementById s.dom o with
  | none => rfl
  | some e =>
    by_cases hc : computedZ e > 0 ∧ computedZ e < Z_INDEX.BASE ∧ computedZ e ≠ 1000
    · simp only [if_pos hc, setZIndex, getElementById_updateElement, if_neg hk]
    · simp only [if_neg hc]

theorem monitorStep_get_fix (s : State) (k : String) (e : Element)
    (he : getElementById s.dom k = some e)
    (hc : computedZ e > 0 ∧ computedZ e < Z_INDEX.BASE ∧ computedZ e ≠ 1000) :
    getElementById (monitorStep s k).dom k =
        some { e with zIndex := some (s.currentZIndex + Z_INDEX.STEP) } ∧
      (monitorStep s k).currentZIndex = s.currentZIndex + Z_INDEX.STEP := by
  unfold monitorStep
  simp only [he, if_pos hc, setZIndex, getElementById_updateElement]
  simp

theorem monitorStep_skip (s : State) (k : String)
    (hc : ∀ e, getElementById s.dom k = some e →
      ¬ (computedZ e > 0 ∧ computedZ e < Z_INDEX.BASE ∧ computedZ e ≠ 1000)) :
    monitorStep s k = s := by
  unfold monitorStep
  cases he : getElementById s.dom k with
  | none => rfl
  | some e => simp only [if_neg (hc e he)]

theorem monitorStep_counter_le (s : State) (o : String) :
    s.currentZIndex ≤ (monitorStep s o).currentZIndex := by
  unfold monitorStep
  have hstep : (0 : Int) ≤ Z_INDEX.STEP := by decide
  cases getElementById s.dom o with
  | none => exact le_refl _
  | some e =>
    by_cases hc : computedZ e > 0 ∧ computedZ e < Z_INDEX.BASE ∧ computedZ e ≠ 1000
    · simp only [if_pos hc]
      omega
    · simp only [if_neg hc]
      exact le_refl _

theorem foldl_monitorStep_counter_le (l : List String) (s : State) :
    s.currentZIndex ≤ (l.foldl monitorStep s).currentZIndex := by
  induction l generalizing s with
  | nil => exact le_refl _
  | cons o rest ih => exact le_trans (monitorStep_counter_le s o) (ih (monitorStep s o))

/-- An element outside the range the watchdog corrects is left alone. -/
theorem foldl_monitorStep_skip (l : List String) (s : State) (k : String)
    (hc : ∀ e, getElementById s.dom k = some e →
      ¬ (computedZ e > 0 ∧ computedZ e < Z_INDEX.BASE ∧ computedZ e ≠ 1000)) :
    getElementById (l.foldl monitorStep s).dom k = getElementById s.dom k := by
  induction l generalizing s with
  | nil => rfl
  | cons o rest ih =>
    rw [List.foldl_cons]
    by_cases hk : k = o
    · subst hk
      rw [monitorStep_skip s k hc]
      exact ih s hc
    · have h1 := monitorStep_get_other s o k hk
      rw [ih (monitorStep s o) (by rw [h1]; exact hc), h1]

/-- Handling other widgets leaves the element under `k` as it is. -/
theorem foldl_monitorStep_get_of_not_mem (l : List String) (s : State) (k : String)
    (hk : k ∉ l) :
    getElementById (l.foldl monitorStep s).dom k = getElementById s.dom k := by
  induction l generalizing s with
  | nil => rfl
  | cons o rest ih =>
    rw [List.foldl_cons, ih (monitorStep s o) (fun h => hk (List.mem_cons_of_mem o h)),
      monitorStep_get_other s o k (fun h => hk (h ▸ List.mem_cons_self k rest))]

/-- An element inside the range the watchdog corrects receives the counter of
that moment plus `STEP`, provided that value is at least `BASE`. -/
theorem foldl_monitorStep_fix (l : List String) (s : State) (k : String) (e : Element)
    (hk : k ∈ l) (hbase : Z_INDEX.BASE ≤ s.currentZIndex + Z_INDEX.STEP)
    (he : getElementById s.dom k = some e)
    (hc : computedZ e > 0 ∧ computedZ e < Z_INDEX.BASE ∧ computedZ e ≠ 1000) :
    ∃ z : Int, getElementById (l.foldl monitorStep s).dom k = some { e with zIndex := some z } ∧
      s.currentZIndex + Z_INDEX.STEP ≤ z ∧ z ≤ (l.foldl monitorStep s).currentZIndex := by
  induction l generalizing s with
  | nil => simp at hk
  | cons o rest ih =>
    rw [List.foldl_cons]
    by_cases hko : k = o
    · subst hko
      obtain ⟨hget, hcnt⟩ := monitorStep_get_fix s k e he hc
      refine ⟨s.currentZIndex + Z_INDEX.STEP, ?_, le_refl _, ?_⟩
      · rw [foldl_monitorStep_skip rest (monitorStep s k) k, hget]
        intro e' he' hc'
        rw [hget] at he'
        have : computedZ e' = s.currentZIndex + Z_INDEX.STEP := by
          rw [← Option.some.inj he']
          rfl
        omega
      · rw [← hcnt]
        exact foldl_monitorStep_counter_le rest _
    · have hmem : k ∈ rest := by
        rcases List.mem_cons.mp hk with h | h
        · exact absurd h hko
        · exact h
      have h1 := monitorStep_get_other s o k hko
      have hle := monitorStep_counter_le s o
      obtain ⟨z, hz, hlo, hhi⟩ :=
        ih (monitorStep s o) hmem (by omega) (by rw [h1]; exact he)
      exact ⟨z, hz, by omega, hhi⟩

theorem monitorTick_counter_le (s : State) :
    s.currentZIndex ≤ (monitorTick s).currentZIndex :=
  foldl_monitorStep_counter_le ELEMENTS s

/-- The counter never drops below `BASE` once `init` has run. -/
theorem Reachable.counter_ge_base {s : State} (h : Reachable s) :
    Z_INDEX.BASE ≤ s.currentZIndex := by
  have hstep : (0 : Int) ≤ Z_INDEX.STEP := by decide
  induction h with
  | init now d =>
    rw [init_currentZIndex]
    exact le_refl _
  | @raise now id t _ ih =>
    cases hg : getElementById t.dom id with
    | none => rw [raise_of_missing now id t hg]; exact ih
    | some e =>
      rw [raise_currentZIndex now id t e hg]
      by_cases hw : t.currentZIndex + Z_INDEX.STEP > Z_INDEX.MAX_SAFE
      · rw [if_pos hw]
      · rw [if_neg hw]; omega
  | reset _ _ => rw [reset_currentZIndex]
  | reinit now _ ih => rw [init_currentZIndex]; exact ih
  | tick _ ih => exact le_trans ih (monitorTick_counter_le _)
  | foreign d _ _ ih => exact ih

theorem monitorStep_counter_parity (s : State) (o : String) :
    (monitorStep s o).currentZIndex % 2 = s.currentZIndex % 2 := by
  unfold monitorStep
  have hstep : Z_INDEX.STEP = 2 := rfl
  cases getElementById s.dom o with
  | none => rfl
  | some e =>
    by_cases hc : computedZ e > 0 ∧ computedZ e < Z_INDEX.BASE ∧ computedZ e ≠ 1000
    · simp only [if_pos hc]
      omega
    · simp only [if_neg hc]

theorem foldl_monitorStep_counter_parity (l : List String) (s : State) :
    (l.foldl monitorStep s).currentZIndex % 2 = s.currentZIndex % 2 := by
  induction l generalizing s with
  | nil => rfl
  | cons o rest ih =>
    rw [List.foldl_cons, ih (monitorStep s o), monitorStep_counter_parity]

/-- The counter is even in every reachable state: it starts at `BASE`, and every
change adds `STEP` or returns it to `BASE`. -/
theorem Reachable.counter_even {s : State} (h : Reachable s) : s.currentZIndex % 2 = 0 := by
  have hstep : Z_INDEX.STEP = 2 := rfl
  have hbase : Z_INDEX.BASE % 2 = 0 := by decide
  induction h with
  | init now d =>
    rw [init_currentZIndex]
    exact hbase
  | @raise now id t _ ih =>
    cases hg : getElementById t.dom id with
    | none => rw [raise_of_missing now id t hg]; exact ih
    | some e =>
      rw [raise_currentZIndex now id t e hg]
      by_cases hw : t.currentZIndex + Z_INDEX.STEP > Z_INDEX.MAX_SAFE
      · rw [if_pos hw]; exact hbase
      · rw [if_neg hw]; omega
  | reset _ _ => rw [reset_currentZIndex]; exact hbase
  | reinit now _ ih => rw [init_currentZIndex]; exact ih
  | tick _ ih =>
    show (ELEMENTS.foldl monitorStep _).currentZIndex % 2 = 0
    rw [foldl_monitorStep_counter_parity]
    exact ih
  | foreign d _ _ ih => exact ih

/-- The counter never sits on the ceiling `MAX_SAFE` (9999999, an odd number):
the greatest value it takes within `[BASE, MAX_SAFE]` is 9999998. -/
theorem Reachable.counter_ne_max_safe {s : State} (h : Reachable s) :
    s.currentZIndex ≠ Z_INDEX.MAX_SAFE := by
  have he := h.counter_even
  have hm : Z_INDEX.MAX_SAFE = 9999999 := rfl
  omega

theorem setZIndex_isSome (d : Dom) (h : String) (z : Int) (id : String) :
    (setZIndex d h z id).isSome = (d id).isSome := by
  unfold setZIndex updateElement
  by_cases hk : id = h
  · simp [hk]
  · simp [hk]

/-- Foreign code overwriting one z-index keeps a reachable state reachable. -/
theorem Reachable.setZIndex {s : State} (hs : Reachable s) (h : String) (z : Int) :
    Reachable { s with dom := LayerSystem.setZIndex s.dom h z } :=
  Reachable.foreign _ (setZIndex_isSome s.dom h z) hs

end LayerSystem

namespace LayerSystem

theorem stackingOf_congr {s t : State} {k : String}
    (h : getElementById t.dom k = getElementById s.dom k) :
    stackingOf t k = stackingOf s k := by
  unfold stackingOf
  rw [h]

/-- An element whose stacking value is outside the corrected range keeps it
over a watchdog tick. -/
theorem monitorTick_stackingOf_skip (s : State) (k : String)
    (hq : ∀ z : Int, stackingOf s k = some z →
      ¬ (0 < z ∧ z < Z_INDEX.BASE ∧ z ≠ 1000)) :
    stackingOf (monitorTick s) k = stackingOf s k := by
  apply stackingOf_congr
  apply foldl_monitorStep_skip
  intro e he hc
  cases hz : e.zIndex with
  | none =>
    have h0 : computedZ e = 0 := by simp [computedZ, hz]
    omega
  | some z =>
    have hcz : computedZ e = z := by simp [computedZ, hz]
    have hst : stackingOf s k = some z := by
      unfold stackingOf
      rw [he]
      exact hz
    rw [hcz] at hc
    exact hq z hst ⟨hc.1, hc.2.1, hc.2.2⟩

/-- A widget of the static list whose stacking value is inside the corrected
range receives a value above the counter. -/
theorem monitorTick_stackingOf_fix (s : State) (k : String) (hk : k ∈ ELEMENTS)
    (hbase : Z_INDEX.BASE ≤ s.currentZIndex) (z : Int) (hz : stackingOf s k = some z)
    (hc : 0 < z ∧ z < Z_INDEX.BASE ∧ z ≠ 1000) :
    ∃ z' : Int, stackingOf (monitorTick s) k = some z' ∧
      s.currentZIndex + Z_INDEX.STEP ≤ z' ∧ z' ≤ (monitorTick s).currentZIndex := by
  have hstep : (0 : Int) ≤ Z_INDEX.STEP := by decide
  unfold stackingOf at hz
  cases he : getElementById s.dom k with
  | none => simp [he] at hz
  | some e =>
    rw [he] at hz
    have hcz : computedZ e = z := by
      have : e.zIndex = some z := hz
      simp [computedZ, this]
    obtain ⟨z', hget, hlo, hhi⟩ :=
      foldl_monitorStep_fix ELEMENTS s k e hk (by omega) he (by rw [hcz]; exact ⟨hc.1, hc.2.1, hc.2.2⟩)
    refine ⟨z', ?_, hlo, hhi⟩
    unfold stackingOf monitorTick
    rw [hget]

/-! ## Properties of the watchdog -/

/-- C11 as stated fails: the registered widget `todo-short` with the observed
stacking value 1000, below the floor `BASE`, still has 1000 after a watchdog
tick. -/
theorem monitorTick_leaves_1000 :
    registered (interfered 1000) "todo-short" = true ∧
      stackingOf (interfered 1000) "todo-short" = some 1000 ∧
      (1000 : Int) < Z_INDEX.BASE ∧
      stackingOf (monitorTick (interfered 1000)) "todo-short" = some 1000 := by
  decide

/-- C11, amended: for every registered widget whose observed stacking value `z`
satisfies `0 < z < BASE` and `z ≠ 1000`, one watchdog tick assigns the counter
of that moment plus `STEP`: with `pre` the widgets standing before it in the
static list, the counter as the tick has left it after handling `pre`, which is
at least the counter before the tick, plus `STEP`; that value is at least
`BASE`. A widget whose value is `z ≤ 0` or `z = 1000`, or which has no numeric
stacking value, is left as it is. -/
theorem monitorTick_corrects_below_floor (s : State) (hs : Reachable s) (id : String)
    (hreg : registered s id = true) :
    (∀ z : Int, stackingOf s id = some z → (0 < z ∧ z < Z_INDEX.BASE ∧ z ≠ 1000) →
        ∃ pre post : List String, ELEMENTS = pre ++ id :: post ∧
          stackingOf (monitorTick s) id =
            some ((pre.foldl monitorStep s).currentZIndex + Z_INDEX.STEP) ∧
          s.currentZIndex ≤ (pre.foldl monitorStep s).currentZIndex ∧
          Z_INDEX.BASE ≤ (pre.foldl monitorStep s).currentZIndex + Z_INDEX.STEP) ∧
      (∀ z : Int, stackingOf s id = some z → (z ≤ 0 ∨ z = 1000) →
        stackingOf (monitorTick s) id = some z) ∧
      (stackingOf s id = none → stackingOf (monitorTick s) id = none) := by
  have hstep : (0 : Int) < Z_INDEX.STEP := by decide
  have hbase := hs.counter_ge_base
  refine ⟨fun z hz hc => ?_, fun z hz hc => ?_, fun hz => ?_⟩
  · obtain ⟨pre, post, hsplit⟩ := List.append_of_mem (hs.registered_mem id hreg)
    have hnd : (pre ++ id :: post).Nodup := by
      rw [← hsplit]
      decide
    have hpre : id ∉ pre := fun hmem =>
      (List.nodup_append.mp hnd).2.2 hmem (List.mem_cons_self id post)
    have hle := foldl_monitorStep_counter_le pre s
    refine ⟨pre, post, hsplit, ?_, hle, by omega⟩
    unfold stackingOf at hz
    cases he : getElementById s.dom id with
    | none => simp [he] at hz
    | some e =>
      rw [he] at hz
      have hcz : computedZ e = z := by
        have : e.zIndex = some z := hz
        simp [computedZ, this]
      have het : getElementById (pre.foldl monitorStep s).dom id = some e := by
        rw [foldl_monitorStep_get_of_not_mem pre s id hpre, he]
      obtain ⟨hget, _⟩ := monitorStep_get_fix (pre.foldl monitorStep s) id e het
        (by rw [hcz]; exact hc)
      have hfinal : getElementById (monitorTick s).dom id =
          some { e with zIndex := some ((pre.foldl monitorStep s).currentZIndex + Z_INDEX.STEP) } := by
        unfold monitorTick
        rw [hsplit, List.foldl_append, List.foldl_cons,
          foldl_monitorStep_skip post (monitorStep (pre.foldl monitorStep s) id) id, hget]
        intro e' he' hc'
        rw [hget] at he'
        have : computedZ e' = (pre.foldl monitorStep s).currentZIndex + Z_INDEX.STEP := by
          rw [← Option.some.inj he']
          rfl
        omega
      unfold stackingOf
      rw [hfinal]
  · rw [monitorTick_stackingOf_skip s id, hz]
    intro z0 hz0 hr
    rw [hz] at hz0
    have : z = z0 := Option.some.inj hz0
    omega
  · rw [monitorTick_stackingOf_skip s id, hz]
    intro z0 hz0
    rw [hz] at hz0
    exact absurd hz0 (by simp)

/-- Witness for the amended C11: `todo-short` pushed down to 5 is lifted to
1000002: the counter 1000000, as left by `draggableTodo` before it, plus `STEP`. -/
theorem monitorTick_corrects_below_floor_witness :
    stackingOf (monitorTick (interfered 5)) "todo-short" = some 1000002 ∧
      ∃ pre post : List String, ELEMENTS = pre ++ "todo-short" :: post ∧
        stackingOf (monitorTick (interfered 5)) "todo-short" =
          some ((pre.foldl monitorStep (interfered 5)).currentZIndex + Z_INDEX.STEP) ∧
        (interfered 5).currentZIndex ≤ (pre.foldl monitorStep (interfered 5)).currentZIndex ∧
        Z_INDEX.BASE ≤ (pre.foldl monitorStep (interfered 5)).currentZIndex + Z_INDEX.STEP :=
  ⟨by decide,
    (monitorTick_corrects_below_floor (interfered 5)
      (Reachable.setZIndex (Reachable.init 0 fullDom) "todo-short" 5) "todo-short"
      (by decide)).1 5 (by decide) (by decide)⟩

/-- C12, evaluated on the code: with the counter at 9999998, inside
`[BASE, MAX_SAFE]`, and `todo-short` pushed down to 5, one watchdog tick
assigns 10000000 to the widget and leaves the counter at 10000000, both above
`MAX_SAFE`. -/
theorem monitorTick_exceeds_ceiling :
    Z_INDEX.BASE ≤ nearCeiling.currentZIndex ∧
      nearCeiling.currentZIndex ≤ Z_INDEX.MAX_SAFE ∧
      stackingOf nearCeiling "todo-short" = some 5 ∧
      stackingOf (monitorTick nearCeiling) "todo-short" = some 10000000 ∧
      (monitorTick nearCeiling).currentZIndex = 10000000 ∧
      Z_INDEX.MAX_SAFE < (monitorTick nearCeiling).currentZIndex := by
  decide

/-- C13 as stated fails: after three raises `draggableTodo` holds the strictly
greatest stacking value (1000006) although foreign code has set `todo-short` to
5; the watchdog tick then gives `todo-short` 1000008, so `draggableTodo` no
longer holds the greatest value. -/
theorem monitorTick_overtakes_last_raised :
    holdsTop raisedThenInterfered "draggableTodo" ∧
      stackingOf (monitorTick raisedThenInterfered) "draggableTodo" = some 1000006 ∧
      stackingOf (monitorTick raisedThenInterfered) "todo-short" = some 1000008 ∧
      ¬ holdsTop (monitorTick raisedThenInterfered) "draggableTodo" := by
  have hreach : Reachable raisedThenInterfered :=
    Reachable.setZIndex
      (Reachable.raise 3 "draggableTodo"
        (Reachable.raise 2 "draggableTodo"
          (Reachable.raise 1 "draggableTodo" (Reachable.init 0 fullDom)))) "todo-short" 5
  refine ⟨⟨1000006, by decide, ?_⟩, by decide, by decide, ?_⟩
  · intro other hreg hne z hz
    have hmem := hreach.registered_mem other hreg
    simp only [ELEMENTS, List.mem_cons, List.mem_singleton, List.not_mem_nil, or_false] at hmem
    rcases hmem with h | h | h | h | h | h <;> subst h
    · exact absurd rfl hne
    · have h2 : stackingOf raisedThenInterfered "todo-short" = some 5 := by decide
      rw [h2] at hz
      rw [← Option.some.inj hz]
      decide
    · have h2 : stackingOf raisedThenInterfered "notes-widget" = some 1000002 := by decide
      rw [h2] at hz
      rw [← Option.some.inj hz]
      decide
    · have h2 : stackingOf raisedThenInterfered "time-widget" = some 1000003 := by decide
      rw [h2] at hz
      rw [← Option.some.inj hz]
      decide
    · have h2 : stackingOf raisedThenInterfered "date-widget" = some 1000004 := by decide
      rw [h2] at hz
      rw [← Option.some.inj hz]
      decide
    · have h2 : stackingOf raisedThenInterfered "notes-modal" = some 1000005 := by decide
      rw [h2] at hz
      rw [← Option.some.inj hz]
      decide
  · rintro ⟨zw, hzw, hall⟩
    have h1 : stackingOf (monitorTick raisedThenInterfered) "draggableTodo" = some 1000006 := by
      decide
    rw [h1] at hzw
    have h2 := hall "todo-short" (by decide) (by decide) 1000008 (by decide)
    rw [← Option.some.inj hzw] at h2
    exact absurd h2 (by decide)

/-- C13, amended: from a reachable state in which the last-raised widget holds
the strictly greatest stacking value among the registered widgets and no other
registered widget has a stacking value in the range the watchdog corrects
(`0 < z < BASE`, `z ≠ 1000`), a watchdog tick leaves that widget holding the
strictly greatest stacking value. -/
theorem monitorTick_keeps_top (s : State) (hs : Reachable s) (w : String)
    (hw : registered s w = true) (htop : holdsTop s w)
    (hquiet : ∀ other : String, registered s other = true → other ≠ w →
      ∀ z : Int, stackingOf s other = some z → ¬ (0 < z ∧ z < Z_INDEX.BASE ∧ z ≠ 1000)) :
    holdsTop (monitorTick s) w := by
  have hstep : (0 : Int) < Z_INDEX.STEP := by decide
  have hbase := hs.counter_ge_base
  obtain ⟨zw, hzw, hall⟩ := htop
  have hothers : ∀ other : String, registered (monitorTick s) other = true → other ≠ w →
      ∀ z : Int, stackingOf (monitorTick s) other = some z → z < zw := by
    intro other hreg hne z hz
    have hreg' : registered s other = true := by
      unfold registered at hreg ⊢
      rw [monitorTick_registry] at hreg
      exact hreg
    rw [monitorTick_stackingOf_skip s other (hquiet other hreg' hne)] at hz
    exact hall other hreg' hne z hz
  by_cases hc : 0 < zw ∧ zw < Z_INDEX.BASE ∧ zw ≠ 1000
  · obtain ⟨z', hz', hlo, _⟩ :=
      monitorTick_stackingOf_fix s w (hs.registered_mem w hw) hbase zw hzw hc
    refine ⟨z', hz', fun other hreg hne z hz => ?_⟩
    have := hothers other hreg hne z hz
    omega
  · refine ⟨zw, ?_, hothers⟩
    rw [monitorTick_stackingOf_skip s w, hzw]
    intro z0 hz0 hr
    rw [hzw] at hz0
    rw [← Option.some.inj hz0] at hr
    exact hc hr

/-- Witness for the amended C13: after three raises on the six-widget document
nothing is in the corrected range and `draggableTodo` stays on top. -/
theorem monitorTick_keeps_top_witness : holdsTop (monitorTick raisedThrice) "draggableTodo" := by
  have hreach : Reachable raisedThrice :=
    Reachable.raise 3 "draggableTodo"
      (Reachable.raise 2 "draggableTodo"
        (Reachable.raise 1 "draggableTodo" (Reachable.init 0 fullDom)))
  have hvals : ∀ other : String, registered raisedThrice other = true →
      other ≠ "draggableTodo" → ∀ z : Int, stackingOf raisedThrice other = some z →
        Z_INDEX.BASE ≤ z ∧ z < 1000006 := by
    intro other hreg hne z hz
    have hmem := hreach.registered_mem other hreg
    simp only [ELEMENTS, List.mem_cons, List.mem_singleton, List.not_mem_nil, or_false] at hmem
    rcases hmem with h | h | h | h | h | h <;> subst h
    · exact absurd rfl hne
    · have h2 : stackingOf raisedThrice "todo-short" = some 1000001 := by decide
      rw [h2] at hz
      rw [← Option.some.inj hz]
      decide
    · have h2 : stackingOf raisedThrice "notes-widget" = some 1000002 := by decide
      rw [h2] at hz
      rw [← Option.some.inj hz]
      decide
    · have h2 : stackingOf raisedThrice "time-widget" = some 1000003 := by decide
      rw [h2] at hz
      rw [← Option.some.inj hz]
      decide
    · have h2 : stackingOf raisedThrice "date-widget" = some 1000004 := by decide
      rw [h2] at hz
      rw [← Option.some.inj hz]
      decide
    · have h2 : stackingOf raisedThrice "notes-modal" = some 1000005 := by decide
      rw [h2] at hz
      rw [← Option.some.inj hz]
      decide
  exact monitorTick_keeps_top raisedThrice hreach "draggableTodo" (by decide)
    ⟨1000006, by decide, fun other hreg hne z hz => (hvals other hreg hne z hz).2⟩
    (fun other hreg hne z hz hr => by
      have := (hvals other hreg hne z hz).1
      omega)

end LayerSystem

namespace Interaction

/-! ## Facts about the clamps -/

theorem assignPx_cases (old : String) (v : JsNum) :
    assignPx old v = old ∨ ∃ n : Int, v = some n ∧ assignPx old v = px n := by
  cases v with
  | none => exact Or.inl rfl
  | some n => exact Or.inr ⟨n, rfl, rfl⟩

theorem dragTarget_eq (start client startClient windowSize elementSize : Int) :
    dragTarget (some start) (some client) (some startClient) windowSize elementSize =
      some (max 5 (min (start + (client - startClient)) (windowSize - elementSize - 5))) := rfl

/-- The lower margin always holds for a clamped coordinate; the upper margin
holds when the element and both margins fit into the window. -/
theorem dragTarget_bounds (start client startClient : JsNum) (windowSize elementSize l : Int)
    (h : dragTarget start client startClient windowSize elementSize = some l) :
    5 ≤ l ∧ (elementSize + 10 ≤ windowSize → l + elementSize ≤ windowSize - 5) := by
  cases start <;> cases client <;> cases startClient <;>
    simp [dragTarget, jsMax, jsMin, jsAdd, jsSub] at h
  subst h
  constructor
  · exact le_max_left _ _
  · intro hfit
    omega

theorem resizeTarget_eq (start client startClient lo hi : Int) :
    resizeTarget (some start) (some client) (some startClient) lo hi =
      some (min (max (start + (client - startClient)) lo) hi) := rfl

/-- A clamped size never exceeds the upper bound and, when the bounds are
ordered, never falls below the lower one. -/
theorem resizeTarget_bounds (start client startClient : JsNum) (lo hi w : Int)
    (h : resizeTarget start client startClient lo hi = some w) :
    w ≤ hi ∧ (lo ≤ hi → lo ≤ w) := by
  cases start <;> cases client <;> cases startClient <;>
    simp [resizeTarget, jsMax, jsMin, jsAdd, jsSub] at h
  subst h
  constructor
  · exact min_le_right _ _
  · intro hord
    exact le_min (le_max_right _ _) hord

end Interaction

namespace Interaction

/-! ## Properties of the drag controller -/

/-- A call of `moveElement` either leaves the state alone or runs the body
after the guards. -/
theorem moveElement_cases (c : DragController) (e : Pointer) (lay : Layout) (st : DragState) :
    moveElement c e lay st = st ∨
      moveElement c e lay st = applyMove (dragCoords c e) lay st := by
  unfold moveElement
  by_cases hd : st.isDragging = false
  · exact Or.inl (if_pos hd)
  · rw [if_neg hd]
    by_cases hm : dragCoordsMissing c (dragCoords c e) = true
    · left
      cases c <;> cases e <;> simp [hm]
    · cases c <;> cases e <;> simp [hm]

/-- On a mouse event whose coordinates the controller reads as numbers,
`moveElement` runs the body after the guards. -/
theorem moveElement_mouse (c : DragController) (x y : Int) (lay : Layout) (st : DragState)
    (hd : st.isDragging = true) (hxy : c = .datetime ∨ (x ≠ 0 ∧ y ≠ 0)) :
    moveElement c (.mouse x y) lay st = applyMove (some x, some y) lay st := by
  unfold moveElement
  rw [if_neg (by rw [hd]; decide)]
  rcases hxy with h | ⟨hx, hy⟩
  · subst h
    simp [dragCoords, coordsSafe, dragCoordsMissing]
  · cases c <;> simp [dragCoords, coordsSafe, coordsOr, orTouches, dragCoordsMissing, hx, hy]

/-- C14 as stated fails: with a 200 px wide widget in a 100 px wide viewport a
pointer-move while dragging sets `left` to `5px` (and `top` to `5px`) in all
three controllers, and 5 + 200 exceeds 100 - 5. -/
theorem moveElement_oversized_widget :
    (midDrag "time-widget" "timePosition").isDragging = true ∧
      (moveElement .datetime (.mouse 110 110) crampedLayout
        (midDrag "time-widget" "timePosition")).widget.style.left = px 5 ∧
      (moveElement .todo (.mouse 110 110) crampedLayout
        (midDrag "draggableTodo" "todoPosition")).widget.style.left = px 5 ∧
      (moveElement .notes (.mouse 110 110) crampedLayout
        (midDrag "notes-widget" "notesPosition")).widget.style.left = px 5 ∧
      (moveElement .datetime (.mouse 110 110) crampedLayout
        (midDrag "time-widget" "timePosition")).widget.style.top = px 5 ∧
      ¬ ((5 : Int) + crampedLayout.offsetWidth ≤ crampedLayout.innerWidth - 5) ∧
      ¬ ((5 : Int) + crampedLayout.offsetHeight ≤ crampedLayout.innerHeight - 5) := by
  decide

/-- C14, amended: when the widget and both 5 px margins fit into the viewport
(`w + 10 ≤ W`, `h + 10 ≤ H`), every `left` and `top` that `moveElement` writes,
in any of the three controllers and for any snapshot and pointer, satisfies
`5 ≤ left`, `left + w ≤ W - 5`, `5 ≤ top`, `top + h ≤ H - 5`; and on a mouse
move while dragging, with a numeric snapshot and coordinates the controller
reads as numbers, both are written, as the clamped candidate position. The
lower bounds `5 ≤ left` and `5 ≤ top` hold for every viewport. -/
theorem moveElement_within_viewport (c : DragController) (e : Pointer) (lay : Layout)
    (st : DragState) :
    ((moveElement c e lay st).widget.style.left = st.widget.style.left ∨
        ∃ l : Int, (moveElement c e lay st).widget.style.left = px l ∧ 5 ≤ l ∧
          (lay.offsetWidth + 10 ≤ lay.innerWidth → l + lay.offsetWidth ≤ lay.innerWidth - 5)) ∧
      ((moveElement c e lay st).widget.style.top = st.widget.style.top ∨
        ∃ t : Int, (moveElement c e lay st).widget.style.top = px t ∧ 5 ≤ t ∧
          (lay.offsetHeight + 10 ≤ lay.innerHeight →
            t + lay.offsetHeight ≤ lay.innerHeight - 5)) ∧
      (∀ x y sx sy sl stp : Int, e = .mouse x y → st.isDragging = true →
        (c = .datetime ∨ (x ≠ 0 ∧ y ≠ 0)) →
        st.startX = some sx → st.startY = some sy →
        st.startLeft = some sl → st.startTop = some stp →
        (moveElement c e lay st).widget.style.left =
            px (max 5 (min (sl + (x - sx)) (lay.innerWidth - lay.offsetWidth - 5))) ∧
          (moveElement c e lay st).widget.style.top =
            px (max 5 (min (stp + (y - sy)) (lay.innerHeight - lay.offsetHeight - 5)))) := by
  refine ⟨?_, ?_, ?_⟩
  · rcases moveElement_cases c e lay st with h | h
    · left; rw [h]
    · rw [h]
      rcases assignPx_cases st.widget.style.left
          (dragTarget st.startLeft (dragCoords c e).1 st.startX lay.innerWidth lay.offsetWidth)
        with h1 | ⟨l, hl, h1⟩
      · left; exact h1
      · right
        exact ⟨l, h1, dragTarget_bounds _ _ _ _ _ l hl⟩
  · rcases moveElement_cases c e lay st with h | h
    · left; rw [h]
    · rw [h]
      rcases assignPx_cases st.widget.style.top
          (dragTarget st.startTop (dragCoords c e).2 st.startY lay.innerHeight lay.offsetHeight)
        with h1 | ⟨t, ht, h1⟩
      · left; exact h1
      · right
        exact ⟨t, h1, dragTarget_bounds _ _ _ _ _ t ht⟩
  · intro x y sx sy sl stp he hd hxy hsx hsy hsl hst
    subst he
    rw [moveElement_mouse c x y lay st hd hxy]
    simp only [applyMove, hsx, hsy, hsl, hst, dragTarget_eq, assignPx]
    exact ⟨trivial, trivial⟩

/-- Witness for the amended C14: a mouse move to (400, 900) on a 1280 x 720
viewport with a 300 x 200 widget puts the widget at (350, 515). -/
theorem moveElement_within_viewport_witness :
    (moveElement .todo (.mouse 400 900) roomyLayout
        (midDrag "draggableTodo" "todoPosition")).widget.style.left = px 350 ∧
      (moveElement .todo (.mouse 400 900) roomyLayout
        (midDrag "draggableTodo" "todoPosition")).widget.style.top = px 515 :=
  (moveElement_within_viewport .todo (.mouse 400 900) roomyLayout
    (midDrag "draggableTodo" "todoPosition")).2.2 400 900 100 100 50 50 rfl rfl
    (Or.inr ⟨by decide, by decide⟩) rfl rfl rfl rfl

/-- C15: in each of the three controllers, from rest, a pointer-down on the
drag handle followed directly by a pointer-up (the arming timer has not fired)
leaves the controller at rest: not dragging, no `dragging` marker, no timer
pending that could still start a drag, and `localStorage` untouched. -/
theorem click_leaves_idle (c : DragController) (now : Nat) (lay : Layout) (st : DragState)
    (e : Pointer) (target : Target) (hidle : Idle st) :
    Idle (dragRun c now lay st [.pointerDown e target, .pointerUp]) ∧
      (dragRun c now lay st [.pointerDown e target, .pointerUp]).storage = st.storage ∧
      (dragRun c now lay st [.pointerDown e target, .pointerUp]).widget = st.widget := by
  obtain ⟨hd, hm, ht⟩ := hidle
  have harm : Idle (stopDrag (armTimer e st)) ∧ (stopDrag (armTimer e st)).storage = st.storage ∧
      (stopDrag (armTimer e st)).widget = st.widget := by
    simp [Idle, stopDrag, armTimer, clearTimeout, hd, hm, ht]
  have hstay : Idle (stopDrag st) ∧ (stopDrag st).storage = st.storage ∧
      (stopDrag st).widget = st.widget := by
    cases hl : st.longPressTimer <;> simp [Idle, stopDrag, clearTimeout, hd, hm, ht, hl]
  cases c with
  | datetime => simpa [dragRun, dragStep, startLongPress] using harm
  | notes => simpa [dragRun, dragStep, startLongPress] using harm
  | todo =>
    by_cases hg : todoGuard target = true
    · simpa [dragRun, dragStep, startLongPress, hg] using hstay
    · simpa [dragRun, dragStep, startLongPress, hg] using harm

/-- Witness for C15: a click on the handle of the notes widget. -/
theorem click_leaves_idle_witness :
    Idle (dragRun .notes 1 roomyLayout (freshDrag "notes-widget" "notesPosition")
        [.pointerDown (.mouse 100 100) handleTarget, .pointerUp]) ∧
      (dragRun .notes 1 roomyLayout (freshDrag "notes-widget" "notesPosition")
        [.pointerDown (.mouse 100 100) handleTarget, .pointerUp]).storage =
        (freshDrag "notes-widget" "notesPosition").storage ∧
      (dragRun .notes 1 roomyLayout (freshDrag "notes-widget" "notesPosition")
        [.pointerDown (.mouse 100 100) handleTarget, .pointerUp]).widget =
        (freshDrag "notes-widget" "notesPosition").widget :=
  click_leaves_idle .notes 1 roomyLayout (freshDrag "notes-widget" "notesPosition")
    (.mouse 100 100) handleTarget ⟨rfl, rfl, rfl⟩

end Interaction

namespace Interaction

/-- C16, evaluated on the code: a pointer-down on a button nested in the handle
is ignored by the to-do controller (no timer, no drag after the delay), but in
the notes and the clock/date controllers it arms timer 1, and when that timer
fires the widget is dragging. -/
theorem button_press_starts_drag :
    todoGuard buttonTarget = true ∧
      (dragRun .todo 1 roomyLayout (freshDrag "draggableTodo" "todoPosition")
        [.pointerDown (.mouse 100 100) buttonTarget]).timers = [] ∧
      (dragRun .todo 1 roomyLayout (freshDrag "draggableTodo" "todoPosition")
        [.pointerDown (.mouse 100 100) buttonTarget, .timerFires 1]).isDragging = false ∧
      (dragRun .notes 1 roomyLayout (freshDrag "notes-widget" "notesPosition")
        [.pointerDown (.mouse 100 100) buttonTarget]).timers = [(1, .mouse 100 100)] ∧
      (dragRun .notes 1 roomyLayout (freshDrag "notes-widget" "notesPosition")
        [.pointerDown (.mouse 100 100) buttonTarget, .timerFires 1]).isDragging = true ∧
      (dragRun .notes 1 roomyLayout (freshDrag "notes-widget" "notesPosition")
        [.pointerDown (.mouse 100 100) buttonTarget, .timerFires 1]).widget.dragging = true ∧
      (dragRun .datetime 1 roomyLayout (freshDrag "time-widget" "timePosition")
        [.pointerDown (.mouse 100 100) buttonTarget]).timers = [(1, .mouse 100 100)] ∧
      (dragRun .datetime 1 roomyLayout (freshDrag "time-widget" "timePosition")
        [.pointerDown (.mouse 100 100) buttonTarget, .timerFires 1]).isDragging = true := by
  decide

/-- C17, evaluated on the code: from rest, two pointer-downs on the handle
followed by a pointer-up leave timer 1 pending in each controller, because
`longPressTimer` only remembers timer 2; when timer 1 then fires the widget is
dragging although no pointer is down. -/
theorem second_press_timer_survives :
    (freshDrag "time-widget" "timePosition").isDragging = false ∧
      (freshDrag "time-widget" "timePosition").timers = [] ∧
      (dragRun .datetime 1 roomyLayout (freshDrag "time-widget" "timePosition")
        [.pointerDown (.mouse 100 100) handleTarget, .pointerDown (.mouse 100 100) handleTarget,
          .pointerUp]).timers = [(1, .mouse 100 100)] ∧
      (dragRun .datetime 1 roomyLayout (freshDrag "time-widget" "timePosition")
        [.pointerDown (.mouse 100 100) handleTarget, .pointerDown (.mouse 100 100) handleTarget,
          .pointerUp, .timerFires 1]).isDragging = true ∧
      (dragRun .todo 1 roomyLayout (freshDrag "draggableTodo" "todoPosition")
        [.pointerDown (.mouse 100 100) handleTarget, .pointerDown (.mouse 100 100) handleTarget,
          .pointerUp]).timers = [(1, .mouse 100 100)] ∧
      (dragRun .todo 1 roomyLayout (freshDrag "draggableTodo" "todoPosition")
        [.pointerDown (.mouse 100 100) handleTarget, .pointerDown (.mouse 100 100) handleTarget,
          .pointerUp, .timerFires 1]).isDragging = true ∧
      (dragRun .notes 1 roomyLayout (freshDrag "notes-widget" "notesPosition")
        [.pointerDown (.mouse 100 100) handleTarget, .pointerDown (.mouse 100 100) handleTarget,
          .pointerUp]).timers = [(1, .mouse 100 100)] ∧
      (dragRun .notes 1 roomyLayout (freshDrag "notes-widget" "notesPosition")
        [.pointerDown (.mouse 100 100) handleTarget, .pointerDown (.mouse 100 100) handleTarget,
          .pointerUp, .timerFires 1]).isDragging = true ∧
      (dragRun .notes 1 roomyLayout (freshDrag "notes-widget" "notesPosition")
        [.pointerDown (.mouse 100 100) handleTarget, .pointerDown (.mouse 100 100) handleTarget,
          .pointerUp, .timerFires 1]).widget.dragging = true := by
  decide

/-- C18: for every storage key and every pair of non-empty strings `left`,
`top` on the widget's style, `savePosition` followed by `loadPosition` under
the same key sets `left` and `top` of the (reloaded) widget to exactly those
strings, and `right` and `bottom` to `auto`. -/
theorem savePosition_loadPosition_roundtrip (key : String) (store : Storage)
    (w reloaded : Widget) (left top : String) (hl : w.style.left = left)
    (ht : w.style.top = top) (hle : left ≠ "") (hte : top ≠ "") :
    (loadPosition (savePosition w key store) key reloaded).style.left = left ∧
      (loadPosition (savePosition w key store) key reloaded).style.top = top ∧
      (loadPosition (savePosition w key store) key reloaded).style.right = "auto" ∧
      (loadPosition (savePosition w key store) key reloaded).style.bottom = "auto" := by
  subst hl ht
  have hsave : savePosition w key store key =
      some (.object [("left", w.style.left), ("top", w.style.top)]) := by
    simp [savePosition, setItem, hle, hte]
  unfold loadPosition
  rw [hsave]
  simp [assignMember, List.lookup]

/-- Witness for C18: the position (120px, 80px) under the key `todoPosition`. -/
theorem savePosition_loadPosition_roundtrip_witness :
    (loadPosition
        (savePosition
          { blankWidget "draggableTodo" with
            style := { (blankWidget "draggableTodo").style with left := "120px", top := "80px" } }
          "todoPosition" emptyStorage)
        "todoPosition" (blankWidget "draggableTodo")).style.left = "120px" ∧
      (loadPosition
        (savePosition
          { blankWidget "draggableTodo" with
            style := { (blankWidget "draggableTodo").style with left := "120px", top := "80px" } }
          "todoPosition" emptyStorage)
        "todoPosition" (blankWidget "draggableTodo")).style.top = "80px" ∧
      (loadPosition
        (savePosition
          { blankWidget "draggableTodo" with
            style := { (blankWidget "draggableTodo").style with left := "120px", top := "80px" } }
          "todoPosition" emptyStorage)
        "todoPosition" (blankWidget "draggableTodo")).style.right = "auto" ∧
      (loadPosition
        (savePosition
          { blankWidget "draggableTodo" with
            style := { (blankWidget "draggableTodo").style with left := "120px", top := "80px" } }
          "todoPosition" emptyStorage)
        "todoPosition" (blankWidget "draggableTodo")).style.bottom = "auto" :=
  savePosition_loadPosition_roundtrip "todoPosition" emptyStorage _ (blankWidget "draggableTodo")
    "120px" "80px" rfl rfl (by decide) (by decide)

end Interaction

namespace Interaction

/-! ## Properties of the resize controller -/

/-- A call of `resize` either leaves the state alone or writes the clamped
width and height computed from the snapshot and the extracted coordinates. -/
theorem resize_style_cases (c : ResizeController) (e : Pointer) (st : ResizeState) :
    (resize c e st).widget.style = st.widget.style ∨
      ((resize c e st).widget.style.width =
          assignPx st.widget.style.width
            (resizeTarget st.startWidth (resizeCoords c e).1 st.startX st.settings.minWidth
              st.settings.maxWidth) ∧
        (resize c e st).widget.style.height =
          assignPx st.widget.style.height
            (resizeTarget st.startHeight (resizeCoords c e).2 st.startY st.settings.minHeight
              st.settings.maxHeight)) := by
  unfold resize
  by_cases hr : st.isResizing = false
  · left
    rw [if_pos hr]
  · rw [if_neg hr]
    cases c with
    | datetime =>
      by_cases hm : ((coordsSafe e).1.isNone || (coordsSafe e).2.isNone) = true
      · left
        simp only [hm, if_true]
      · right
        simp only [hm, resizeCoords, adjustFontSizes]
        exact ⟨rfl, rfl⟩
    | resizeable =>
      by_cases hm : (coordsOr e).1.isNone = true
      · left
        simp only [hm, if_true]
      · right
        simp only [hm, resizeCoords]
        exact ⟨rfl, rfl⟩

/-- While resizing, with coordinates the controller reads as numbers, `resize`
writes the clamped width and height. -/
theorem resize_style_of_coords (c : ResizeController) (e : Pointer) (st : ResizeState)
    (x y : Int) (hr : st.isResizing = true) (hxy : resizeCoords c e = (some x, some y)) :
    (resize c e st).widget.style.width =
        assignPx st.widget.style.width
          (resizeTarget st.startWidth (some x) st.startX st.settings.minWidth
            st.settings.maxWidth) ∧
      (resize c e st).widget.style.height =
        assignPx st.widget.style.height
          (resizeTarget st.startHeight (some y) st.startY st.settings.minHeight
            st.settings.maxHeight) := by
  unfold resize
  rw [if_neg (by rw [hr]; decide)]
  cases c with
  | datetime =>
    have h : coordsSafe e = (some x, some y) := hxy
    simp only [h, adjustFontSizes]
    exact ⟨rfl, rfl⟩
  | resizeable =>
    have h : coordsOr e = (some x, some y) := hxy
    simp only [h]
    exact ⟨rfl, rfl⟩

/-- C19: for bounds with `minWidth ≤ maxWidth` and `minHeight ≤ maxHeight`,
every width and height that `resize` writes, in either controller and for any
start size and pointer, lies within the bounds; the four shipped
configurations (time 160-450 x 100-250, date 180-500 x 120-260, to-do 260-600 x
300-700, notes 260-600 x 280-700) have ordered bounds. -/
theorem resize_within_bounds (c : ResizeController) (e : Pointer) (st : ResizeState)
    (hw : st.settings.minWidth ≤ st.settings.maxWidth)
    (hh : st.settings.minHeight ≤ st.settings.maxHeight) :
    ((resize c e st).widget.style.width = st.widget.style.width ∨
        ∃ w : Int, (resize c e st).widget.style.width = px w ∧
          st.settings.minWidth ≤ w ∧ w ≤ st.settings.maxWidth) ∧
      ((resize c e st).widget.style.height = st.widget.style.height ∨
        ∃ h : Int, (resize c e st).widget.style.height = px h ∧
          st.settings.minHeight ≤ h ∧ h ≤ st.settings.maxHeight) ∧
      settingsOf .datetime timeOptions =
        { minWidth := 160, minHeight := 100, maxWidth := 450, maxHeight := 250 } ∧
      settingsOf .datetime dateOptions =
        { minWidth := 180, minHeight := 120, maxWidth := 500, maxHeight := 260 } ∧
      settingsOf .resizeable todoOptions =
        { minWidth := 260, minHeight := 300, maxWidth := 600, maxHeight := 700 } ∧
      settingsOf .resizeable notesOptions =
        { minWidth := 260, minHeight := 280, maxWidth := 600, maxHeight := 700 } := by
  refine ⟨?_, ?_, by decide, by decide, by decide, by decide⟩
  · rcases resize_style_cases c e st with h | ⟨h, _⟩
    · left; rw [h]
    · rw [h]
      rcases assignPx_cases st.widget.style.width
          (resizeTarget st.startWidth (resizeCoords c e).1 st.startX st.settings.minWidth
            st.settings.maxWidth) with h1 | ⟨w, hwv, h1⟩
      · left; exact h1
      · right
        have hb := resizeTarget_bounds _ _ _ _ _ w hwv
        exact ⟨w, h1, hb.2 hw, hb.1⟩
  · rcases resize_style_cases c e st with h | ⟨_, h⟩
    · left; rw [h]
    · rw [h]
      rcases assignPx_cases st.widget.style.height
          (resizeTarget st.startHeight (resizeCoords c e).2 st.startY st.settings.minHeight
            st.settings.maxHeight) with h1 | ⟨v, hv, h1⟩
      · left; exact h1
      · right
        have hb := resizeTarget_bounds _ _ _ _ _ v hv
        exact ⟨v, h1, hb.2 hh, hb.1⟩

/-- Witness for C19: the time widget, 250 x 200 at the start, with the pointer
dragged from (400, 400) to (900, 100): the width stops at 450, the height at
100. -/
theorem resize_within_bounds_witness :
    (resize .datetime (.mouse 900 100)
        (midResize "time-widget" (settingsOf .datetime timeOptions))).widget.style.width =
        px 450 ∧
      (resize .datetime (.mouse 900 100)
        (midResize "time-widget" (settingsOf .datetime timeOptions))).widget.style.height =
        px 100 ∧
      ((resize .datetime (.mouse 900 100)
          (midResize "time-widget" (settingsOf .datetime timeOptions))).widget.style.width =
          (midResize "time-widget" (settingsOf .datetime timeOptions)).widget.style.width ∨
        ∃ w : Int,
          (resize .datetime (.mouse 900 100)
            (midResize "time-widget" (settingsOf .datetime timeOptions))).widget.style.width =
            px w ∧
          (midResize "time-widget" (settingsOf .datetime timeOptions)).settings.minWidth ≤ w ∧
          w ≤ (midResize "time-widget" (settingsOf .datetime timeOptions)).settings.maxWidth) :=
  ⟨by decide, by decide,
    (resize_within_bounds .datetime (.mouse 900 100)
      (midResize "time-widget" (settingsOf .datetime timeOptions)) (by decide) (by decide)).1⟩

/-- Where the controller reads both coordinates as numbers, with a numeric
start snapshot and ordered bounds, the width written is `startWidth + (pointerX
- startX)` clamped to `[minWidth, maxWidth]` and the height
`startHeight + (pointerY - startY)` clamped to `[minHeight, maxHeight]`, in
datetime.js and in resizeable.js alike. -/
theorem resize_writes_clamp (c : ResizeController) (e : Pointer) (st : ResizeState)
    (x y sx sy sw sh : Int) (hr : st.isResizing = true)
    (hxy : resizeCoords c e = (some x, some y))
    (hsx : st.startX = some sx) (hsy : st.startY = some sy)
    (hsw : st.startWidth = some sw) (hsh : st.startHeight = some sh)
    (hw : st.settings.minWidth ≤ st.settings.maxWidth)
    (hh : st.settings.minHeight ≤ st.settings.maxHeight) :
    (resize c e st).widget.style.width =
        px (if sw + (x - sx) < st.settings.minWidth then st.settings.minWidth
            else if st.settings.maxWidth < sw + (x - sx) then st.settings.maxWidth
            else sw + (x - sx)) ∧
      (resize c e st).widget.style.height =
        px (if sh + (y - sy) < st.settings.minHeight then st.settings.minHeight
            else if st.settings.maxHeight < sh + (y - sy) then st.settings.maxHeight
            else sh + (y - sy)) := by
  obtain ⟨h1, h2⟩ := resize_style_of_coords c e st x y hr hxy
  rw [h1, h2, hsx, hsy, hsw, hsh, resizeTarget_eq, resizeTarget_eq]
  simp only [assignPx]
  constructor
  · congr 1
    split_ifs <;> omega
  · congr 1
    split_ifs <;> omega

/-- C20, evaluated on the code, on the shipped bounds (notes 260-600 x 280-700
in resizeable.js, time 160-450 x 100-250 in datetime.js), for a resize begun at
(400, 400) from 250 x 200. A first move to (450, 700) writes 300px x 500px in
resizeable.js. A move to (0, 700) then has the candidate width
250 + (0 - 400), below `minWidth`, yet resizeable.js writes nothing and the
width stays 300px instead of 260px; a move to (450, 0) has the candidate height
200 + (0 - 400), below `minHeight`, yet the height stays 500px instead of
280px. datetime.js writes the minimum, 160px and 100px, on the same moves. -/
theorem resize_diverges_at_zero :
    (settingsOf .resizeable notesOptions).minWidth = 260 ∧
      (settingsOf .resizeable notesOptions).minHeight = 280 ∧
      (resize .resizeable (.mouse 450 700)
        (midResize "notes-widget" (settingsOf .resizeable notesOptions))).widget.style.width =
        px 300 ∧
      (resize .resizeable (.mouse 450 700)
        (midResize "notes-widget" (settingsOf .resizeable notesOptions))).widget.style.height =
        px 500 ∧
      (250 : Int) + (0 - 400) < 260 ∧
      (resize .resizeable (.mouse 0 700)
        (resize .resizeable (.mouse 450 700)
          (midResize "notes-widget"
            (settingsOf .resizeable notesOptions)))).widget.style.width = px 300 ∧
      (200 : Int) + (0 - 400) < 280 ∧
      (resize .resizeable (.mouse 450 0)
        (resize .resizeable (.mouse 450 700)
          (midResize "notes-widget"
            (settingsOf .resizeable notesOptions)))).widget.style.height = px 500 ∧
      (resize .datetime (.mouse 0 700)
        (resize .datetime (.mouse 450 700)
          (midResize "time-widget"
            (settingsOf .datetime timeOptions)))).widget.style.width = px 160 ∧
      (resize .datetime (.mouse 450 0)
        (resize .datetime (.mouse 450 700)
          (midResize "time-widget"
            (settingsOf .datetime timeOptions)))).widget.style.height = px 100 := by
  decide

end Interaction

namespace Interaction

/-! ## Resize and the layer coordinator, font steps, loading, listeners -/

/-- C21, evaluated on the code: on the initialised six-widget page a
pointer-down on the resize handle raises the time widget in datetime.js
(counter 1000000 to 1000002, the widget holds 1000002), but in resizeable.js
the same pointer-down on the handle of the notes widget leaves the counter at
1000000 and the widget at its registration value 1000002: no raise happens. -/
theorem resizeable_initResize_no_raise :
    (freshResize "time-widget" (settingsOf .datetime timeOptions)).layer.currentZIndex =
        1000000 ∧
      LayerSystem.stackingOf
        (freshResize "time-widget" (settingsOf .datetime timeOptions)).layer "time-widget" =
        some 1000003 ∧
      (initResize .datetime 1 (.mouse 400 400) roomyLayout
        (freshResize "time-widget" (settingsOf .datetime timeOptions))).layer.currentZIndex =
        1000002 ∧
      LayerSystem.stackingOf
        (initResize .datetime 1 (.mouse 400 400) roomyLayout
          (freshResize "time-widget" (settingsOf .datetime timeOptions))).layer "time-widget" =
        some 1000002 ∧
      LayerSystem.registered
        (freshResize "notes-widget" (settingsOf .resizeable notesOptions)).layer
        "notes-widget" = true ∧
      (initResize .resizeable 1 (.mouse 400 400) roomyLayout
        (freshResize "notes-widget" (settingsOf .resizeable notesOptions))).isResizing = true ∧
      (initResize .resizeable 1 (.mouse 400 400) roomyLayout
        (freshResize "notes-widget" (settingsOf .resizeable notesOptions))).layer.currentZIndex =
        1000000 ∧
      LayerSystem.stackingOf
        (initResize .resizeable 1 (.mouse 400 400) roomyLayout
          (freshResize "notes-widget" (settingsOf .resizeable notesOptions))).layer
        "notes-widget" = some 1000002 := by
  decide

theorem jsLt_some (x b : Int) : jsLt (some x) b = decide (x < b) := rfl

/-- The font size a ladder of `adjustFontSizes` picks for a numeric width. -/
theorem fontSizeFor_some (x : Int) (s1 s2 s3 s4 : String) :
    fontSizeFor (some x) s1 s2 s3 s4 =
      if x < 220 then s1 else if x < 280 then s2 else if x < 350 then s3 else s4 := by
  unfold fontSizeFor
  simp only [jsLt_some, decide_eq_true_eq]

/-- A ladder whose four sizes increase is monotone in the width. -/
theorem fontSizeFor_mono (w1 w2 : Int) (h : w1 ≤ w2) (s1 s2 s3 s4 : String) (t1 t2 t3 t4 : Nat)
    (h1 : remTenths s1 = some t1) (h2 : remTenths s2 = some t2) (h3 : remTenths s3 = some t3)
    (h4 : remTenths s4 = some t4) (h12 : t1 ≤ t2) (h23 : t2 ≤ t3) (h34 : t3 ≤ t4) :
    ∃ a b : Nat, remTenths (fontSizeFor (some w1) s1 s2 s3 s4) = some a ∧
      remTenths (fontSizeFor (some w2) s1 s2 s3 s4) = some b ∧ a ≤ b := by
  rw [fontSizeFor_some, fontSizeFor_some]
  split_ifs <;>
    first
    | exact ⟨_, _, h1, h1, le_refl _⟩
    | exact ⟨_, _, h1, h2, h12⟩
    | exact ⟨_, _, h1, h3, le_trans h12 h23⟩
    | exact ⟨_, _, h1, h4, le_trans h12 (le_trans h23 h34)⟩
    | exact ⟨_, _, h2, h2, le_refl _⟩
    | exact ⟨_, _, h2, h3, h23⟩
    | exact ⟨_, _, h2, h4, le_trans h23 h34⟩
    | exact ⟨_, _, h3, h3, le_refl _⟩
    | exact ⟨_, _, h3, h4, h34⟩
    | exact ⟨_, _, h4, h4, le_refl _⟩
    | (exfalso; omega)

end Interaction

namespace Interaction

/-- C22: `adjustFontSizes` is a step function of the width alone. Each text
child that exists gets, whatever the widget: 1.5 / 1.1 / 0.7 rem below 220,
2 / 1.4 / 0.8 rem from 220 to below 280, 2.5 / 1.7 / 0.9 rem from 280 to below
350 and 3 / 2 / 1 rem from 350 on; nothing else on the widget changes; and for
widths `x ≤ y` each of the three sizes at `x` is at most the one at `y`. -/
theorem adjustFontSizes_step_function (w : Widget) (x y : Int) (hxy : x ≤ y) :
    (adjustFontSizes w (some x)).timeDisplay =
        w.timeDisplay.map (fun _ =>
          if x < 220 then "1.5rem" else if x < 280 then "2rem"
          else if x < 350 then "2.5rem" else "3rem") ∧
      (adjustFontSizes w (some x)).dateDisplay =
        w.dateDisplay.map (fun _ =>
          if x < 220 then "1.1rem" else if x < 280 then "1.4rem"
          else if x < 350 then "1.7rem" else "2rem") ∧
      (adjustFontSizes w (some x)).dateFull =
        w.dateFull.map (fun _ =>
          if x < 220 then "0.7rem" else if x < 280 then "0.8rem"
          else if x < 350 then "0.9rem" else "1rem") ∧
      (adjustFontSizes w (some x)).style = w.style ∧
      (∃ a b : Nat,
        remTenths (fontSizeFor (some x) "1.5rem" "2rem" "2.5rem" "3rem") = some a ∧
        remTenths (fontSizeFor (some y) "1.5rem" "2rem" "2.5rem" "3rem") = some b ∧ a ≤ b) ∧
      (∃ a b : Nat,
        remTenths (fontSizeFor (some x) "1.1rem" "1.4rem" "1.7rem" "2rem") = some a ∧
        remTenths (fontSizeFor (some y) "1.1rem" "1.4rem" "1.7rem" "2rem") = some b ∧ a ≤ b) ∧
      (∃ a b : Nat,
        remTenths (fontSizeFor (some x) "0.7rem" "0.8rem" "0.9rem" "1rem") = some a ∧
        remTenths (fontSizeFor (some y) "0.7rem" "0.8rem" "0.9rem" "1rem") = some b ∧ a ≤ b) := by
  refine ⟨?_, ?_, ?_, rfl, ?_, ?_, ?_⟩
  · simp only [adjustFontSizes, fontSizeFor_some]
  · simp only [adjustFontSizes, fontSizeFor_some]
  · simp only [adjustFontSizes, fontSizeFor_some]
  · exact fontSizeFor_mono x y hxy _ _ _ _ 15 20 25 30 (by decide) (by decide) (by decide)
      (by decide) (by decide) (by decide) (by decide)
  · exact fontSizeFor_mono x y hxy _ _ _ _ 11 14 17 20 (by decide) (by decide) (by decide)
      (by decide) (by decide) (by decide) (by decide)
  · exact fontSizeFor_mono x y hxy _ _ _ _ 7 8 9 10 (by decide) (by decide) (by decide)
      (by decide) (by decide) (by decide) (by decide)

/-- Witness for C22: the clock widget at widths 250 and 300. -/
theorem adjustFontSizes_step_function_witness :
    (adjustFontSizes (clockWidget "time-widget") (some 250)).timeDisplay = some "2rem" ∧
      (adjustFontSizes (clockWidget "time-widget") (some 250)).dateDisplay = some "1.4rem" ∧
      (adjustFontSizes (clockWidget "time-widget") (some 250)).dateFull = some "0.8rem" ∧
      ∃ a b : Nat,
        remTenths (fontSizeFor (some 250) "1.5rem" "2rem" "2.5rem" "3rem") = some a ∧
        remTenths (fontSizeFor (some 300) "1.5rem" "2rem" "2.5rem" "3rem") = some b ∧ a ≤ b :=
  ⟨by decide, by decide, by decide,
    (adjustFontSizes_step_function (clockWidget "time-widget") 250 300 (by decide)).2.2.2.2.1⟩

/-- C23: a persisted text on which `JSON.parse` throws is caught everywhere and
gives the default state: the shortcut list is the default list, the to-do list
is empty, and `loadPosition`, `loadSize` and `loadElementSize` return the
widget as it was. -/
theorem malformed_storage_falls_back (parseFloat : String → JsNum) (minW : Int)
    (store : Storage) (key : String) (w : Widget)
    (hpos : store key = some .malformed)
    (hsize : store (w.id ++ "_size") = some .malformed) :
    Shortcuts.loadShortcuts .malformed = Shortcuts.defaultShortcuts ∧
      Todo.loadTodos .malformed = [] ∧
      loadPosition store key w = w ∧
      loadSize parseFloat minW store w = w ∧
      loadElementSize store w = w := by
  refine ⟨rfl, rfl, ?_, ?_, ?_⟩
  · simp [loadPosition, hpos]
  · simp [loadSize, hsize]
  · unfold loadElementSize
    by_cases hid : w.id = ""
    · rw [if_pos hid]
    · rw [if_neg hid, hsize]

/-- Witness for C23: a store in which every key holds unparsable text. -/
theorem malformed_storage_falls_back_witness :
    Shortcuts.loadShortcuts .malformed = Shortcuts.defaultShortcuts ∧
      Todo.loadTodos .malformed = [] ∧
      loadPosition (fun _ => some .malformed) "timePosition" (blankWidget "time-widget") =
        blankWidget "time-widget" ∧
      loadSize (fun _ => none) 160 (fun _ => some .malformed) (blankWidget "time-widget") =
        blankWidget "time-widget" ∧
      loadElementSize (fun _ => some .malformed) (blankWidget "time-widget") =
        blankWidget "time-widget" :=
  malformed_storage_falls_back (fun _ => none) 160 (fun _ => some .malformed) "timePosition"
    (blankWidget "time-widget") rfl rfl

theorem removeListener_of_not_mem (ls : List (String × String)) (l : String × String)
    (h : l ∉ ls) : removeListener ls l = ls := by
  unfold removeListener
  rw [List.filter_eq_self]
  intro a ha
  have : a ≠ l := fun e => h (e ▸ ha)
  simpa using this

theorem removeGestureListeners_append (a b : List (String × String)) :
    removeGestureListeners (a ++ b) = removeGestureListeners a ++ removeGestureListeners b := by
  simp [removeGestureListeners, removeListener, List.filter_append]

theorem removeGestureListeners_of_free (ls : List (String × String))
    (h : ∀ l ∈ gestureListeners, l ∉ ls) : removeGestureListeners ls = ls := by
  unfold removeGestureListeners
  rw [removeListener_of_not_mem ls _ (h _ (by decide)),
    removeListener_of_not_mem ls _ (h _ (by decide)),
    removeListener_of_not_mem ls _ (h _ (by decide)),
    removeListener_of_not_mem ls _ (h _ (by decide))]

theorem addGestureListeners_of_free (ls : List (String × String))
    (h : ∀ l ∈ gestureListeners, l ∉ ls) :
    addGestureListeners ls = ls ++ gestureListeners := by
  have h1 : (("mousemove", "resize") : String × String) ∉ ls := h _ (by decide)
  have h2 : (("touchmove", "resize") : String × String) ∉ ls := h _ (by decide)
  have h3 : (("mouseup", "stopResize") : String × String) ∉ ls := h _ (by decide)
  have h4 : (("touchend", "stopResize") : String × String) ∉ ls := h _ (by decide)
  simp [addGestureListeners, addListener, gestureListeners, h1, h2, h3, h4]

/-- With no gesture listener registered beforehand, the removals of `stopResize`
undo the registrations of `initResize`. -/
theorem remove_add_gestureListeners (ls : List (String × String))
    (h : ∀ l ∈ gestureListeners, l ∉ ls) :
    removeGestureListeners (addGestureListeners ls) = ls := by
  rw [addGestureListeners_of_free ls h, removeGestureListeners_append,
    removeGestureListeners_of_free ls h]
  have : removeGestureListeners gestureListeners = [] := by decide
  rw [this, List.append_nil]

theorem initResize_documentListeners (c : ResizeController) (now : Nat) (e : Pointer)
    (lay : Layout) (st : ResizeState) :
    (initResize c now e lay st).documentListeners = addGestureListeners st.documentListeners := by
  cases c <;> cases e <;> rfl

theorem stopResize_documentListeners (c : ResizeController) (st : ResizeState) :
    (stopResize c st).documentListeners = removeGestureListeners st.documentListeners := by
  unfold stopResize
  by_cases h : st.isResizing = true
  · simp [h]
  · simp [h]

theorem resizeGesture_documentListeners (c : ResizeController) (st : ResizeState)
    (g : Nat × Pointer × Layout) (h : ∀ l ∈ gestureListeners, l ∉ st.documentListeners) :
    (resizeGesture c st g).documentListeners = st.documentListeners := by
  unfold resizeGesture
  rw [stopResize_documentListeners, initResize_documentListeners,
    remove_add_gestureListeners _ h]

/-- C24: in both resize controllers, starting with no gesture in progress (none
of the four gesture listeners registered), after any number of gestures, each a
pointer-down on the handle followed by a pointer-up, the listeners on
`document` are exactly those from before: `stopResize` removes the mousemove,
touchmove, mouseup and touchend listeners that `initResize` added. -/
theorem resize_gestures_restore_listeners (c : ResizeController) (st : ResizeState)
    (gs : List (Nat × Pointer × Layout))
    (h : ∀ l ∈ gestureListeners, l ∉ st.documentListeners) :
    (gs.foldl (resizeGesture c) st).documentListeners = st.documentListeners ∧
      ∀ g : Nat × Pointer × Layout,
        (initResize c g.1 g.2.1 g.2.2 st).documentListeners =
          st.documentListeners ++ gestureListeners := by
  constructor
  · induction gs generalizing st with
    | nil => rfl
    | cons g rest ih =>
      rw [List.foldl_cons]
      have hg := resizeGesture_documentListeners c st g h
      rw [ih (resizeGesture c st g) (by rw [hg]; exact h), hg]
  · intro g
    rw [initResize_documentListeners, addGestureListeners_of_free _ h]

/-- Witness for C24: three gestures on the notes widget, with an unrelated
listener registered on `document`. -/
theorem resize_gestures_restore_listeners_witness :
    ([(1, Pointer.mouse 400 400, roomyLayout), (2, Pointer.touchEvent 10 10, roomyLayout),
        (3, Pointer.mouse 0 0, crampedLayout)].foldl (resizeGesture .resizeable)
        { freshResize "notes-widget" (settingsOf .resizeable notesOptions) with
          documentListeners := [("mousemove", "drag")] }).documentListeners =
      [("mousemove", "drag")] :=
  (resize_gestures_restore_listeners .resizeable
    { freshResize "notes-widget" (settingsOf .resizeable notesOptions) with
      documentListeners := [("mousemove", "drag")] }
    [(1, Pointer.mouse 400 400, roomyLayout), (2, Pointer.touchEvent 10 10, roomyLayout),
      (3, Pointer.mouse 0 0, crampedLayout)] (by decide)).1

end Interaction

namespace Shortcuts

/-! ## Properties of the shortcut list -/

/-- The submit handler by itself never looks at `MAX_SHORTCUTS`: called in add
mode (`editingIndex` is `null`) on seven entries it stores eight, and called
twice after one click on the add button from six entries it stores eight as
well. In both runs a submit reaches the form while it is closed. -/
theorem submit_exceeds_max_shortcuts :
    sevenShortcuts.shortcuts.length = 7 ∧
      sevenShortcuts.editingIndex = none ∧
      httpsOnly "https://b.example" = true ∧
      (formStep httpsOnly sevenShortcuts (.submit "b" "https://b.example")).shortcuts.length =
        8 ∧
      MAX_SHORTCUTS <
        (formStep httpsOnly sevenShortcuts (.submit "b" "https://b.example")).shortcuts.length ∧
      (saveAndRender
        { sevenShortcuts with shortcuts := sevenShortcuts.shortcuts.take 6 }).addButtonShown =
        true ∧
      (submit httpsOnly "b" "https://b.example"
        (clickAdd
          (saveAndRender
            { sevenShortcuts with
              shortcuts := sevenShortcuts.shortcuts.take 6 }))).shortcuts.length = 7 ∧
      (submit httpsOnly "b" "https://b.example"
        (submit httpsOnly "b" "https://b.example"
          (clickAdd
            (saveAndRender
              { sevenShortcuts with
                shortcuts := sevenShortcuts.shortcuts.take 6 })))).shortcuts.length = 8 := by
  decide

/-- What the controls keep true: the list has at most `MAX_SHORTCUTS` entries,
the add button is displayed only below the limit, the form is open in add mode
only below the limit, and it is open in edit mode only on an index of the
list. -/
theorem uiStep_keeps (isValidUrl : String → Bool) (st : UiState) (ev : UiEvent)
    (h1 : st.shortcuts.length ≤ MAX_SHORTCUTS)
    (h2 : st.addButtonShown = true → st.shortcuts.length < MAX_SHORTCUTS)
    (h3 : st.formVisible = true → st.editingIndex = none →
      st.shortcuts.length < MAX_SHORTCUTS)
    (h4 : ∀ i, st.formVisible = true → st.editingIndex = some i → i < st.shortcuts.length) :
    (uiStep isValidUrl st ev).shortcuts.length ≤ MAX_SHORTCUTS ∧
      ((uiStep isValidUrl st ev).addButtonShown = true →
        (uiStep isValidUrl st ev).shortcuts.length < MAX_SHORTCUTS) ∧
      ((uiStep isValidUrl st ev).formVisible = true →
        (uiStep isValidUrl st ev).editingIndex = none →
        (uiStep isValidUrl st ev).shortcuts.length < MAX_SHORTCUTS) ∧
      ∀ i, (uiStep isValidUrl st ev).formVisible = true →
        (uiStep isValidUrl st ev).editingIndex = some i →
        i < (uiStep isValidUrl st ev).shortcuts.length := by
  cases ev with
  | add =>
    by_cases ha : st.addButtonShown = true
    · simp only [uiStep, ha, if_true, clickAdd]
      exact ⟨h1, fun _ => h2 ha, fun _ _ => h2 ha, fun i _ hi => by simp at hi⟩
    · simp only [uiStep, ha]
      exact ⟨h1, h2, h3, h4⟩
  | menu index =>
    by_cases hi : index < st.shortcuts.length
    · simp only [uiStep, clickMenu, if_pos hi]
      refine ⟨h1, h2, fun _ hn => by simp at hn, fun i _ he => ?_⟩
      have : index = i := Option.some.inj he
      omega
    · simp only [uiStep, clickMenu, if_neg hi]
      exact ⟨h1, h2, h3, h4⟩
  | submit name url =>
    by_cases hv : st.formVisible = true
    · by_cases hu : isValidUrl url = true
      · simp only [uiStep, hv, if_true, submit, hu, saveAndRender]
        cases he : st.editingIndex with
        | none =>
          have hlt := h3 hv he
          refine ⟨?_, fun hd => ?_, fun hf => by simp at hf, fun i hf => by simp at hf⟩
          · simp only [List.length_append, List.length_singleton]
            omega
          · simpa using hd
        | some j =>
          refine ⟨?_, fun hd => ?_, fun hf => by simp at hf, fun i hf => by simp at hf⟩
          · simp only [List.length_set]
            exact h1
          · simpa using hd
      · simp only [uiStep, hv, if_true, submit, hu]
        exact ⟨h1, h2, h3, h4⟩
    · simp only [uiStep, hv]
      exact ⟨h1, h2, h3, h4⟩
  | delete =>
    by_cases hv : st.formVisible = true
    · simp only [uiStep, hv, if_true, clickDelete]
      cases he : st.editingIndex with
      | none =>
        simp only []
        exact ⟨h1, h2, fun _ _ => h3 hv he, fun i _ hi => by rw [he] at hi; simp at hi⟩
      | some j =>
        simp only [saveAndRender]
        have hle : (st.shortcuts.eraseIdx j).length ≤ st.shortcuts.length := by
          rw [List.length_eraseIdx]
          split_ifs <;> omega
        refine ⟨le_trans hle h1, fun hd => ?_, fun hf => by simp at hf,
          fun i hf => by simp at hf⟩
        simpa using hd
    · simp only [uiStep, hv]
      exact ⟨h1, h2, h3, h4⟩
  | close =>
    by_cases hv : st.formVisible = true
    · simp only [uiStep, hv, if_true, closeForm]
      exact ⟨h1, h2, fun hf => by simp at hf, fun i hf => by simp at hf⟩
    · simp only [uiStep, hv]
      exact ⟨h1, h2, h3, h4⟩

theorem uiRun_keeps (isValidUrl : String → Bool) (evs : List UiEvent) (st : UiState)
    (h1 : st.shortcuts.length ≤ MAX_SHORTCUTS)
    (h2 : st.addButtonShown = true → st.shortcuts.length < MAX_SHORTCUTS)
    (h3 : st.formVisible = true → st.editingIndex = none →
      st.shortcuts.length < MAX_SHORTCUTS)
    (h4 : ∀ i, st.formVisible = true → st.editingIndex = some i → i < st.shortcuts.length) :
    (uiRun isValidUrl st evs).shortcuts.length ≤ MAX_SHORTCUTS ∧
      ∀ i, (uiRun isValidUrl st evs).formVisible = true →
        (uiRun isValidUrl st evs).editingIndex = some i →
        i < (uiRun isValidUrl st evs).shortcuts.length := by
  induction evs generalizing st with
  | nil => exact ⟨h1, h4⟩
  | cons ev rest ih =>
    obtain ⟨k1, k2, k3, k4⟩ := uiStep_keeps isValidUrl st ev h1 h2 h3 h4
    exact ih (uiStep isValidUrl st ev) k1 k2 k3 k4

/-- C25: from a loaded shortcut list of at most `MAX_SHORTCUTS` (7) entries,
whatever the user does with the controls (add button, menu buttons, form
submit in add or edit mode, delete, close), each taking an action only while it
is displayed, the shortcut list has at most `MAX_SHORTCUTS` entries; and
whenever the form is open in edit mode, `editingIndex` is an index of the list,
so that the submit handler overwrites an entry and never extends the list. -/
theorem shortcuts_at_most_max (isValidUrl : String → Bool) (l : List Shortcut)
    (stored : StoredShortcuts) (evs : List UiEvent) (hl : l.length ≤ MAX_SHORTCUTS) :
    (uiRun isValidUrl (loadedUi l stored) evs).shortcuts.length ≤ MAX_SHORTCUTS ∧
      ∀ i, (uiRun isValidUrl (loadedUi l stored) evs).formVisible = true →
        (uiRun isValidUrl (loadedUi l stored) evs).editingIndex = some i →
        i < (uiRun isValidUrl (loadedUi l stored) evs).shortcuts.length :=
  uiRun_keeps isValidUrl evs (loadedUi l stored) hl
    (fun h => by simpa [loadedUi] using h)
    (fun h => by simp [loadedUi] at h)
    (fun i h => by simp [loadedUi] at h)

/-- Witness for C25: seven loaded shortcuts; the hidden add button and the
closed form take nothing, then an entry is edited, one is deleted, and the add
button, displayed again, opens the form for a seventh entry. -/
theorem shortcuts_at_most_max_witness :
    (uiRun httpsOnly (loadedUi sevenShortcuts.shortcuts sevenShortcuts.stored)
        [.add, .submit "b" "https://b.example", .menu 0, .submit "c" "https://c.example",
          .menu 3, .delete, .add, .submit "b" "https://b.example",
          .add]).shortcuts.length = 7 ∧
      (uiRun httpsOnly (loadedUi sevenShortcuts.shortcuts sevenShortcuts.stored)
        [.add, .submit "b" "https://b.example", .menu 0, .submit "c" "https://c.example",
          .menu 3, .delete, .add, .submit "b" "https://b.example",
          .add]).shortcuts.length ≤ MAX_SHORTCUTS :=
  ⟨by decide,
    (shortcuts_at_most_max httpsOnly sevenShortcuts.shortcuts sevenShortcuts.stored
      [.add, .submit "b" "https://b.example", .menu 0, .submit "c" "https://c.example",
        .menu 3, .delete, .add, .submit "b" "https://b.example", .add] (by decide)).1⟩

theorem migrateOne_cases (sc : Shortcut) :
    (migrateOne sc = sc ∧ migrates sc = false) ∨
      (migrates sc = true ∧ sc.userEdited = false ∧
        (∃ u : String, sc.url = some u ∧ includes u "youtube.com" = true ∧
          includes u "@wallsflow" = false) ∧
        migrateOne sc = { sc with url := some wallsflowUrl, userEdited := false }) := by
  unfold migrateOne migrates
  by_cases he : sc.userEdited = true
  · left
    simp [he]
  · have hf : sc.userEdited = false := by simpa using he
    by_cases hy : (isYouTubeLike sc && !alreadyWallsflow sc) = true
    · right
      refine ⟨by simp [hf, hy], hf, ?_, by simp [hf, hy]⟩
      unfold isYouTubeLike alreadyWallsflow at hy
      cases hu : sc.url with
      | none => simp [hu] at hy
      | some u =>
        simp only [hu, Bool.and_eq_true, Bool.not_eq_true'] at hy
        exact ⟨u, rfl, hy.1, hy.2⟩
    · left
      simp [hf, hy]

/-- The list after the migration: untouched when the flag is set, mapped
through the loop body otherwise. -/
theorem migrate_fst (store : ShortcutStore) (l : List Shortcut) :
    (migrate store l).1 = l ∨ (migrate store l).1 = l.map migrateOne := by
  unfold migrate
  cases store.migrationFlag with
  | none => exact Or.inr rfl
  | some flag =>
    by_cases hf : flag = ""
    · right
      simp [hf]
    · left
      simp [hf]

/-- C26: the one-time migration keeps the length and the order of the list;
item by item, a shortcut whose `userEdited` flag is true is never changed, and
a shortcut is changed only when its URL contains `youtube.com` and does not
contain `@wallsflow`, in which case only `url` changes: `name` is kept and
`userEdited` stays false. -/
theorem migrate_touches_only_unedited_youtube (store : ShortcutStore) (l : List Shortcut) :
    (migrate store l).1.length = l.length ∧
      ∀ (i : Nat) (sc : Shortcut), l[i]? = some sc →
        ∃ sc' : Shortcut, (migrate store l).1[i]? = some sc' ∧
          (sc.userEdited = true → sc' = sc) ∧
          (sc' = sc ∨
            (sc.userEdited = false ∧
              (∃ u : String, sc.url = some u ∧ includes u "youtube.com" = true ∧
                includes u "@wallsflow" = false) ∧
              sc'.name = sc.name ∧ sc'.userEdited = false ∧ sc'.url = some wallsflowUrl)) := by
  rcases migrate_fst store l with h | h
  · rw [h]
    exact ⟨rfl, fun i sc hsc => ⟨sc, hsc, fun _ => rfl, Or.inl rfl⟩⟩
  · rw [h]
    refine ⟨List.length_map _ _, fun i sc hsc => ?_⟩
    refine ⟨migrateOne sc, by rw [List.getElem?_map, hsc]; rfl, ?_, ?_⟩
    · intro he
      simp [migrateOne, he]
    · rcases migrateOne_cases sc with ⟨h1, _⟩ | ⟨_, hf, hu, h1⟩
      · exact Or.inl h1
      · right
        rw [h1]
        exact ⟨hf, hu, rfl, rfl, rfl⟩

/-- Witness for C26: a list with an old YouTube link, a user-edited YouTube
link and a non-YouTube link; only the first is rewritten. -/
theorem migrate_touches_only_unedited_youtube_witness :
    (migrate { shortcuts := .absent, migrationFlag := none }
        [ { name := "YT", url := some "https://www.youtube.com/", userEdited := false },
          { name := "Mine", url := some "https://www.youtube.com/", userEdited := true },
          { name := "Google", url := some "https://www.google.com", userEdited := false } ]).1 =
        [ { name := "YT", url := some wallsflowUrl, userEdited := false },
          { name := "Mine", url := some "https://www.youtube.com/", userEdited := true },
          { name := "Google", url := some "https://www.google.com", userEdited := false } ] ∧
      (migrate { shortcuts := .absent, migrationFlag := none }
        [ { name := "YT", url := some "https://www.youtube.com/", userEdited := false },
          { name := "Mine", url := some "https://www.youtube.com/", userEdited := true },
          { name := "Google", url := some "https://www.google.com", userEdited := false } ]).1.length =
        [ ({ name := "YT", url := some "https://www.youtube.com/", userEdited := false } :
              Shortcut),
          { name := "Mine", url := some "https://www.youtube.com/", userEdited := true },
          { name := "Google", url := some "https://www.google.com", userEdited := false } ].length :=
  ⟨by decide,
    (migrate_touches_only_unedited_youtube { shortcuts := .absent, migrationFlag := none }
      [ { name := "YT", url := some "https://www.youtube.com/", userEdited := false },
        { name := "Mine", url := some "https://www.youtube.com/", userEdited := true },
        { name := "Google", url := some "https://www.google.com", userEdited := false } ]).1⟩

end Shortcuts

namespace Script

/-! ## Properties of the playlist store and of the thumbnail size -/

/-- C27 as stated fails: with an empty stored list and a non-empty URL, a write
on which `localStorage.setItem` throws leaves the stored list empty; no entry
is appended. -/
theorem onSaveClick_write_fails :
    (([] : List Playlist).length < 6) ∧
      "https://example.com/mix" ≠ "" ∧
      onSaveClick true 17 "today" none "https://example.com/mix" (.list []) = .list [] ∧
      onSaveClick true 17 "today" none "https://example.com/mix" (.list []) ≠
        .list ([] ++ [{ id := 17, name := nameOrUntitled none, url := "https://example.com/mix",
                        dateAdded := "today" }]) := by
  decide

/-- C27, amended: for a stored playlist list of at most 6 entries, the save
handler appends exactly one entry when the list has fewer than 6 entries, the
URL is not empty and `localStorage` accepts the write; with 6 entries, an empty
URL or a write that throws it leaves the stored list unchanged; the stored list
never exceeds 6 entries. -/
theorem onSaveClick_at_most_six (setItemThrows : Bool) (now : Nat) (dateAdded : String)
    (playlistName : Option String) (url : String) (l : List Playlist)
    (hlen : l.length ≤ 6) :
    (l.length < 6 → url ≠ "" → setItemThrows = false →
        onSaveClick setItemThrows now dateAdded playlistName url (.list l) =
          .list (l ++ [{ id := now, name := nameOrUntitled playlistName, url := url,
                         dateAdded := dateAdded }])) ∧
      ((6 ≤ l.length ∨ url = "" ∨ setItemThrows = true) →
        onSaveClick setItemThrows now dateAdded playlistName url (.list l) = .list l) ∧
      (getSavedPlaylists
        (onSaveClick setItemThrows now dateAdded playlistName url (.list l))).length ≤ 6 := by
  refine ⟨?_, ?_, ?_⟩
  · intro hlt hurl hset
    have hge : ¬ (l.length ≥ 6) := by omega
    simp [onSaveClick, getSavedPlaylists, savePlaylists, hurl, hge, hset]
  · intro h
    unfold onSaveClick
    by_cases hurl : url = ""
    · rw [if_pos hurl]
    · rw [if_neg hurl]
      by_cases hge : (getSavedPlaylists (.list l)).length ≥ 6
      · rw [if_pos hge]
      · rw [if_neg hge]
        have hset : setItemThrows = true := by
          rcases h with h | h | h
          · exact absurd h hge
          · exact absurd h hurl
          · exact h
        simp [savePlaylists, hset]
  · unfold onSaveClick
    by_cases hurl : url = ""
    · rw [if_pos hurl]
      exact hlen
    · rw [if_neg hurl]
      by_cases hge : (getSavedPlaylists (.list l)).length ≥ 6
      · rw [if_pos hge]
        exact hlen
      · rw [if_neg hge]
        have hlt : l.length < 6 := by
          have : (getSavedPlaylists (.list l)).length = l.length := rfl
          omega
        cases setItemThrows with
        | true => simpa [savePlaylists, getSavedPlaylists] using hlen
        | false =>
          simp [getSavedPlaylists, savePlaylists]
          omega

/-- Witness for the amended C27: saving a URL of no known music host, for which
`extractPlaylistName` returns `null`, into an empty stored list, the write
being accepted. -/
theorem onSaveClick_at_most_six_witness :
    onSaveClick false 17 "today" none "https://example.com/mix" (.list []) =
      .list [{ id := 17, name := "Untitled Playlist", url := "https://example.com/mix",
               dateAdded := "today" }] :=
  (onSaveClick_at_most_six false 17 "today" none "https://example.com/mix" []
    (by decide)).1 (by decide) (by decide) rfl

theorem roundTiesEven_le (x : ℚ) : (roundTiesEven x : ℚ) ≤ x + 1 / 2 := by
  have hf : (⌊x⌋ : ℚ) ≤ x := Int.floor_le x
  unfold roundTiesEven
  split_ifs with h1 h2 h3
  · linarith
  · push_cast; linarith
  · linarith
  · push_cast; linarith

theorem roundTiesEven_nonneg (x : ℚ) (hx : 0 ≤ x) : 0 ≤ roundTiesEven x := by
  have hf : 0 ≤ ⌊x⌋ := Int.floor_nonneg.mpr hx
  unfold roundTiesEven
  split_ifs <;> omega

theorem toDouble_nonneg (x : ℚ) (hx : 0 ≤ x) : 0 ≤ toDouble x := by
  unfold toDouble
  split_ifs with h0
  · exact le_refl _
  · have hq : (0 : ℚ) < 2 ^ (Int.log 2 |x| - 52) := zpow_pos (by norm_num) _
    have hr := roundTiesEven_nonneg (x / 2 ^ (Int.log 2 |x| - 52)) (div_nonneg hx hq.le)
    exact mul_nonneg (by exact_mod_cast hr) hq.le

theorem toDouble_le (x : ℚ) (hx : 0 ≤ x) : toDouble x ≤ x * (1 + 1 / 2 ^ 53) := by
  unfold toDouble
  split_ifs with h0
  · rw [h0]; norm_num
  · have hpos : 0 < x := lt_of_le_of_ne hx (Ne.symm h0)
    rw [abs_of_pos hpos]
    have hq : (0 : ℚ) < 2 ^ (Int.log 2 x - 52) := zpow_pos (by norm_num) _
    have hlog : (2 : ℚ) ^ Int.log 2 x ≤ x := by
      have := Int.zpow_log_le_self (b := 2) (by norm_num) hpos
      exact_mod_cast this
    have hsplit : (2 : ℚ) ^ (Int.log 2 x - 52) = 2 ^ Int.log 2 x / 2 ^ 52 := by
      rw [zpow_sub₀ (by norm_num)]
      norm_num
    have hr := roundTiesEven_le (x / 2 ^ (Int.log 2 x - 52))
    calc (roundTiesEven (x / 2 ^ (Int.log 2 x - 52)) : ℚ) * 2 ^ (Int.log 2 x - 52)
        ≤ (x / 2 ^ (Int.log 2 x - 52) + 1 / 2) * 2 ^ (Int.log 2 x - 52) :=
          mul_le_mul_of_nonneg_right hr hq.le
      _ = x + 2 ^ (Int.log 2 x - 52) / 2 := by
          field_simp
          ring
      _ ≤ x * (1 + 1 / 2 ^ 53) := by
          rw [hsplit]
          have : (2 : ℚ) ^ Int.log 2 x / 2 ^ 52 / 2 = 2 ^ Int.log 2 x * (1 / 2 ^ 53) := by
            norm_num
            ring
          rw [this, mul_add, mul_one]
          have h53 : (0 : ℚ) ≤ 1 / 2 ^ 53 := by positivity
          nlinarith [mul_le_mul_of_nonneg_right hlog h53]


theorem jsRound_le_800 (y : ℚ) (hy : y < 800 + 1 / 2) : jsRound y ≤ 800 := by
  unfold jsRound
  have : ⌊y + 1 / 2⌋ < 801 := by
    rw [Int.floor_lt]
    push_cast
    linarith
  omega

/-- A side scaled by a ratio that is at most the rounded quotient `800 / side`
rounds to at most 800. -/
theorem scaled_le_800 (side : Nat) (r : ℚ) (hs : 0 < side) (hr0 : 0 ≤ r)
    (hr : r ≤ toDouble (800 / side)) : jsRound (toDouble (side * r)) ≤ 800 := by
  have hsq : (0 : ℚ) < side := by exact_mod_cast hs
  have h1 : toDouble (800 / side) ≤ 800 / side * (1 + 1 / 2 ^ 53) :=
    toDouble_le _ (by positivity)
  have h2 : (side : ℚ) * r ≤ 800 * (1 + 1 / 2 ^ 53) := by
    calc (side : ℚ) * r ≤ side * (800 / side * (1 + 1 / 2 ^ 53)) :=
          mul_le_mul_of_nonneg_left (le_trans hr h1) hsq.le
      _ = 800 * (1 + 1 / 2 ^ 53) := by
          field_simp
          ring
  have h3 : toDouble (side * r) ≤ side * r * (1 + 1 / 2 ^ 53) :=
    toDouble_le _ (mul_nonneg hsq.le hr0)
  apply jsRound_le_800
  have h4 : (side : ℚ) * r * (1 + 1 / 2 ^ 53) ≤ 800 * (1 + 1 / 2 ^ 53) * (1 + 1 / 2 ^ 53) :=
    mul_le_mul_of_nonneg_right h2 (by positivity)
  have h5 : (800 : ℚ) * (1 + 1 / 2 ^ 53) * (1 + 1 / 2 ^ 53) < 800 + 1 / 2 := by norm_num
  linarith

theorem ratioOf_bounds (width height : Nat) (hw : 0 < width) (hh : 0 < height) :
    0 ≤ ratioOf width height ∧ ratioOf width height ≤ toDouble (800 / width) ∧
      ratioOf width height ≤ toDouble (800 / height) := by
  have h1 : 0 ≤ toDouble (800 / (width : ℚ)) := toDouble_nonneg _ (by positivity)
  have h2 : 0 ≤ toDouble (800 / (height : ℚ)) := toDouble_nonneg _ (by positivity)
  unfold ratioOf
  rw [if_neg (by omega), if_neg (by omega)]
  exact ⟨le_min h1 h2, min_le_left _ _, min_le_right _ _⟩

theorem log_eq (x : ℚ) (e : Int) (hx : 0 < x) (h1 : (2 : ℚ) ^ e ≤ x) (h2 : x < 2 ^ (e + 1)) :
    Int.log 2 x = e := by
  have ha : e ≤ Int.log 2 x :=
    (Int.zpow_le_iff_le_log (b := 2) (by norm_num) hx).mp (by exact_mod_cast h1)
  have hb : Int.log 2 x < e + 1 :=
    (Int.lt_zpow_iff_log_lt (b := 2) (by norm_num) hx).mp (by exact_mod_cast h2)
  omega

theorem roundTiesEven_eq (x : ℚ) (m : Int) (h1 : (m : ℚ) - 1 / 2 < x) (h2 : x < m + 1 / 2) :
    roundTiesEven x = m := by
  have hf : (⌊x⌋ : ℚ) ≤ x := Int.floor_le x
  have hf2 : x < ⌊x⌋ + 1 := Int.lt_floor_add_one x
  unfold roundTiesEven
  split_ifs with c1 c2 c3
  · have a1 : ((⌊x⌋ : Int) : ℚ) < m + 1 := by linarith
    have a2 : (m : ℚ) < ⌊x⌋ + 1 := by linarith
    have b1 : ⌊x⌋ < m + 1 := by exact_mod_cast a1
    have b2 : m < ⌊x⌋ + 1 := by exact_mod_cast a2
    omega
  · have a1 : ((⌊x⌋ : Int) : ℚ) < m := by linarith
    have a2 : (m : ℚ) < ⌊x⌋ + 2 := by linarith
    have b1 : ⌊x⌋ < m := by exact_mod_cast a1
    have b2 : m < ⌊x⌋ + 2 := by exact_mod_cast a2
    omega
  · exfalso
    have hx : x - ⌊x⌋ = 1 / 2 := le_antisymm (not_lt.mp c2) (not_lt.mp c1)
    have a1 : ((⌊x⌋ : Int) : ℚ) < m := by linarith
    have a2 : (m : ℚ) < ⌊x⌋ + 1 := by linarith
    have b1 : ⌊x⌋ < m := by exact_mod_cast a1
    have b2 : m < ⌊x⌋ + 1 := by exact_mod_cast a2
    omega
  · exfalso
    have hx : x - ⌊x⌋ = 1 / 2 := le_antisymm (not_lt.mp c2) (not_lt.mp c1)
    have a1 : ((⌊x⌋ : Int) : ℚ) < m := by linarith
    have a2 : (m : ℚ) < ⌊x⌋ + 1 := by linarith
    have b1 : ⌊x⌋ < m := by exact_mod_cast a1
    have b2 : m < ⌊x⌋ + 1 := by exact_mod_cast a2
    omega

/-- The double nearest to a positive `x` with exponent `e`, when the scaled
value is not a tie. -/
theorem toDouble_eq (x : ℚ) (e m : Int) (hx : 0 < x) (h1 : (2 : ℚ) ^ e ≤ x)
    (h2 : x < 2 ^ (e + 1)) (h3 : (m : ℚ) - 1 / 2 < x / 2 ^ (e - 52))
    (h4 : x / 2 ^ (e - 52) < m + 1 / 2) : toDouble x = m * 2 ^ (e - 52) := by
  unfold toDouble
  rw [if_neg (ne_of_gt hx), abs_of_pos hx, log_eq x e hx h1 h2, roundTiesEven_eq _ m h3 h4]

theorem toDouble_800_1856 : toDouble (800 / 1856) = 7764826943742234 / 2 ^ 54 := by
  rw [toDouble_eq (800 / 1856) (-2) 7764826943742234 (by norm_num) (by norm_num) (by norm_num)
    (by norm_num) (by norm_num)]
  norm_num

theorem toDouble_800_145 : toDouble (800 / 145) = 6211861554993788 / 2 ^ 50 := by
  rw [toDouble_eq (800 / 145) 2 6211861554993788 (by norm_num) (by norm_num) (by norm_num)
    (by norm_num) (by norm_num)]
  norm_num

theorem toDouble_width_1856 : toDouble (1856 * (7764826943742234 / 2 ^ 54)) = 800 := by
  rw [toDouble_eq _ 9 7036874417766400 (by norm_num) (by norm_num) (by norm_num)
    (by norm_num) (by norm_num)]
  norm_num

theorem toDouble_height_145 :
    toDouble (145 * (7764826943742234 / 2 ^ 54)) = 8796093022207999 / 2 ^ 47 := by
  rw [toDouble_eq _ 5 8796093022207999 (by norm_num) (by norm_num) (by norm_num)
    (by norm_num) (by norm_num)]
  norm_num

/-- A 1856 x 145 image becomes 800 x 62: the quotient `800 / 1856` is rounded
down, so `145 * ratio` is the double just below 62.5, where exact arithmetic
would give 62.5 and round to 63. -/
theorem thumbnailSize_1856_145 : thumbnailSize 1856 145 = (800, 62) := by
  have hr : ratioOf 1856 145 = 7764826943742234 / 2 ^ 54 := by
    unfold ratioOf
    rw [if_neg (by decide), if_neg (by decide)]
    have e1 : ((1856 : ℕ) : ℚ) = 1856 := by norm_num
    have e2 : ((145 : ℕ) : ℚ) = 145 := by norm_num
    rw [e1, e2, toDouble_800_1856, toDouble_800_145]
    norm_num
  have e1 : ((1856 : ℕ) : ℚ) = 1856 := by norm_num
  have e2 : ((145 : ℕ) : ℚ) = 145 := by norm_num
  unfold thumbnailSize
  rw [if_pos (by decide), hr, e1, e2, toDouble_width_1856, toDouble_height_145]
  unfold jsRound
  have f1 : ⌊(800 : ℚ) + 1 / 2⌋ = 800 := by
    rw [Int.floor_eq_iff]
    norm_num
  have f2 : ⌊(8796093022207999 / 2 ^ 47 : ℚ) + 1 / 2⌋ = 62 := by
    rw [Int.floor_eq_iff]
    norm_num
  rw [f1, f2]


/-- C28: for an image with positive integer width and height of which at least
one exceeds 800, both sides of the computed thumbnail (ratio = min(800/width,
800/height), each side rounded to the nearest integer, every quotient and
product first rounded to binary64) are at most 800; an image with both sides at
most 800 keeps its size. -/
theorem thumbnailSize_at_most_800 (width height : Nat) (hw : 0 < width) (hh : 0 < height) :
    (800 < width ∨ 800 < height →
        (thumbnailSize width height).1 ≤ 800 ∧ (thumbnailSize width height).2 ≤ 800) ∧
      (width ≤ 800 → height ≤ 800 →
        thumbnailSize width height = ((width : Int), (height : Int))) := by
  obtain ⟨h0, h1, h2⟩ := ratioOf_bounds width height hw hh
  constructor
  · intro hbig
    unfold thumbnailSize
    rw [if_pos hbig]
    exact ⟨scaled_le_800 width _ hw h0 h1, scaled_le_800 height _ hh h0 h2⟩
  · intro hw8 hh8
    unfold thumbnailSize
    rw [if_neg (by omega)]

/-- Witness for C28: a 1856 x 145 image. -/
theorem thumbnailSize_at_most_800_witness :
    (thumbnailSize 1856 145).1 ≤ 800 ∧ (thumbnailSize 1856 145).2 ≤ 800 :=
  (thumbnailSize_at_most_800 1856 145 (by decide) (by decide)).1 (Or.inl (by decide))

end Script

namespace Interaction

/-! ## The three copies of `moveElement` compared -/

/-- The copies of todo.js and notes.js do the same on every event. -/
theorem moveElement_todo_eq_notes (e : Pointer) (lay : Layout) (st : DragState) :
    moveElement .todo e lay st = moveElement .notes e lay st := by
  unfold moveElement
  cases e <;> rfl

/-- On a mouse move with both coordinates different from 0 the three copies do
the same. -/
theorem moveElement_agree_nonzero (x y : Int) (hx : x ≠ 0) (hy : y ≠ 0) (lay : Layout)
    (st : DragState) (hd : st.isDragging = true) :
    moveElement .todo (.mouse x y) lay st = moveElement .datetime (.mouse x y) lay st ∧
      moveElement .notes (.mouse x y) lay st = moveElement .datetime (.mouse x y) lay st := by
  rw [moveElement_mouse .todo x y lay st hd (Or.inr ⟨hx, hy⟩),
    moveElement_mouse .notes x y lay st hd (Or.inr ⟨hx, hy⟩),
    moveElement_mouse .datetime x y lay st hd (Or.inl rfl)]
  exact ⟨rfl, rfl⟩

/-- C29, evaluated on the code: during a drag with the same snapshot, viewport
and widget size, a mouse move to `clientX = 0` makes datetime.js write
`left = 5px` and `top = 250px` while todo.js and notes.js write nothing, and a
mouse move to `clientY = 0` makes datetime.js write `top = 5px` while todo.js
and notes.js write `left` only and leave `top` as it was. -/
theorem moveElement_diverges_at_zero :
    (midDrag "draggableTodo" "todoPosition").isDragging = true ∧
      (midDrag "draggableTodo" "todoPosition").widget.style.left = "" ∧
      (midDrag "draggableTodo" "todoPosition").widget.style.top = "" ∧
      (moveElement .datetime (.mouse 0 300) roomyLayout
        (midDrag "draggableTodo" "todoPosition")).widget.style.left = px 5 ∧
      (moveElement .datetime (.mouse 0 300) roomyLayout
        (midDrag "draggableTodo" "todoPosition")).widget.style.top = px 250 ∧
      (moveElement .todo (.mouse 0 300) roomyLayout
        (midDrag "draggableTodo" "todoPosition")).widget.style.left = "" ∧
      (moveElement .todo (.mouse 0 300) roomyLayout
        (midDrag "draggableTodo" "todoPosition")).widget.style.top = "" ∧
      (moveElement .notes (.mouse 0 300) roomyLayout
        (midDrag "draggableTodo" "todoPosition")).widget.style.left = "" ∧
      (moveElement .datetime (.mouse 300 0) roomyLayout
        (midDrag "draggableTodo" "todoPosition")).widget.style.top = px 5 ∧
      (moveElement .todo (.mouse 300 0) roomyLayout
        (midDrag "draggableTodo" "todoPosition")).widget.style.left = px 250 ∧
      (moveElement .todo (.mouse 300 0) roomyLayout
        (midDrag "draggableTodo" "todoPosition")).widget.style.top = "" ∧
      (moveElement .notes (.mouse 300 0) roomyLayout
        (midDrag "draggableTodo" "todoPosition")).widget.style.top = "" := by
  decide

end Interaction

namespace LayerSystem

/-! ## Registry and elements agree while nobody interferes -/

theorem defaultZ_ge_base (k : String) (hk : k ∈ ELEMENTS) : Z_INDEX.BASE ≤ defaultZ k := by
  have h0 : (0 : Int) ≤ ((ELEMENTS.indexOf k : Nat) : Int) := Int.ofNat_nonneg _
  simp only [defaultZ, indexOf, if_pos hk, mul_one]
  omega

/-- After a foreign write the watchdog corrects the element but not the
registry: `todo-short`, pushed down to 5 right after `init`, ends with 1000002
on the element and 1000001 recorded. -/
theorem monitorTick_registry_stale :
    stackingOf (monitorTick (interfered 5)) "todo-short" = some 1000002 ∧
      ((monitorTick (interfered 5)).elementRegistry.get "todo-short").map RegistryEntry.zIndex =
        some 1000001 := by
  decide

/-- While only `init`, `raise`, `reset` and the watchdog act: the counter is at
least `BASE`, every existing widget of the static list has a numeric stacking
value of at least `BASE`, and every registry entry belongs to the static list
and records the stacking value set on its element. -/
theorem ReachableManaged.invariant {s : State} (h : ReachableManaged s) :
    Z_INDEX.BASE ≤ s.currentZIndex ∧
      (∀ k ∈ ELEMENTS, ∀ e : Element, getElementById s.dom k = some e →
        ∃ z : Int, e.zIndex = some z ∧ Z_INDEX.BASE ≤ z) ∧
      (∀ (k : String) (r : RegistryEntry), s.elementRegistry.get k = some r →
        k ∈ ELEMENTS ∧ stackingOf s k = some r.zIndex) := by
  have hstep : (0 : Int) ≤ Z_INDEX.STEP := by decide
  induction h with
  | init now d =>
    refine ⟨?_, ?_, ?_⟩
    · rw [init_currentZIndex]
      exact le_refl _
    · intro k hk e he
      rw [init_getElementById now (initial d) rfl k, if_pos hk] at he
      cases hf : getElementById (fixConflicts (initial d)).dom k with
      | none => simp [hf] at he
      | some e0 =>
        rw [hf] at he
        refine ⟨defaultZ k, ?_, defaultZ_ge_base k hk⟩
        rw [← Option.some.inj he]
    · intro k r hr
      rw [init_registry_get now (initial d) rfl k] at hr
      by_cases hc : k ∈ ELEMENTS ∧ (getElementById (initial d).dom k).isSome = true
      · rw [if_pos hc] at hr
        refine ⟨hc.1, ?_⟩
        have hsome : (getElementById (fixConflicts (initial d)).dom k).isSome = true := by
          rw [fixConflicts_isSome]
          exact hc.2
        obtain ⟨e0, he0⟩ := Option.isSome_iff_exists.mp hsome
        unfold stackingOf
        rw [init_getElementById now (initial d) rfl k, if_pos hc.1, he0,
          ← Option.some.inj hr]
        rfl
      · rw [if_neg hc] at hr
        simp [initial, Registry.get] at hr
  | @raise now id t _ ih =>
    obtain ⟨ih1, ih2, ih3⟩ := ih
    cases hg : getElementById t.dom id with
    | none =>
      rw [raise_of_missing now id t hg]
      exact ⟨ih1, ih2, ih3⟩
    | some e0 =>
      have hcur : Z_INDEX.BASE ≤ (LayerSystem.raise now id t).2.currentZIndex := by
        rw [raise_currentZIndex now id t e0 hg]
        by_cases hw : t.currentZIndex + Z_INDEX.STEP > Z_INDEX.MAX_SAFE
        · rw [if_pos hw]
        · rw [if_neg hw]; omega
      refine ⟨hcur, ?_, ?_⟩
      · intro k hk e he
        rw [raise_getElementById now id t e0 hg k] at he
        by_cases hkid : k = id
        · rw [if_pos hkid] at he
          refine ⟨(LayerSystem.raise now id t).2.currentZIndex, ?_, hcur⟩
          rw [← Option.some.inj he]
        · rw [if_neg hkid, if_pos hk] at he
          cases hk0 : getElementById t.dom k with
          | none => simp [hk0] at he
          | some e1 =>
            rw [hk0] at he
            obtain ⟨z, hz, hzb⟩ := ih2 k hk e1 hk0
            refine ⟨z, ?_, hzb⟩
            rw [← Option.some.inj he]
            exact hz
      · intro k r hr
        rw [raise_registry_get now id t e0 hg k] at hr
        by_cases hkid : k = id
        · rw [if_pos hkid] at hr
          cases hr0 : t.elementRegistry.get k with
          | none => simp [hr0] at hr
          | some r0 =>
            rw [hr0] at hr
            refine ⟨(ih3 k r0 hr0).1, ?_⟩
            rw [hkid, raise_stackingOf_self now id t e0 hg, ← Option.some.inj hr]
        · rw [if_neg hkid] at hr
          refine ⟨(ih3 k r hr).1, ?_⟩
          rw [raise_stackingOf_other now id t e0 hg k hkid]
          exact (ih3 k r hr).2
  | @reset t _ ih =>
    obtain ⟨_, _, ih3⟩ := ih
    refine ⟨by rw [reset_currentZIndex], ?_, ?_⟩
    · intro k hk e he
      rw [reset_getElementById, if_pos hk] at he
      cases hk0 : getElementById t.dom k with
      | none => simp [hk0] at he
      | some e1 =>
        rw [hk0] at he
        refine ⟨defaultZ k, ?_, defaultZ_ge_base k hk⟩
        rw [← Option.some.inj he]
    · intro k r hr
      rw [reset_registry_get] at hr
      cases hr0 : t.elementRegistry.get k with
      | none =>
        rw [hr0] at hr
        by_cases hc : k ∈ ELEMENTS ∧ (getElementById t.dom k).isSome = true
        · simp [hc] at hr
        · simp [hc] at hr
      | some r0 =>
        obtain ⟨hmem, hst⟩ := ih3 k r0 hr0
        have hex : (getElementById t.dom k).isSome = true := by
          unfold stackingOf at hst
          cases hk0 : getElementById t.dom k with
          | none => simp [hk0] at hst
          | some e1 => rfl
        obtain ⟨e1, he1⟩ := Option.isSome_iff_exists.mp hex
        rw [hr0, if_pos ⟨hmem, hex⟩] at hr
        refine ⟨hmem, ?_⟩
        unfold stackingOf
        rw [reset_getElementById, if_pos hmem, he1, ← Option.some.inj hr]
        rfl
  | @tick t _ ih =>
    obtain ⟨ih1, ih2, ih3⟩ := ih
    have hsame : ∀ k ∈ ELEMENTS,
        getElementById (monitorTick t).dom k = getElementById t.dom k := by
      intro k hk
      apply foldl_monitorStep_skip
      intro e he hc
      obtain ⟨z, hz, hzb⟩ := ih2 k hk e he
      have : computedZ e = z := by simp [computedZ, hz]
      omega
    refine ⟨le_trans ih1 (monitorTick_counter_le t), ?_, ?_⟩
    · intro k hk e he
      rw [hsame k hk] at he
      exact ih2 k hk e he
    · intro k r hr
      rw [monitorTick_registry] at hr
      obtain ⟨hmem, hst⟩ := ih3 k r hr
      exact ⟨hmem, by rw [stackingOf_congr (hsame k hmem)]; exact hst⟩

namespace Registry

theorem keys_set (m : Registry) (k : String) (v : RegistryEntry) :
    (set m k v).map Prod.fst =
      if k ∈ m.map Prod.fst then m.map Prod.fst else m.map Prod.fst ++ [k] := by
  induction m with
  | nil => simp [set]
  | cons p rest ih =>
    obtain ⟨a, b⟩ := p
    by_cases ha : a = k
    · subst ha
      simp [set]
    · have hk : ¬ k = a := fun e => ha e.symm
      by_cases hm : k ∈ rest.map Prod.fst
      · simp only [set, if_neg ha, List.map_cons, ih, if_pos hm, List.mem_cons, hk, false_or]
      · simp only [set, if_neg ha, List.map_cons, ih, if_neg hm, List.mem_cons, hk, false_or,
          List.cons_append]

theorem keys_modify (m : Registry) (k : String) (f : RegistryEntry → RegistryEntry) :
    (modify m k f).map Prod.fst = m.map Prod.fst := by
  induction m with
  | nil => rfl
  | cons p rest ih =>
    obtain ⟨a, b⟩ := p
    by_cases ha : a = k
    · simp [modify, ha]
    · simp [modify, ha, ih]

theorem nodup_set (m : Registry) (k : String) (v : RegistryEntry)
    (h : (m.map Prod.fst).Nodup) : ((set m k v).map Prod.fst).Nodup := by
  rw [keys_set]
  by_cases hm : k ∈ m.map Prod.fst
  · rw [if_pos hm]
    exact h
  · rw [if_neg hm]
    exact List.Nodup.append h (List.nodup_singleton k) (by
      intro a ha hb
      rw [List.mem_singleton] at hb
      exact hm (hb ▸ ha))

/-- With distinct keys, every entry of the list is the one `get` finds. -/
theorem get_of_mem (m : Registry) (h : (m.map Prod.fst).Nodup) (p : String × RegistryEntry)
    (hp : p ∈ m) : get m p.1 = some p.2 := by
  induction m with
  | nil => simp at hp
  | cons q rest ih =>
    obtain ⟨a, b⟩ := q
    rw [List.map_cons, List.nodup_cons] at h
    rcases List.mem_cons.mp hp with hq | hq
    · subst hq
      simp [get]
    · have hne : ¬ a = p.1 := by
        intro e
        apply h.1
        rw [e]
        exact List.mem_map.mpr ⟨p, hq, rfl⟩
      simp only [get, if_neg hne]
      exact ih h.2 hq

end Registry

/-- The registry never holds a key twice. -/
theorem ReachableManaged.keys_nodup {s : State} (h : ReachableManaged s) :
    (s.elementRegistry.map Prod.fst).Nodup := by
  induction h with
  | init now d =>
    simp only [LayerSystem.init, initial, Bool.false_eq_true, if_false, startMonitoring]
    refine foldl_keeps (fun t : State => (t.elementRegistry.map Prod.fst).Nodup)
      (initRegisterStep now) ?_ ELEMENTS _ ?_
    · intro b a hb
      show ((initRegisterStep now b a).elementRegistry.map Prod.fst).Nodup
      unfold initRegisterStep
      cases getElementById b.dom a with
      | none => exact hb
      | some e =>
        by_cases ha : a = ""
        · simpa [register, ha] using hb
        · simp only [register, if_neg ha]
          exact Registry.nodup_set _ _ _ hb
    · simp [fixConflicts]
  | @raise now id t _ ih =>
    cases hg : getElementById t.dom id with
    | none =>
      rw [raise_of_missing now id t hg]
      exact ih
    | some e0 =>
      rw [raise_of_exists now id t e0 hg]
      by_cases hr : t.elementRegistry.has id = true
      · simp only [hr, if_true, Registry.keys_modify]
        exact ih
      · simp only [hr]
        exact ih
  | @reset t _ ih =>
    unfold LayerSystem.reset
    refine foldl_keeps (fun u : State => (u.elementRegistry.map Prod.fst).Nodup) resetStep ?_
      _ _ ih
    intro b a hb
    show ((resetStep b a).elementRegistry.map Prod.fst).Nodup
    unfold resetStep
    cases getElementById b.dom a.1 with
    | none => exact hb
    | some e =>
      by_cases hr : b.elementRegistry.has a.1 = true
      · simp only [hr, if_true, Registry.keys_modify]
        exact hb
      · simp only [hr]
        exact hb
  | @tick t _ ih =>
    rw [monitorTick_registry]
    exact ih

/-- While no foreign code writes to the elements, so that every watchdog tick
finds nothing to correct, the stacking value the registry records for a widget
is the one set on its element, and so is every value `stats()` reports: `init`,
`raise` and `reset` write the registry together with the element. -/
theorem registry_matches_elements (s : State) (hs : ReachableManaged s) :
    (∀ (id : String) (r : RegistryEntry), s.elementRegistry.get id = some r →
        stackingOf s id = some r.zIndex) ∧
      ∀ p ∈ stats s, stackingOf s p.1 = some p.2 := by
  refine ⟨fun id r hr => (hs.invariant.2.2 id r hr).2, fun p hp => ?_⟩
  unfold stats at hp
  obtain ⟨q, hq, hqp⟩ := List.mem_map.mp hp
  have hget := Registry.get_of_mem s.elementRegistry hs.keys_nodup q hq
  rw [← hqp]
  exact (hs.invariant.2.2 q.1 q.2 hget).2

/-- C30, evaluated on the code. After `init` and the first mousedown on the body
of the notes widget, `raise` has put 1000002 on the element and in the registry
and `bringToFront` of notes.js has overwritten the element with 1. The next
watchdog tick, a step of the coordinator itself, assigns 1000004 to the element
and to the counter, but the registry, and with it `stats()`, still says
1000002. A further `raise` or a `reset` writes both again. -/
theorem monitorTick_leaves_registry_behind :
    Reachable Notes.pressedNotesBody ∧
      registered Notes.pressedNotesBody "notes-widget" = true ∧
      stackingOf Notes.pressedNotesBody "notes-widget" = some 1 ∧
      stackingOf (monitorTick Notes.pressedNotesBody) "notes-widget" = some 1000004 ∧
      (monitorTick Notes.pressedNotesBody).currentZIndex = 1000004 ∧
      ((monitorTick Notes.pressedNotesBody).elementRegistry.get "notes-widget").map
        RegistryEntry.zIndex = some 1000002 ∧
      ("notes-widget", 1000002) ∈ stats (monitorTick Notes.pressedNotesBody) ∧
      stackingOf (raise 2 "notes-widget" (monitorTick Notes.pressedNotesBody)).2
        "notes-widget" = some 1000006 ∧
      ((raise 2 "notes-widget" (monitorTick Notes.pressedNotesBody)).2.elementRegistry.get
        "notes-widget").map RegistryEntry.zIndex = some 1000006 ∧
      stackingOf (reset (monitorTick Notes.pressedNotesBody)) "notes-widget" = some 1000002 ∧
      ((reset (monitorTick Notes.pressedNotesBody)).elementRegistry.get
        "notes-widget").map RegistryEntry.zIndex = some 1000002 :=
  ⟨Reachable.setZIndex (Reachable.raise 1 "notes-widget" (Reachable.init 0 fullDom))
      "notes-widget" 1,
    by decide, by decide, by decide, by decide, by decide, by decide, by decide, by decide,
    by decide, by decide⟩

end LayerSystem
